import Mathlib

set_option maxHeartbeats 4000000
set_option maxRecDepth 4000

/-!
Shallow embedding of the QR code generator from `src/qr/src/lib.rs` of the
repository, together with proofs about the claims on it.

Machine integers (`u8`, `u16`, `u32`, `usize`) are embedded as `Nat`: in the
embedded code paths no arithmetic ever overflows the source types (all values
stay far below the type bounds), and `usize` subtraction in the source only
happens where no underflow occurs or via `saturating_sub`, which coincides
with truncated `Nat` subtraction.  Rust's panicking index `v[i]` is embedded
as `List.getD`, and panicking writes as `List.set`-style updates; every
embedded call site is in bounds in the reachable states.  Fallible code
(`Result<_, String>`) is embedded as `Except String _`.
-/

/-- `ErrorCorrectionLevel` from the source: L, M, Q, H (discriminants 0-3). -/
inductive ErrorCorrectionLevel where
  | L
  | M
  | Q
  | H
deriving DecidableEq, Repr

namespace ErrorCorrectionLevel

/-- The enum discriminant (`ecl as usize` in the source). -/
def toIndex : ErrorCorrectionLevel → Nat
  | L => 0
  | M => 1
  | Q => 2
  | H => 3

/-- `ErrorCorrectionLevel::format_info_bits`: the 2-bit format-info indicator
(L = 01, M = 00, Q = 11, H = 10), which differs from the enum ordering. -/
def formatInfoBits : ErrorCorrectionLevel → Nat
  | L => 0b01
  | M => 0b00
  | Q => 0b11
  | H => 0b10

end ErrorCorrectionLevel

/-- The byte-mode capacity table of `find_min_version`: entry `v - 1` holds
the `(L, M, Q, H)` byte capacities of version `v`. -/
def capacities : List (Nat × Nat × Nat × Nat) :=
  [(17, 14, 11, 7),
   (32, 26, 20, 14),
   (53, 42, 32, 24),
   (78, 62, 46, 34),
   (106, 84, 60, 44),
   (134, 106, 74, 58),
   (154, 122, 86, 64),
   (192, 152, 108, 84),
   (230, 180, 130, 98),
   (271, 213, 151, 119),
   (321, 251, 177, 137),
   (367, 287, 203, 155),
   (425, 331, 241, 177),
   (458, 362, 258, 194),
   (520, 412, 292, 220),
   (586, 450, 322, 250),
   (644, 504, 364, 280),
   (718, 560, 394, 310),
   (792, 624, 442, 338),
   (858, 666, 482, 382),
   (929, 711, 509, 403),
   (1003, 779, 565, 439),
   (1091, 857, 611, 461),
   (1171, 911, 661, 511),
   (1273, 997, 715, 535),
   (1367, 1059, 751, 593),
   (1465, 1125, 805, 625),
   (1528, 1190, 868, 658),
   (1628, 1264, 908, 698),
   (1732, 1370, 982, 742),
   (1840, 1452, 1030, 790),
   (1952, 1538, 1112, 842),
   (2068, 1628, 1168, 898),
   (2188, 1722, 1228, 958),
   (2303, 1809, 1283, 983),
   (2431, 1911, 1351, 1051),
   (2563, 1989, 1423, 1093),
   (2699, 2099, 1499, 1139),
   (2809, 2213, 1579, 1219),
   (2953, 2331, 1663, 1273)]

/-- The `match ecl` selection of one component of a capacity table row. -/
def capSelect (cap : Nat × Nat × Nat × Nat) : ErrorCorrectionLevel → Nat
  | .L => cap.1
  | .M => cap.2.1
  | .Q => cap.2.2.1
  | .H => cap.2.2.2

/-- The loop of `find_min_version`: walk the capacity table, returning
`Ok (version_idx + 1)` at the first row whose capacity is at least
`data_len`, and the error after exhausting the table. -/
def findMinVersionAux (dataLen : Nat) (ecl : ErrorCorrectionLevel) :
    List (Nat × Nat × Nat × Nat) → Nat → Except String Nat
  | [], _ => .error "Data too large for QR code"
  | cap :: rest, idx =>
    if dataLen ≤ capSelect cap ecl then .ok (idx + 1)
    else findMinVersionAux dataLen ecl rest (idx + 1)

/-- `QrCode::find_min_version`. -/
def findMinVersion (dataLen : Nat) (ecl : ErrorCorrectionLevel) : Except String Nat :=
  findMinVersionAux dataLen ecl capacities 0

/-- Byte-mode capacity of a version at a level (a direct read of the table
of `find_min_version`). -/
def byteCapacity (version : Nat) (ecl : ErrorCorrectionLevel) : Nat :=
  capSelect (capacities.getD (version - 1) (0, 0, 0, 0)) ecl

/-- `TOTAL_CODEWORDS` from `QrCode::get_total_codewords`. -/
def TOTAL_CODEWORDS : List Nat :=
  [26, 44, 70, 100, 134, 172, 196, 242, 292, 346, 404, 466, 532, 581, 655, 733, 815, 901, 991, 1085, 1156, 1258, 1364, 1474, 1588, 1706, 1828, 1921, 2051, 2185, 2323, 2465, 2611, 2761, 2876, 3034, 3196, 3362, 3532, 3706]

/-- `QrCode::get_total_codewords`. -/
def getTotalCodewords (version : Nat) : Nat :=
  TOTAL_CODEWORDS.getD (version - 1) 0

/-- The `params` table of `QrCode::get_ec_params`: entry `v - 1` lists
`(num_blocks, ec_codewords_per_block)` for levels L, M, Q, H. -/
def ecParamsTable : List (List (Nat × Nat)) :=
  [[(1, 7), (1, 10), (1, 13), (1, 17)],
   [(1, 10), (1, 16), (1, 22), (1, 28)],
   [(1, 15), (1, 26), (2, 18), (2, 22)],
   [(1, 20), (2, 18), (2, 26), (4, 16)],
   [(1, 26), (2, 24), (4, 18), (4, 22)],
   [(2, 18), (4, 16), (4, 24), (4, 28)],
   [(2, 20), (4, 18), (6, 18), (5, 26)],
   [(2, 24), (4, 22), (6, 22), (6, 26)],
   [(2, 30), (5, 22), (8, 20), (8, 24)],
   [(4, 18), (5, 26), (8, 24), (8, 28)],
   [(4, 20), (5, 30), (8, 28), (11, 24)],
   [(4, 24), (8, 22), (10, 26), (11, 28)],
   [(4, 26), (9, 22), (12, 24), (16, 22)],
   [(4, 30), (9, 24), (16, 20), (16, 24)],
   [(6, 22), (10, 24), (12, 30), (18, 24)],
   [(6, 24), (10, 28), (17, 24), (16, 30)],
   [(6, 28), (11, 28), (16, 28), (19, 28)],
   [(6, 30), (13, 26), (18, 28), (21, 28)],
   [(7, 28), (14, 26), (21, 26), (25, 26)],
   [(8, 28), (16, 26), (20, 30), (25, 28)],
   [(8, 28), (17, 26), (23, 28), (25, 30)],
   [(9, 28), (17, 28), (23, 30), (34, 24)],
   [(9, 30), (18, 28), (25, 30), (30, 30)],
   [(10, 30), (20, 28), (27, 30), (32, 30)],
   [(12, 26), (21, 28), (29, 30), (35, 30)],
   [(12, 28), (23, 28), (34, 28), (37, 30)],
   [(12, 30), (25, 28), (34, 30), (40, 30)],
   [(13, 30), (26, 28), (35, 30), (42, 30)],
   [(14, 30), (28, 28), (38, 30), (45, 30)],
   [(15, 30), (29, 28), (40, 30), (48, 30)],
   [(16, 30), (31, 28), (43, 30), (51, 30)],
   [(17, 30), (33, 28), (45, 30), (54, 30)],
   [(18, 30), (35, 28), (48, 30), (57, 30)],
   [(19, 30), (37, 28), (51, 30), (60, 30)],
   [(19, 30), (38, 28), (53, 30), (63, 30)],
   [(20, 30), (40, 28), (56, 30), (66, 30)],
   [(21, 30), (43, 28), (59, 30), (70, 30)],
   [(22, 30), (45, 28), (62, 30), (74, 30)],
   [(24, 30), (47, 28), (65, 30), (77, 30)],
   [(25, 30), (49, 28), (68, 30), (81, 30)]]

/-- `QrCode::get_ec_params`. -/
def getEcParams (version : Nat) (ecl : ErrorCorrectionLevel) : Nat × Nat :=
  (ecParamsTable.getD (version - 1) []).getD ecl.toIndex (0, 0)

/-- `QrCode::get_data_codewords`. -/
def getDataCodewords (version : Nat) (ecl : ErrorCorrectionLevel) : Nat :=
  getTotalCodewords version - (getEcParams version ecl).1 * (getEcParams version ecl).2

namespace GF256

/-- The loop step of `GF256::generate_exp_table`:
`x <<= 1; if x >= 256 { x ^= 0x11D }` (multiplication by α = 0x02). -/
def xtime (x : Nat) : Nat :=
  let y := x <<< 1
  if 256 ≤ y then y ^^^ 0x11D else y

/-- The iteration of `GF256::generate_exp_table`: produce `n` successive
values starting from `x`, stepping by `xtime`. -/
def expAux : Nat → Nat → List Nat
  | 0, _ => []
  | n + 1, x => x :: expAux n (xtime x)

/-- `GF256::generate_exp_table`: 255 generated entries, with
`table[255] = table[0]` appended for wraparound. -/
def generateExpTable : List Nat :=
  let t := expAux 255 1
  t ++ [t.headD 0]

/-- `GF256::generate_log_table`: start from 256 zeros and set
`table[exp[i]] = i` for `i` in `0..255`. -/
def generateLogTable : List Nat :=
  (List.range 255).foldl (fun tbl i => tbl.set (generateExpTable.getD i 0) i)
    (List.replicate 256 0)

/-- `GF256::EXP`, the compile-time constant antilog table, given by value.
`EXP_eq_generated` proves it equal to the source's generator. -/
def EXP : List Nat :=
  [1, 2, 4, 8, 16, 32, 64, 128, 29, 58, 116, 232, 205, 135, 19, 38,
   76, 152, 45, 90, 180, 117, 234, 201, 143, 3, 6, 12, 24, 48, 96, 192,
   157, 39, 78, 156, 37, 74, 148, 53, 106, 212, 181, 119, 238, 193, 159, 35,
   70, 140, 5, 10, 20, 40, 80, 160, 93, 186, 105, 210, 185, 111, 222, 161,
   95, 190, 97, 194, 153, 47, 94, 188, 101, 202, 137, 15, 30, 60, 120, 240,
   253, 231, 211, 187, 107, 214, 177, 127, 254, 225, 223, 163, 91, 182, 113, 226,
   217, 175, 67, 134, 17, 34, 68, 136, 13, 26, 52, 104, 208, 189, 103, 206,
   129, 31, 62, 124, 248, 237, 199, 147, 59, 118, 236, 197, 151, 51, 102, 204,
   133, 23, 46, 92, 184, 109, 218, 169, 79, 158, 33, 66, 132, 21, 42, 84,
   168, 77, 154, 41, 82, 164, 85, 170, 73, 146, 57, 114, 228, 213, 183, 115,
   230, 209, 191, 99, 198, 145, 63, 126, 252, 229, 215, 179, 123, 246, 241, 255,
   227, 219, 171, 75, 150, 49, 98, 196, 149, 55, 110, 220, 165, 87, 174, 65,
   130, 25, 50, 100, 200, 141, 7, 14, 28, 56, 112, 224, 221, 167, 83, 166,
   81, 162, 89, 178, 121, 242, 249, 239, 195, 155, 43, 86, 172, 69, 138, 9,
   18, 36, 72, 144, 61, 122, 244, 245, 247, 243, 251, 235, 203, 139, 11, 22,
   44, 88, 176, 125, 250, 233, 207, 131, 27, 54, 108, 216, 173, 71, 142, 1]

/-- `GF256::LOG`, the compile-time constant log table, given by value.
`LOG_eq_generated` proves it equal to the source's generator. -/
def LOG : List Nat :=
  [0, 0, 1, 25, 2, 50, 26, 198, 3, 223, 51, 238, 27, 104, 199, 75,
   4, 100, 224, 14, 52, 141, 239, 129, 28, 193, 105, 248, 200, 8, 76, 113,
   5, 138, 101, 47, 225, 36, 15, 33, 53, 147, 142, 218, 240, 18, 130, 69,
   29, 181, 194, 125, 106, 39, 249, 185, 201, 154, 9, 120, 77, 228, 114, 166,
   6, 191, 139, 98, 102, 221, 48, 253, 226, 152, 37, 179, 16, 145, 34, 136,
   54, 208, 148, 206, 143, 150, 219, 189, 241, 210, 19, 92, 131, 56, 70, 64,
   30, 66, 182, 163, 195, 72, 126, 110, 107, 58, 40, 84, 250, 133, 186, 61,
   202, 94, 155, 159, 10, 21, 121, 43, 78, 212, 229, 172, 115, 243, 167, 87,
   7, 112, 192, 247, 140, 128, 99, 13, 103, 74, 222, 237, 49, 197, 254, 24,
   227, 165, 153, 119, 38, 184, 180, 124, 17, 68, 146, 217, 35, 32, 137, 46,
   55, 63, 209, 91, 149, 188, 207, 205, 144, 135, 151, 178, 220, 252, 190, 97,
   242, 86, 211, 171, 20, 42, 93, 158, 132, 60, 57, 83, 71, 109, 65, 162,
   31, 45, 67, 216, 183, 123, 164, 118, 196, 23, 73, 236, 127, 12, 111, 246,
   108, 161, 59, 82, 41, 157, 85, 170, 251, 96, 134, 177, 187, 204, 62, 90,
   203, 89, 95, 176, 156, 169, 160, 81, 11, 245, 22, 235, 122, 117, 44, 215,
   79, 174, 213, 233, 230, 231, 173, 232, 116, 214, 244, 234, 168, 80, 88, 175]

/-- `GF256::mul`. -/
def mul (a b : Nat) : Nat :=
  if a = 0 ∨ b = 0 then 0
  else EXP.getD ((LOG.getD a 0 + LOG.getD b 0) % 255) 0

/-- `GF256::exp`. -/
def exp (n : Nat) : Nat :=
  EXP.getD n 0

/-- Balanced decision-tree form of the antilog table, used only to keep
kernel evaluation of exhaustive checks cheap; `expFast_eq` ties it to `EXP`. -/
def expFast (n : Nat) : Nat :=
  (if n < 128 then (if n < 64 then (if n < 32 then (if n < 16 then (if n < 8 then (if n < 4 then (if n < 2 then (if n < 1 then 1 else 2) else (if n < 3 then 4 else 8)) else (if n < 6 then (if n < 5 then 16 else 32) else (if n < 7 then 64 else 128))) else (if n < 12 then (if n < 10 then (if n < 9 then 29 else 58) else (if n < 11 then 116 else 232)) else (if n < 14 then (if n < 13 then 205 else 135) else (if n < 15 then 19 else 38)))) else (if n < 24 then (if n < 20 then (if n < 18 then (if n < 17 then 76 else 152) else (if n < 19 then 45 else 90)) else (if n < 22 then (if n < 21 then 180 else 117) else (if n < 23 then 234 else 201))) else (if n < 28 then (if n < 26 then (if n < 25 then 143 else 3) else (if n < 27 then 6 else 12)) else (if n < 30 then (if n < 29 then 24 else 48) else (if n < 31 then 96 else 192))))) else (if n < 48 then (if n < 40 then (if n < 36 then (if n < 34 then (if n < 33 then 157 else 39) else (if n < 35 then 78 else 156)) else (if n < 38 then (if n < 37 then 37 else 74) else (if n < 39 then 148 else 53))) else (if n < 44 then (if n < 42 then (if n < 41 then 106 else 212) else (if n < 43 then 181 else 119)) else (if n < 46 then (if n < 45 then 238 else 193) else (if n < 47 then 159 else 35)))) else (if n < 56 then (if n < 52 then (if n < 50 then (if n < 49 then 70 else 140) else (if n < 51 then 5 else 10)) else (if n < 54 then (if n < 53 then 20 else 40) else (if n < 55 then 80 else 160))) else (if n < 60 then (if n < 58 then (if n < 57 then 93 else 186) else (if n < 59 then 105 else 210)) else (if n < 62 then (if n < 61 then 185 else 111) else (if n < 63 then 222 else 161)))))) else (if n < 96 then (if n < 80 then (if n < 72 then (if n < 68 then (if n < 66 then (if n < 65 then 95 else 190) else (if n < 67 then 97 else 194)) else (if n < 70 then (if n < 69 then 153 else 47) else (if n < 71 then 94 else 188))) else (if n < 76 then (if n < 74 then (if n < 73 then 101 else 202) else (if n < 75 then 137 else 15)) else (if n < 78 then (if n < 77 then 30 else 60) else (if n < 79 then 120 else 240)))) else (if n < 88 then (if n < 84 then (if n < 82 then (if n < 81 then 253 else 231) else (if n < 83 then 211 else 187)) else (if n < 86 then (if n < 85 then 107 else 214) else (if n < 87 then 177 else 127))) else (if n < 92 then (if n < 90 then (if n < 89 then 254 else 225) else (if n < 91 then 223 else 163)) else (if n < 94 then (if n < 93 then 91 else 182) else (if n < 95 then 113 else 226))))) else (if n < 112 then (if n < 104 then (if n < 100 then (if n < 98 then (if n < 97 then 217 else 175) else (if n < 99 then 67 else 134)) else (if n < 102 then (if n < 101 then 17 else 34) else (if n < 103 then 68 else 136))) else (if n < 108 then (if n < 106 then (if n < 105 then 13 else 26) else (if n < 107 then 52 else 104)) else (if n < 110 then (if n < 109 then 208 else 189) else (if n < 111 then 103 else 206)))) else (if n < 120 then (if n < 116 then (if n < 114 then (if n < 113 then 129 else 31) else (if n < 115 then 62 else 124)) else (if n < 118 then (if n < 117 then 248 else 237) else (if n < 119 then 199 else 147))) else (if n < 124 then (if n < 122 then (if n < 121 then 59 else 118) else (if n < 123 then 236 else 197)) else (if n < 126 then (if n < 125 then 151 else 51) else (if n < 127 then 102 else 204))))))) else (if n < 192 then (if n < 160 then (if n < 144 then (if n < 136 then (if n < 132 then (if n < 130 then (if n < 129 then 133 else 23) else (if n < 131 then 46 else 92)) else (if n < 134 then (if n < 133 then 184 else 109) else (if n < 135 then 218 else 169))) else (if n < 140 then (if n < 138 then (if n < 137 then 79 else 158) else (if n < 139 then 33 else 66)) else (if n < 142 then (if n < 141 then 132 else 21) else (if n < 143 then 42 else 84)))) else (if n < 152 then (if n < 148 then (if n < 146 then (if n < 145 then 168 else 77) else (if n < 147 then 154 else 41)) else (if n < 150 then (if n < 149 then 82 else 164) else (if n < 151 then 85 else 170))) else (if n < 156 then (if n < 154 then (if n < 153 then 73 else 146) else (if n < 155 then 57 else 114)) else (if n < 158 then (if n < 157 then 228 else 213) else (if n < 159 then 183 else 115))))) else (if n < 176 then (if n < 168 then (if n < 164 then (if n < 162 then (if n < 161 then 230 else 209) else (if n < 163 then 191 else 99)) else (if n < 166 then (if n < 165 then 198 else 145) else (if n < 167 then 63 else 126))) else (if n < 172 then (if n < 170 then (if n < 169 then 252 else 229) else (if n < 171 then 215 else 179)) else (if n < 174 then (if n < 173 then 123 else 246) else (if n < 175 then 241 else 255)))) else (if n < 184 then (if n < 180 then (if n < 178 then (if n < 177 then 227 else 219) else (if n < 179 then 171 else 75)) else (if n < 182 then (if n < 181 then 150 else 49) else (if n < 183 then 98 else 196))) else (if n < 188 then (if n < 186 then (if n < 185 then 149 else 55) else (if n < 187 then 110 else 220)) else (if n < 190 then (if n < 189 then 165 else 87) else (if n < 191 then 174 else 65)))))) else (if n < 224 then (if n < 208 then (if n < 200 then (if n < 196 then (if n < 194 then (if n < 193 then 130 else 25) else (if n < 195 then 50 else 100)) else (if n < 198 then (if n < 197 then 200 else 141) else (if n < 199 then 7 else 14))) else (if n < 204 then (if n < 202 then (if n < 201 then 28 else 56) else (if n < 203 then 112 else 224)) else (if n < 206 then (if n < 205 then 221 else 167) else (if n < 207 then 83 else 166)))) else (if n < 216 then (if n < 212 then (if n < 210 then (if n < 209 then 81 else 162) else (if n < 211 then 89 else 178)) else (if n < 214 then (if n < 213 then 121 else 242) else (if n < 215 then 249 else 239))) else (if n < 220 then (if n < 218 then (if n < 217 then 195 else 155) else (if n < 219 then 43 else 86)) else (if n < 222 then (if n < 221 then 172 else 69) else (if n < 223 then 138 else 9))))) else (if n < 240 then (if n < 232 then (if n < 228 then (if n < 226 then (if n < 225 then 18 else 36) else (if n < 227 then 72 else 144)) else (if n < 230 then (if n < 229 then 61 else 122) else (if n < 231 then 244 else 245))) else (if n < 236 then (if n < 234 then (if n < 233 then 247 else 243) else (if n < 235 then 251 else 235)) else (if n < 238 then (if n < 237 then 203 else 139) else (if n < 239 then 11 else 22)))) else (if n < 248 then (if n < 244 then (if n < 242 then (if n < 241 then 44 else 88) else (if n < 243 then 176 else 125)) else (if n < 246 then (if n < 245 then 250 else 233) else (if n < 247 then 207 else 131))) else (if n < 252 then (if n < 250 then (if n < 249 then 27 else 54) else (if n < 251 then 108 else 216)) else (if n < 254 then (if n < 253 then 173 else 71) else (if n < 255 then 142 else 1))))))))

/-- Balanced decision-tree form of the log table; `logFast_eq` ties it
to `LOG`. -/
def logFast (n : Nat) : Nat :=
  (if n < 128 then (if n < 64 then (if n < 32 then (if n < 16 then (if n < 8 then (if n < 4 then (if n < 2 then (if n < 1 then 0 else 0) else (if n < 3 then 1 else 25)) else (if n < 6 then (if n < 5 then 2 else 50) else (if n < 7 then 26 else 198))) else (if n < 12 then (if n < 10 then (if n < 9 then 3 else 223) else (if n < 11 then 51 else 238)) else (if n < 14 then (if n < 13 then 27 else 104) else (if n < 15 then 199 else 75)))) else (if n < 24 then (if n < 20 then (if n < 18 then (if n < 17 then 4 else 100) else (if n < 19 then 224 else 14)) else (if n < 22 then (if n < 21 then 52 else 141) else (if n < 23 then 239 else 129))) else (if n < 28 then (if n < 26 then (if n < 25 then 28 else 193) else (if n < 27 then 105 else 248)) else (if n < 30 then (if n < 29 then 200 else 8) else (if n < 31 then 76 else 113))))) else (if n < 48 then (if n < 40 then (if n < 36 then (if n < 34 then (if n < 33 then 5 else 138) else (if n < 35 then 101 else 47)) else (if n < 38 then (if n < 37 then 225 else 36) else (if n < 39 then 15 else 33))) else (if n < 44 then (if n < 42 then (if n < 41 then 53 else 147) else (if n < 43 then 142 else 218)) else (if n < 46 then (if n < 45 then 240 else 18) else (if n < 47 then 130 else 69)))) else (if n < 56 then (if n < 52 then (if n < 50 then (if n < 49 then 29 else 181) else (if n < 51 then 194 else 125)) else (if n < 54 then (if n < 53 then 106 else 39) else (if n < 55 then 249 else 185))) else (if n < 60 then (if n < 58 then (if n < 57 then 201 else 154) else (if n < 59 then 9 else 120)) else (if n < 62 then (if n < 61 then 77 else 228) else (if n < 63 then 114 else 166)))))) else (if n < 96 then (if n < 80 then (if n < 72 then (if n < 68 then (if n < 66 then (if n < 65 then 6 else 191) else (if n < 67 then 139 else 98)) else (if n < 70 then (if n < 69 then 102 else 221) else (if n < 71 then 48 else 253))) else (if n < 76 then (if n < 74 then (if n < 73 then 226 else 152) else (if n < 75 then 37 else 179)) else (if n < 78 then (if n < 77 then 16 else 145) else (if n < 79 then 34 else 136)))) else (if n < 88 then (if n < 84 then (if n < 82 then (if n < 81 then 54 else 208) else (if n < 83 then 148 else 206)) else (if n < 86 then (if n < 85 then 143 else 150) else (if n < 87 then 219 else 189))) else (if n < 92 then (if n < 90 then (if n < 89 then 241 else 210) else (if n < 91 then 19 else 92)) else (if n < 94 then (if n < 93 then 131 else 56) else (if n < 95 then 70 else 64))))) else (if n < 112 then (if n < 104 then (if n < 100 then (if n < 98 then (if n < 97 then 30 else 66) else (if n < 99 then 182 else 163)) else (if n < 102 then (if n < 101 then 195 else 72) else (if n < 103 then 126 else 110))) else (if n < 108 then (if n < 106 then (if n < 105 then 107 else 58) else (if n < 107 then 40 else 84)) else (if n < 110 then (if n < 109 then 250 else 133) else (if n < 111 then 186 else 61)))) else (if n < 120 then (if n < 116 then (if n < 114 then (if n < 113 then 202 else 94) else (if n < 115 then 155 else 159)) else (if n < 118 then (if n < 117 then 10 else 21) else (if n < 119 then 121 else 43))) else (if n < 124 then (if n < 122 then (if n < 121 then 78 else 212) else (if n < 123 then 229 else 172)) else (if n < 126 then (if n < 125 then 115 else 243) else (if n < 127 then 167 else 87))))))) else (if n < 192 then (if n < 160 then (if n < 144 then (if n < 136 then (if n < 132 then (if n < 130 then (if n < 129 then 7 else 112) else (if n < 131 then 192 else 247)) else (if n < 134 then (if n < 133 then 140 else 128) else (if n < 135 then 99 else 13))) else (if n < 140 then (if n < 138 then (if n < 137 then 103 else 74) else (if n < 139 then 222 else 237)) else (if n < 142 then (if n < 141 then 49 else 197) else (if n < 143 then 254 else 24)))) else (if n < 152 then (if n < 148 then (if n < 146 then (if n < 145 then 227 else 165) else (if n < 147 then 153 else 119)) else (if n < 150 then (if n < 149 then 38 else 184) else (if n < 151 then 180 else 124))) else (if n < 156 then (if n < 154 then (if n < 153 then 17 else 68) else (if n < 155 then 146 else 217)) else (if n < 158 then (if n < 157 then 35 else 32) else (if n < 159 then 137 else 46))))) else (if n < 176 then (if n < 168 then (if n < 164 then (if n < 162 then (if n < 161 then 55 else 63) else (if n < 163 then 209 else 91)) else (if n < 166 then (if n < 165 then 149 else 188) else (if n < 167 then 207 else 205))) else (if n < 172 then (if n < 170 then (if n < 169 then 144 else 135) else (if n < 171 then 151 else 178)) else (if n < 174 then (if n < 173 then 220 else 252) else (if n < 175 then 190 else 97)))) else (if n < 184 then (if n < 180 then (if n < 178 then (if n < 177 then 242 else 86) else (if n < 179 then 211 else 171)) else (if n < 182 then (if n < 181 then 20 else 42) else (if n < 183 then 93 else 158))) else (if n < 188 then (if n < 186 then (if n < 185 then 132 else 60) else (if n < 187 then 57 else 83)) else (if n < 190 then (if n < 189 then 71 else 109) else (if n < 191 then 65 else 162)))))) else (if n < 224 then (if n < 208 then (if n < 200 then (if n < 196 then (if n < 194 then (if n < 193 then 31 else 45) else (if n < 195 then 67 else 216)) else (if n < 198 then (if n < 197 then 183 else 123) else (if n < 199 then 164 else 118))) else (if n < 204 then (if n < 202 then (if n < 201 then 196 else 23) else (if n < 203 then 73 else 236)) else (if n < 206 then (if n < 205 then 127 else 12) else (if n < 207 then 111 else 246)))) else (if n < 216 then (if n < 212 then (if n < 210 then (if n < 209 then 108 else 161) else (if n < 211 then 59 else 82)) else (if n < 214 then (if n < 213 then 41 else 157) else (if n < 215 then 85 else 170))) else (if n < 220 then (if n < 218 then (if n < 217 then 251 else 96) else (if n < 219 then 134 else 177)) else (if n < 222 then (if n < 221 then 187 else 204) else (if n < 223 then 62 else 90))))) else (if n < 240 then (if n < 232 then (if n < 228 then (if n < 226 then (if n < 225 then 203 else 89) else (if n < 227 then 95 else 176)) else (if n < 230 then (if n < 229 then 156 else 169) else (if n < 231 then 160 else 81))) else (if n < 236 then (if n < 234 then (if n < 233 then 11 else 245) else (if n < 235 then 22 else 235)) else (if n < 238 then (if n < 237 then 122 else 117) else (if n < 239 then 44 else 215)))) else (if n < 248 then (if n < 244 then (if n < 242 then (if n < 241 then 79 else 174) else (if n < 243 then 213 else 233)) else (if n < 246 then (if n < 245 then 230 else 231) else (if n < 247 then 173 else 232))) else (if n < 252 then (if n < 250 then (if n < 249 then 116 else 214) else (if n < 251 then 244 else 234)) else (if n < 254 then (if n < 253 then 168 else 80) else (if n < 255 then 88 else 175))))))))

/-- `GF256::mul` over the decision-tree tables. -/
def mulFast (a b : Nat) : Nat :=
  if a = 0 ∨ b = 0 then 0
  else expFast ((logFast a + logFast b) % 255)

end GF256

/-- `BitBuffer::append_bits`: the bits contributed by pushing `count` bits
of `value`, most significant first (`(value >> i) & 1 == 1` for
`i = count-1, ..., 0`). -/
def bitsOf (value count : Nat) : List Bool :=
  (List.range count).reverse.map (fun i => (value >>> i) &&& 1 == 1)

/-- The fold of `BitBuffer::to_bytes` over one 8-bit chunk, tracking the
chunk position `i` and the byte accumulator (`byte |= 1 << (7 - i)`). -/
def byteOfAux : List Bool → Nat → Nat → Nat
  | [], _, byte => byte
  | b :: bs, i, byte => byteOfAux bs (i + 1) (if b then byte ||| (1 <<< (7 - i)) else byte)

/-- One chunk of `BitBuffer::to_bytes`. -/
def byteOfChunk (chunk : List Bool) : Nat :=
  byteOfAux chunk 0 0

/-- `BitBuffer::to_bytes`: split into chunks of 8 and convert each chunk
(a trailing chunk shorter than 8 is converted as is). -/
def bitsToBytes : List Bool → List Nat
  | [] => []
  | b1 :: b2 :: b3 :: b4 :: b5 :: b6 :: b7 :: b8 :: rest =>
      byteOfChunk [b1, b2, b3, b4, b5, b6, b7, b8] :: bitsToBytes rest
  | chunk => [byteOfChunk chunk]

/-- The `while !bits.len().is_multiple_of(8) { bits.append_bits(0, 1) }`
loop of `encode_data`: push single zero bits up to the byte boundary. -/
def padToByte (bits : List Bool) : List Bool :=
  if bits.length % 8 = 0 then bits else padToByte (bits ++ [false])
termination_by (8 - bits.length % 8) % 8
decreasing_by simp [List.length_append]; omega

/-- The `while codewords.len() < total_codewords` pad loop of `encode_data`,
by the number `n` of pad codewords still to push and the current toggle. -/
def padWords : Nat → Bool → List Nat
  | 0, _ => []
  | n + 1, padToggle => (if padToggle then 0xEC else 0x11) :: padWords n (!padToggle)

/-- `QrCode::encode_data` (the source returns `Ok` on every path, so the
embedding returns the codeword list directly). -/
def encodeData (data : List Nat) (version : Nat) (ecl : ErrorCorrectionLevel) : List Nat :=
  let bits : List Bool := []
  -- Mode indicator: 0100 for byte mode
  let bits := bits ++ bitsOf 0b0100 4
  let countBits := if version ≤ 9 then 8 else 16
  let bits := bits ++ bitsOf data.length countBits
  -- Data bytes
  let bits := data.foldl (fun bits byte => bits ++ bitsOf byte 8) bits
  let totalCodewords := getDataCodewords version ecl
  -- Terminator: up to 4 zero bits (`saturating_sub` is Nat subtraction)
  let capacityBits := totalCodewords * 8
  let terminatorLen := min 4 (capacityBits - bits.length)
  let bits := bits ++ bitsOf 0 terminatorLen
  -- Pad to byte boundary
  let bits := padToByte bits
  -- Pad codewords
  let codewords := bitsToBytes bits
  codewords ++ padWords (totalCodewords - codewords.length) true

/-- `QrCode::reed_solomon_generator`.  The inner loop builds
`new_result[j] = mul(result[j], alpha_i) ^ result[j - 1]` (with the two
out-of-range ends contributing nothing), which is the `zipWith` below. -/
def reedSolomonGenerator (degree : Nat) : List Nat :=
  (List.range degree).foldl
    (fun result i =>
      let alphaI := GF256.exp i
      List.zipWith (fun x y => x ^^^ y)
        (result.map (fun coef => GF256.mul coef alphaI) ++ [0])
        (0 :: result))
    [1]

/-- One data byte of `QrCode::reed_solomon_encode`: XOR the leading term
into `factor`, rotate the remainder left with a zeroed last slot, then XOR
`mul(gen_coef, factor)` into the slots covered by `generator[1..]`
(slots past the generator, if any, are kept unchanged, as in the source's
`if i < remainder.len()` guard). -/
def rsEncodeStep (generator : List Nat) (remainder : List Nat) (byte : Nat) : List Nat :=
  let factor := byte ^^^ remainder.headD 0
  let rotated := remainder.tail ++ [0]
  List.zipWith (fun r genCoef => r ^^^ GF256.mul genCoef factor) rotated (generator.drop 1)
    ++ rotated.drop (generator.drop 1).length

/-- `QrCode::reed_solomon_encode`. -/
def reedSolomonEncode (data : List Nat) (generator : List Nat) (ecCount : Nat) : List Nat :=
  data.foldl (rsEncodeStep generator) (List.replicate ecCount 0)

/-- The block-splitting loop of `QrCode::add_error_correction`, by the
number `k + 1` of blocks still to produce out of `nb`; the source's loop
index is `i = nb - (k + 1)`, so its long-block test
`i >= num_blocks - long_blocks` is `k < lb`. -/
def splitBlocksAux (shortLen nb lb : Nat) : Nat → List Nat → List (List Nat)
  | 0, _ => []
  | k + 1, data =>
    let blockLen := shortLen + if k < lb then 1 else 0
    data.take blockLen :: splitBlocksAux shortLen nb lb k (data.drop blockLen)

/-- `QrCode::add_error_correction`.  The data interleave pushes `block[i]`
for `i` in `0..max_data_len` whenever `i < block.len()` (a `filterMap` over
the blocks); the EC interleave pushes `block[i]` unconditionally for
`i` in `0..ec_per_block` (every EC block has length `ec_per_block`). -/
def addErrorCorrection (data : List Nat) (version : Nat) (ecl : ErrorCorrectionLevel) :
    List Nat :=
  let p := getEcParams version ecl
  let numBlocks := p.1
  let ecPerBlock := p.2
  let dataCodewords := getDataCodewords version ecl
  let shortBlockLen := dataCodewords / numBlocks
  let longBlocks := dataCodewords % numBlocks
  let generator := reedSolomonGenerator ecPerBlock
  let dataBlocks := splitBlocksAux shortBlockLen numBlocks longBlocks numBlocks data
  let ecBlocks := dataBlocks.map (fun block => reedSolomonEncode block generator ecPerBlock)
  let maxDataLen := shortBlockLen + 1
  let dataPart :=
    (List.range maxDataLen).flatMap (fun i => dataBlocks.filterMap (fun block => block[i]?))
  let ecPart :=
    (List.range ecPerBlock).flatMap (fun i => ecBlocks.map (fun block => block.getD i 0))
  dataPart ++ ecPart

/-- `QrCode`: the module matrix, the function-pattern mask, and the scalar
fields. -/
structure QrCode where
  modules : List (List Bool)
  isFunction : List (List Bool)
  version : Nat
  errorCorrection : ErrorCorrectionLevel
  mask : Nat
deriving Repr, DecidableEq

/-- Write one cell of a grid (`grid[r][c] = v`; out-of-range writes are
dropped, which never happens at the embedded call sites). -/
def setCell : List (List Bool) → Nat → Nat → Bool → List (List Bool)
  | [], _, _, _ => []
  | row :: rest, 0, c, v => row.set c v :: rest
  | row :: rest, r + 1, c, v => row :: setCell rest r c v

/-- Read one cell of a grid with default `false` (Rust's panicking
`grid[r][c]` read; in bounds at every embedded call site). -/
def getCellD (g : List (List Bool)) (r c : Nat) : Bool :=
  (g.getD r []).getD c false

/-- Read one cell of a grid as an `Option`: `none` exactly when the indexing
of the source would panic. -/
def getCell (g : List (List Bool)) (r c : Nat) : Option Bool :=
  g[r]?.bind (fun row => row[c]?)

namespace QrCode

/-- `QrCode::size`. -/
def size (qr : QrCode) : Nat :=
  qr.modules.length

/-- `QrCode::get`, as an `Option`: `some` of the module for in-range
indices, `none` where the source panics. -/
def get (qr : QrCode) (row col : Nat) : Option Bool :=
  getCell qr.modules row col

/-- `self.modules[r][c] = v` (no function marking). -/
def setMod (qr : QrCode) (r c : Nat) (v : Bool) : QrCode :=
  { qr with modules := setCell qr.modules r c v }

/-- `self.is_function[r][c] = true`. -/
def setFunTrue (qr : QrCode) (r c : Nat) : QrCode :=
  { qr with isFunction := setCell qr.isFunction r c true }

/-- `QrCode::set_function_module`: bounds-checked write of module value and
function mark. -/
def setFunctionModule (qr : QrCode) (row col : Nat) (black : Bool) : QrCode :=
  let size := qr.modules.length
  if row < size ∧ col < size then setFunTrue (setMod qr row col black) row col else qr

/-- `QrCode::add_separator`. -/
def addSeparator (qr : QrCode) (row col : Nat) : QrCode :=
  let size := qr.modules.length
  let addBottom := row = 0
  let addTop := row + 7 = size
  let addRight := col = 0
  let addLeft := col + 7 = size
  (List.range 8).foldl
    (fun qr i =>
      let qr := if addBottom ∧ row + 7 < size then
        qr.setFunctionModule (row + 7) (col + min i 6) false else qr
      let qr := if addTop ∧ 0 < row then
        qr.setFunctionModule (row - 1) (col + min i 6) false else qr
      let qr := if addRight ∧ col + 7 < size then
        qr.setFunctionModule (row + min i 6) (col + 7) false else qr
      if addLeft ∧ 0 < col then
        qr.setFunctionModule (row + min i 6) (col - 1) false else qr)
    qr

/-- `QrCode::place_finder_pattern`. -/
def placeFinderPattern (qr : QrCode) (row col : Nat) : QrCode :=
  let qr := (List.range 7).foldl
    (fun qr dr =>
      (List.range 7).foldl
        (fun qr dc =>
          let r := row + dr
          let c := col + dc
          let isEdge : Bool := decide (dr = 0 ∨ dr = 6 ∨ dc = 0 ∨ dc = 6)
          let isCenter : Bool := decide (2 ≤ dr ∧ dr ≤ 4 ∧ 2 ≤ dc ∧ dc ≤ 4)
          (qr.setMod r c (isEdge || isCenter)).setFunTrue r c)
        qr)
    qr
  qr.addSeparator row col

/-- `QrCode::place_timing_patterns`. -/
def placeTimingPatterns (qr : QrCode) : QrCode :=
  let size := qr.modules.length
  (List.range' 8 (size - 8 - 8)).foldl
    (fun qr i =>
      let isBlack : Bool := decide (i % 2 = 0)
      let qr := if getCellD qr.isFunction 6 i = false then
        (qr.setMod 6 i isBlack).setFunTrue 6 i else qr
      if getCellD qr.isFunction i 6 = false then
        (qr.setMod i 6 isBlack).setFunTrue i 6 else qr)
    qr

/-- `Vec::insert(1, p)` on a nonempty list (the positions list always starts
as `vec![first]`). -/
def insertAtOne : List Nat → Nat → List Nat
  | [], p => [p]
  | a :: rest, p => a :: p :: rest

/-- The `while positions.len() < num_align` loop of
`get_alignment_positions`, by the number of positions still to insert. -/
def alignLoop (step : Nat) : Nat → Nat → List Nat → List Nat
  | 0, _, positions => positions
  | k + 1, pos, positions => alignLoop step k (pos - step) (insertAtOne positions pos)

/-- `QrCode::get_alignment_positions`.  The source computes
`((last - first) as f64 / (num_align - 1) as f64).ceil() as usize`; for the
magnitudes involved (numerator ≤ 170, denominator ≤ 7) the `f64` quotient
is never rounded across an integer, so the ceiling equals the exact rational
ceiling `(last - first + num_align - 2) / (num_align - 1)` over `Nat`. -/
def getAlignmentPositions (version : Nat) : List Nat :=
  if version = 1 then []
  else
    let size := version * 4 + 17
    let numAlign := version / 7 + 2
    if numAlign = 2 then [6, size - 7]
    else
      let first := 6
      let last := size - 7
      let step := (last - first + (numAlign - 2)) / (numAlign - 1)
      let step := if step % 2 = 1 then step + 1 else step
      alignLoop step (numAlign - 1) last [first]

/-- `QrCode::place_alignment_pattern` (centers are ≥ 6, so the `usize`
subtractions never underflow). -/
def placeAlignmentPattern (qr : QrCode) (centerRow centerCol : Nat) : QrCode :=
  (List.range 5).foldl
    (fun qr dr =>
      (List.range 5).foldl
        (fun qr dc =>
          let r := centerRow + dr - 2
          let c := centerCol + dc - 2
          let isEdge : Bool := decide (dr = 0 ∨ dr = 4 ∨ dc = 0 ∨ dc = 4)
          let isCenter : Bool := decide (dr = 2 ∧ dc = 2)
          (qr.setMod r c (isEdge || isCenter)).setFunTrue r c)
        qr)
    qr

/-- `QrCode::place_alignment_patterns`. -/
def placeAlignmentPatterns (qr : QrCode) : QrCode :=
  let positions := getAlignmentPositions qr.version
  positions.foldl
    (fun qr row =>
      positions.foldl
        (fun qr col =>
          if getCellD qr.isFunction row col = true then qr
          else qr.placeAlignmentPattern row col)
        qr)
    qr

/-- `QrCode::reserve_format_area`. -/
def reserveFormatArea (qr : QrCode) : QrCode :=
  let size := qr.modules.length
  let qr := (List.range 9).foldl
    (fun qr i => if i ≠ 6 then (qr.setFunTrue 8 i).setFunTrue i 8 else qr) qr
  (List.range 8).foldl
    (fun qr i => (qr.setFunTrue 8 (size - 1 - i)).setFunTrue (size - 1 - i) 8) qr

/-- `QrCode::place_function_patterns`. -/
def placeFunctionPatterns (qr : QrCode) : QrCode :=
  let size := qr.modules.length
  let qr := qr.placeFinderPattern 0 0
  let qr := qr.placeFinderPattern (size - 7) 0
  let qr := qr.placeFinderPattern 0 (size - 7)
  let qr := qr.placeTimingPatterns
  let qr := if 2 ≤ qr.version then qr.placeAlignmentPatterns else qr
  let qr := qr.reserveFormatArea
  -- Dark module (always black)
  let qr := qr.setMod 8 (4 * qr.version + 9) true
  qr.setFunTrue 8 (4 * qr.version + 9)

/-- `(codewords[bit_idx / 8] >> (7 - bit_idx % 8)) & 1 == 1`. -/
def codewordBit (codewords : List Nat) (bitIdx : Nat) : Bool :=
  (codewords.getD (bitIdx / 8) 0 >>> (7 - bitIdx % 8)) &&& 1 == 1

/-- The `while col > 0` loop of `QrCode::place_data_bits`, carrying the
grid and `bit_idx`; each pass visits the rows in the current direction and
the two columns `col, col - 1`.  The loop decreases `col` by at least 2
each pass, so running it with `size` units of fuel (from `place_data_bits`
below) runs it to completion. -/
def placeDataLoop (codewords : List Nat) (totalBits size : Nat) :
    Nat → Nat → Bool → QrCode × Nat → QrCode × Nat
  | 0, _, _, st => st
  | _ + 1, 0, _, st => st
  | fuel + 1, col, goingUp, st =>
    let col' := if col = 6 then col - 1 else col
    let rows := if goingUp then (List.range size).reverse else List.range size
    let st := rows.foldl
      (fun st row =>
        (List.range 2).foldl
          (fun (st : QrCode × Nat) dc =>
            let c := col' - dc
            if c < size ∧ getCellD st.1.isFunction row c = false ∧ st.2 < totalBits then
              (st.1.setMod row c (codewordBit codewords st.2), st.2 + 1)
            else st)
          st)
      st
    placeDataLoop codewords totalBits size fuel (col' - 2) (!goingUp) st

/-- `QrCode::place_data_bits`. -/
def placeDataBits (qr : QrCode) (codewords : List Nat) : QrCode :=
  let size := qr.modules.length
  let totalBits := codewords.length * 8
  (placeDataLoop codewords totalBits size size (size - 1) true (qr, 0)).1

/-- One pass of the `while col > 0` loop of `QrCode::place_data_bits`
(the body of `placeDataLoop` at positive fuel and column), named so that
concrete runs of the loop can be evaluated one pass at a time. -/
def placeDataStep (codewords : List Nat) (totalBits size col : Nat) (goingUp : Bool)
    (st : QrCode × Nat) : QrCode × Nat :=
  let col' := if col = 6 then col - 1 else col
  let rows := if goingUp then (List.range size).reverse else List.range size
  rows.foldl
    (fun st row =>
      (List.range 2).foldl
        (fun (st : QrCode × Nat) dc =>
          let c := col' - dc
          if c < size ∧ getCellD st.1.isFunction row c = false ∧ st.2 < totalBits then
            (st.1.setMod row c (codewordBit codewords st.2), st.2 + 1)
          else st)
        st)
    st

/-- `QrCode::mask_bit`. -/
def maskBit (mask row col : Nat) : Bool :=
  let i := row
  let j := col
  match mask with
  | 0 => decide ((i + j) % 2 = 0)
  | 1 => decide (i % 2 = 0)
  | 2 => decide (j % 3 = 0)
  | 3 => decide ((i + j) % 3 = 0)
  | 4 => decide ((i / 2 + j / 3) % 2 = 0)
  | 5 => decide ((i * j) % 2 + (i * j) % 3 = 0)
  | 6 => decide (((i * j) % 2 + (i * j) % 3) % 2 = 0)
  | 7 => decide (((i + j) % 2 + (i * j) % 3) % 2 = 0)
  | _ => false

/-- Map a function over one row with its column indices, starting at
column `c`. -/
def mapRowAux (f : Nat → Bool → Bool) : Nat → List Bool → List Bool
  | _, [] => []
  | c, v :: vs => f c v :: mapRowAux f (c + 1) vs

/-- Map a function over a grid with its row/column indices, starting at
row `r`. -/
def mapGridAux (f : Nat → Nat → Bool → Bool) : Nat → List (List Bool) → List (List Bool)
  | _, [] => []
  | r, row :: rest => mapRowAux (f r) 0 row :: mapGridAux f (r + 1) rest

/-- `QrCode::apply_mask`: the source's double loop over `0..size` flips
each non-function cell whose position satisfies the mask predicate, each
cell independently; this is the per-cell map below (cells outside the loop
range are left unchanged by the guard). -/
def applyMask (qr : QrCode) (mask : Nat) : QrCode :=
  let size := qr.modules.length
  { qr with
    modules := mapGridAux
      (fun row col v =>
        if row < size ∧ col < size ∧ getCellD qr.isFunction row col = false ∧
            maskBit mask row col then !v else v)
      0 qr.modules }

/-- `QrCode::count_run_penalty`, carrying `run_color`, `run_len`, and the
accumulated penalty; the run is flushed when the color changes and once at
the end. -/
def countRunAux : List Bool → Bool → Nat → Nat → Nat
  | [], _, runLen, pen => if 5 ≤ runLen then pen + 3 + (runLen - 5) else pen
  | m :: rest, runColor, runLen, pen =>
    if m = runColor then countRunAux rest runColor (runLen + 1) pen
    else countRunAux rest m 1 (if 5 ≤ runLen then pen + 3 + (runLen - 5) else pen)

/-- `QrCode::count_run_penalty` (initial state `run_color = false`,
`run_len = 0`). -/
def countRunPenalty (l : List Bool) : Nat :=
  countRunAux l false 0 0

/-- The module read `self.modules[row][col]` used by the penalty rules. -/
def getModD (qr : QrCode) (r c : Nat) : Bool :=
  getCellD qr.modules r c

/-- The finder-like sequence of penalty rule 3. -/
def finderPatternSeq : List Bool :=
  [true, false, true, true, true, false, true, false, false, false, false]

/-- `QrCode::calculate_penalty`. -/
def calculatePenalty (qr : QrCode) : Nat :=
  let size := qr.modules.length
  -- Rule 1: consecutive same-color runs, rows then columns
  let pen := (List.range size).foldl
    (fun pen row => pen + countRunPenalty (qr.modules.getD row [])) 0
  let pen := (List.range size).foldl
    (fun pen col => pen + countRunPenalty ((List.range size).map (fun row => qr.getModD row col)))
    pen
  -- Rule 2: 2x2 blocks
  let pen := (List.range (size - 1)).foldl
    (fun pen row =>
      (List.range (size - 1)).foldl
        (fun pen col =>
          let color := qr.getModD row col
          if color = qr.getModD row (col + 1) ∧ color = qr.getModD (row + 1) col ∧
              color = qr.getModD (row + 1) (col + 1) then pen + 3 else pen)
        pen)
    pen
  -- Rule 3: finder-like 1:1:3:1:1 sequences, rows then columns
  let finderRev := finderPatternSeq.reverse
  let pen := (List.range size).foldl
    (fun pen row =>
      (List.range (size - 11 + 1)).foldl
        (fun pen col =>
          let slice := (List.range 11).map (fun i => qr.getModD row (col + i))
          if slice = finderPatternSeq ∨ slice = finderRev then pen + 40 else pen)
        pen)
    pen
  let pen := (List.range size).foldl
    (fun pen col =>
      (List.range (size - 11 + 1)).foldl
        (fun pen row =>
          let slice := (List.range 11).map (fun i => qr.getModD (row + i) col)
          if slice = finderPatternSeq ∨ slice = finderRev then pen + 40 else pen)
        pen)
    pen
  -- Rule 4: color imbalance
  let darkCount := List.countP (fun m => m) qr.modules.flatten
  let total := size * size
  let darkPercent := darkCount * 100 / total
  let deviation := ((darkPercent : Int) - 50).natAbs
  pen + deviation / 5 * 10

/-- One iteration of the mask trial loop of `QrCode::apply_best_mask`:
apply the candidate, score it, keep it when strictly better, undo it by
re-applying (XOR self-inverse). -/
def bestMaskStep (st : QrCode × Nat × Nat) (mask : Nat) : QrCode × Nat × Nat :=
  let qr := st.1.applyMask mask
  let penalty := qr.calculatePenalty
  let best := if penalty < st.2.2 then (mask, penalty) else st.2
  (qr.applyMask mask, best)

/-- `QrCode::apply_best_mask`: try all 8 masks (undoing each trial by
re-applying it), keep the strictly best penalty (initial best
`u32::MAX`), then set `self.mask` and apply the winner. -/
def applyBestMask (qr : QrCode) : QrCode :=
  let st := (List.range 8).foldl bestMaskStep (qr, 0, 4294967295)
  let qr := { st.1 with mask := st.2.1 }
  qr.applyMask st.2.1

/-- `QrCode::calculate_format_bits` (the `for i in (0..=4).rev()` division
steps, unrolled). -/
def formatStep (generator i bits : Nat) : Nat :=
  if (bits >>> (i + 10)) &&& 1 = 1 then bits ^^^ (generator <<< i) else bits

/-- `QrCode::calculate_format_bits`. -/
def calculateFormatBits (data : Nat) : Nat :=
  let generator := 0b10100110111
  let bits := formatStep generator 0 (formatStep generator 1 (formatStep generator 2
    (formatStep generator 3 (formatStep generator 4 (data <<< 10)))))
  (data <<< 10 ||| bits) ^^^ 0b101010000010010

/-- `(format_bits >> i) & 1 == 1`. -/
def fbBit (formatBits i : Nat) : Bool :=
  (formatBits >>> i) &&& 1 == 1

/-- `QrCode::place_format_info`. -/
def placeFormatInfo (qr : QrCode) : QrCode :=
  let size := qr.modules.length
  let data := qr.errorCorrection.formatInfoBits <<< 3 ||| qr.mask
  let formatBits := calculateFormatBits data
  -- Around top-left finder pattern
  let qr := (List.range 6).foldl
    (fun qr i => (qr.setMod 8 i (fbBit formatBits i)).setMod (5 - i) 8 (fbBit formatBits (i + 9)))
    qr
  let qr := qr.setMod 8 7 (fbBit formatBits 6)
  let qr := qr.setMod 8 8 (fbBit formatBits 7)
  let qr := qr.setMod 7 8 (fbBit formatBits 8)
  -- Around top-right and bottom-left finder patterns
  let qr := (List.range 8).foldl
    (fun qr i => qr.setMod 8 (size - 1 - i) (fbBit formatBits i)) qr
  (List.range 7).foldl
    (fun qr i => qr.setMod (size - 1 - i) 8 (fbBit formatBits (i + 8))) qr

/-- The `for i in (0..=5).rev()` division steps of
`QrCode::calculate_version_bits`. -/
def versionStep (generator i bits : Nat) : Nat :=
  if (bits >>> (i + 12)) &&& 1 = 1 then bits ^^^ (generator <<< i) else bits

/-- `QrCode::calculate_version_bits`. -/
def calculateVersionBits (version : Nat) : Nat :=
  let generator := 0b1111100100101
  let bits := versionStep generator 0 (versionStep generator 1 (versionStep generator 2
    (versionStep generator 3 (versionStep generator 4 (versionStep generator 5
      (version <<< 12))))))
  version <<< 12 ||| bits

/-- `QrCode::place_version_info`. -/
def placeVersionInfo (qr : QrCode) : QrCode :=
  let size := qr.modules.length
  let versionBits := calculateVersionBits qr.version
  (List.range 18).foldl
    (fun qr i =>
      let bit := (versionBits >>> i) &&& 1 == 1
      let row := i / 3
      let col := i % 3
      ((qr.setMod (size - 11 + col) row bit).setMod row (size - 11 + col) bit))
    qr

/-- The freshly constructed grid of `QrCode::encode` (step 4). -/
def emptyQr (version : Nat) (ecl : ErrorCorrectionLevel) : QrCode :=
  let size := version * 4 + 17
  { modules := List.replicate size (List.replicate size false)
    isFunction := List.replicate size (List.replicate size false)
    version := version
    errorCorrection := ecl
    mask := 0 }

/-- `QrCode::encode` (taking the payload as its byte list). -/
def encode (data : List Nat) (ecl : ErrorCorrectionLevel) : Except String QrCode :=
  match findMinVersion data.length ecl with
  | .error e => .error e
  | .ok version =>
    let dataCodewords := encodeData data version ecl
    let allCodewords := addErrorCorrection dataCodewords version ecl
    let qr := emptyQr version ecl
    let qr := qr.placeFunctionPatterns
    let qr := qr.placeDataBits allCodewords
    let qr := qr.applyBestMask
    let qr := qr.placeFormatInfo
    let qr := if 7 ≤ version then qr.placeVersionInfo else qr
    .ok qr

end QrCode

/-- A grid is an `n × n` square. -/
def Shaped (n : Nat) (g : List (List Bool)) : Prop :=
  g.length = n ∧ ∀ row ∈ g, row.length = n

/-- The layout of §4.3 of the specification, written from its words: 4-bit
byte-mode indicator `0100`, character-count field (8 bits if version ≤ 9,
else 16), one 8-bit group per payload byte, a terminator of up to 4 zero
bits truncated if the capacity is nearly exhausted, zero-padding to the
next byte boundary, then alternating pad bytes `0xEC, 0x11` up to the
required codeword count. -/
def specDataLayout (data : List Nat) (version : Nat) (ecl : ErrorCorrectionLevel) : List Nat :=
  let dc := getDataCodewords version ecl
  let countBits := if version ≤ 9 then 8 else 16
  let header := bitsOf 0b0100 4 ++ bitsOf data.length countBits
    ++ data.flatMap (fun b => bitsOf b 8)
  let terminator := min 4 (8 * dc - header.length)
  let afterTerm := header ++ List.replicate terminator false
  let padded := afterTerm ++ List.replicate ((8 - afterTerm.length % 8) % 8) false
  bitsToBytes padded ++ padWords (dc - (bitsToBytes padded).length) true

/-- The bytes of `"HELLO"`. -/
def helloBytes : List Nat :=
  [72, 69, 76, 76, 79]

/-- The codewords of `encode_data("HELLO")` plus error correction (version 1, level M). -/
def cwHello : List Nat :=
  [64, 84, 132, 84, 196, 196, 240, 236, 17, 236, 17, 236, 17, 236, 17, 236, 59, 85, 171, 110, 170, 182, 82, 106, 6, 100]

/-- The function-pattern flags of the version-1 grid after `place_function_patterns`. -/
def funHello : List (List Bool) :=
  [[true, true, true, true, true, true, true, true, true, false, false, false, false, true, true, true, true, true, true, true, true],
    [true, true, true, true, true, true, true, true, true, false, false, false, false, true, true, true, true, true, true, true, true],
    [true, true, true, true, true, true, true, true, true, false, false, false, false, true, true, true, true, true, true, true, true],
    [true, true, true, true, true, true, true, true, true, false, false, false, false, true, true, true, true, true, true, true, true],
    [true, true, true, true, true, true, true, true, true, false, false, false, false, true, true, true, true, true, true, true, true],
    [true, true, true, true, true, true, true, true, true, false, false, false, false, true, true, true, true, true, true, true, true],
    [true, true, true, true, true, true, true, true, true, true, true, true, true, true, true, true, true, true, true, true, true],
    [true, true, true, true, true, true, true, false, true, false, false, false, false, false, true, true, true, true, true, true, true],
    [true, true, true, true, true, true, true, true, true, false, false, false, false, true, true, true, true, true, true, true, true],
    [false, false, false, false, false, false, true, false, false, false, false, false, false, false, false, false, false, false, false, false, false],
    [false, false, false, false, false, false, true, false, false, false, false, false, false, false, false, false, false, false, false, false, false],
    [false, false, false, false, false, false, true, false, false, false, false, false, false, false, false, false, false, false, false, false, false],
    [false, false, false, false, false, false, true, false, false, false, false, false, false, false, false, false, false, false, false, false, false],
    [true, true, true, true, true, true, true, false, true, false, false, false, false, false, false, false, false, false, false, false, false],
    [true, true, true, true, true, true, true, true, true, false, false, false, false, false, false, false, false, false, false, false, false],
    [true, true, true, true, true, true, true, true, true, false, false, false, false, false, false, false, false, false, false, false, false],
    [true, true, true, true, true, true, true, true, true, false, false, false, false, false, false, false, false, false, false, false, false],
    [true, true, true, true, true, true, true, true, true, false, false, false, false, false, false, false, false, false, false, false, false],
    [true, true, true, true, true, true, true, true, true, false, false, false, false, false, false, false, false, false, false, false, false],
    [true, true, true, true, true, true, true, true, true, false, false, false, false, false, false, false, false, false, false, false, false],
    [true, true, true, true, true, true, true, true, true, false, false, false, false, false, false, false, false, false, false, false, false]]

/-- The modules of the version-1 level-M grid after `place_function_patterns`. -/
def modsHello0 : List (List Bool) :=
  [[true, true, true, true, true, true, true, false, false, false, false, false, false, false, true, true, true, true, true, true, true],
    [true, false, false, false, false, false, true, false, false, false, false, false, false, false, true, false, false, false, false, false, true],
    [true, false, true, true, true, false, true, false, false, false, false, false, false, false, true, false, true, true, true, false, true],
    [true, false, true, true, true, false, true, false, false, false, false, false, false, false, true, false, true, true, true, false, true],
    [true, false, true, true, true, false, true, false, false, false, false, false, false, false, true, false, true, true, true, false, true],
    [true, false, false, false, false, false, true, false, false, false, false, false, false, false, true, false, false, false, false, false, true],
    [true, true, true, true, true, true, true, false, true, false, true, false, true, false, true, true, true, true, true, true, true],
    [false, false, false, false, false, false, false, false, false, false, false, false, false, false, false, false, false, false, false, false, false],
    [false, false, false, false, false, false, true, false, false, false, false, false, false, true, false, false, false, false, false, false, false],
    [false, false, false, false, false, false, false, false, false, false, false, false, false, false, false, false, false, false, false, false, false],
    [false, false, false, false, false, false, true, false, false, false, false, false, false, false, false, false, false, false, false, false, false],
    [false, false, false, false, false, false, false, false, false, false, false, false, false, false, false, false, false, false, false, false, false],
    [false, false, false, false, false, false, true, false, false, false, false, false, false, false, false, false, false, false, false, false, false],
    [false, false, false, false, false, false, false, false, false, false, false, false, false, false, false, false, false, false, false, false, false],
    [true, true, true, true, true, true, true, false, false, false, false, false, false, false, false, false, false, false, false, false, false],
    [true, false, false, false, false, false, true, false, false, false, false, false, false, false, false, false, false, false, false, false, false],
    [true, false, true, true, true, false, true, false, false, false, false, false, false, false, false, false, false, false, false, false, false],
    [true, false, true, true, true, false, true, false, false, false, false, false, false, false, false, false, false, false, false, false, false],
    [true, false, true, true, true, false, true, false, false, false, false, false, false, false, false, false, false, false, false, false, false],
    [true, false, false, false, false, false, true, false, false, false, false, false, false, false, false, false, false, false, false, false, false],
    [true, true, true, true, true, true, true, false, false, false, false, false, false, false, false, false, false, false, false, false, false]]

/-- The modules after pass 1 of the `place_data_bits` column loop. -/
def modsHello1 : List (List Bool) :=
  [[true, true, true, true, true, true, true, false, false, false, false, false, false, false, true, true, true, true, true, true, true],
    [true, false, false, false, false, false, true, false, false, false, false, false, false, false, true, false, false, false, false, false, true],
    [true, false, true, true, true, false, true, false, false, false, false, false, false, false, true, false, true, true, true, false, true],
    [true, false, true, true, true, false, true, false, false, false, false, false, false, false, true, false, true, true, true, false, true],
    [true, false, true, true, true, false, true, false, false, false, false, false, false, false, true, false, true, true, true, false, true],
    [true, false, false, false, false, false, true, false, false, false, false, false, false, false, true, false, false, false, false, false, true],
    [true, true, true, true, true, true, true, false, true, false, true, false, true, false, true, true, true, true, true, true, true],
    [false, false, false, false, false, false, false, false, false, false, false, false, false, false, false, false, false, false, false, false, false],
    [false, false, false, false, false, false, true, false, false, false, false, false, false, true, false, false, false, false, false, false, false],
    [false, false, false, false, false, false, false, false, false, false, false, false, false, false, false, false, false, false, false, false, false],
    [false, false, false, false, false, false, true, false, false, false, false, false, false, false, false, false, false, false, false, true, false],
    [false, false, false, false, false, false, false, false, false, false, false, false, false, false, false, false, false, false, false, false, false],
    [false, false, false, false, false, false, true, false, false, false, false, false, false, false, false, false, false, false, false, false, true],
    [false, false, false, false, false, false, false, false, false, false, false, false, false, false, false, false, false, false, false, false, false],
    [true, true, true, true, true, true, true, false, false, false, false, false, false, false, false, false, false, false, false, true, false],
    [true, false, false, false, false, false, true, false, false, false, false, false, false, false, false, false, false, false, false, true, false],
    [true, false, true, true, true, false, true, false, false, false, false, false, false, false, false, false, false, false, false, true, false],
    [true, false, true, true, true, false, true, false, false, false, false, false, false, false, false, false, false, false, false, false, false],
    [true, false, true, true, true, false, true, false, false, false, false, false, false, false, false, false, false, false, false, false, false],
    [true, false, false, false, false, false, true, false, false, false, false, false, false, false, false, false, false, false, false, false, false],
    [true, true, true, true, true, true, true, false, false, false, false, false, false, false, false, false, false, false, false, true, false]]

/-- The modules after pass 2 of the `place_data_bits` column loop. -/
def modsHello2 : List (List Bool) :=
  [[true, true, true, true, true, true, true, false, false, false, false, false, false, false, true, true, true, true, true, true, true],
    [true, false, false, false, false, false, true, false, false, false, false, false, false, false, true, false, false, false, false, false, true],
    [true, false, true, true, true, false, true, false, false, false, false, false, false, false, true, false, true, true, true, false, true],
    [true, false, true, true, true, false, true, false, false, false, false, false, false, false, true, false, true, true, true, false, true],
    [true, false, true, true, true, false, true, false, false, false, false, false, false, false, true, false, true, true, true, false, true],
    [true, false, false, false, false, false, true, false, false, false, false, false, false, false, true, false, false, false, false, false, true],
    [true, true, true, true, true, true, true, false, true, false, true, false, true, false, true, true, true, true, true, true, true],
    [false, false, false, false, false, false, false, false, false, false, false, false, false, false, false, false, false, false, false, false, false],
    [false, false, false, false, false, false, true, false, false, false, false, false, false, true, false, false, false, false, false, false, false],
    [false, false, false, false, false, false, false, false, false, false, false, false, false, false, false, false, false, true, false, false, false],
    [false, false, false, false, false, false, true, false, false, false, false, false, false, false, false, false, false, true, false, true, false],
    [false, false, false, false, false, false, false, false, false, false, false, false, false, false, false, false, false, true, false, false, false],
    [false, false, false, false, false, false, true, false, false, false, false, false, false, false, false, false, false, false, false, false, true],
    [false, false, false, false, false, false, false, false, false, false, false, false, false, false, false, false, false, true, true, false, false],
    [true, true, true, true, true, true, true, false, false, false, false, false, false, false, false, false, false, false, false, true, false],
    [true, false, false, false, false, false, true, false, false, false, false, false, false, false, false, false, false, true, false, true, false],
    [true, false, true, true, true, false, true, false, false, false, false, false, false, false, false, false, false, false, false, true, false],
    [true, false, true, true, true, false, true, false, false, false, false, false, false, false, false, false, false, true, true, false, false],
    [true, false, true, true, true, false, true, false, false, false, false, false, false, false, false, false, false, false, false, false, false],
    [true, false, false, false, false, false, true, false, false, false, false, false, false, false, false, false, false, true, false, false, false],
    [true, true, true, true, true, true, true, false, false, false, false, false, false, false, false, false, false, false, false, true, false]]

/-- The modules after pass 3 of the `place_data_bits` column loop. -/
def modsHello3 : List (List Bool) :=
  [[true, true, true, true, true, true, true, false, false, false, false, false, false, false, true, true, true, true, true, true, true],
    [true, false, false, false, false, false, true, false, false, false, false, false, false, false, true, false, false, false, false, false, true],
    [true, false, true, true, true, false, true, false, false, false, false, false, false, false, true, false, true, true, true, false, true],
    [true, false, true, true, true, false, true, false, false, false, false, false, false, false, true, false, true, true, true, false, true],
    [true, false, true, true, true, false, true, false, false, false, false, false, false, false, true, false, true, true, true, false, true],
    [true, false, false, false, false, false, true, false, false, false, false, false, false, false, true, false, false, false, false, false, true],
    [true, true, true, true, true, true, true, false, true, false, true, false, true, false, true, true, true, true, true, true, true],
    [false, false, false, false, false, false, false, false, false, false, false, false, false, false, false, false, false, false, false, false, false],
    [false, false, false, false, false, false, true, false, false, false, false, false, false, true, false, false, false, false, false, false, false],
    [false, false, false, false, false, false, false, false, false, false, false, false, false, false, false, true, false, true, false, false, false],
    [false, false, false, false, false, false, true, false, false, false, false, false, false, false, false, false, false, true, false, true, false],
    [false, false, false, false, false, false, false, false, false, false, false, false, false, false, false, true, false, true, false, false, false],
    [false, false, false, false, false, false, true, false, false, false, false, false, false, false, false, false, false, false, false, false, true],
    [false, false, false, false, false, false, false, false, false, false, false, false, false, false, false, false, false, true, true, false, false],
    [true, true, true, true, true, true, true, false, false, false, false, false, false, false, false, true, true, false, false, true, false],
    [true, false, false, false, false, false, true, false, false, false, false, false, false, false, false, false, true, true, false, true, false],
    [true, false, true, true, true, false, true, false, false, false, false, false, false, false, false, true, true, false, false, true, false],
    [true, false, true, true, true, false, true, false, false, false, false, false, false, false, false, false, false, true, true, false, false],
    [true, false, true, true, true, false, true, false, false, false, false, false, false, false, false, false, false, false, false, false, false],
    [true, false, false, false, false, false, true, false, false, false, false, false, false, false, false, true, true, true, false, false, false],
    [true, true, true, true, true, true, true, false, false, false, false, false, false, false, false, true, true, false, false, true, false]]

/-- The modules after pass 4 of the `place_data_bits` column loop. -/
def modsHello4 : List (List Bool) :=
  [[true, true, true, true, true, true, true, false, false, false, false, false, false, false, true, true, true, true, true, true, true],
    [true, false, false, false, false, false, true, false, false, false, false, false, false, false, true, false, false, false, false, false, true],
    [true, false, true, true, true, false, true, false, false, false, false, false, false, false, true, false, true, true, true, false, true],
    [true, false, true, true, true, false, true, false, false, false, false, false, false, false, true, false, true, true, true, false, true],
    [true, false, true, true, true, false, true, false, false, false, false, false, false, false, true, false, true, true, true, false, true],
    [true, false, false, false, false, false, true, false, false, false, false, false, false, false, true, false, false, false, false, false, true],
    [true, true, true, true, true, true, true, false, true, false, true, false, true, false, true, true, true, true, true, true, true],
    [false, false, false, false, false, false, false, false, false, false, false, false, false, true, false, false, false, false, false, false, false],
    [false, false, false, false, false, false, true, false, false, false, false, false, false, true, false, false, false, false, false, false, false],
    [false, false, false, false, false, false, false, false, false, false, false, false, false, true, true, true, false, true, false, false, false],
    [false, false, false, false, false, false, true, false, false, false, false, false, false, true, false, false, false, true, false, true, false],
    [false, false, false, false, false, false, false, false, false, false, false, false, false, false, true, true, false, true, false, false, false],
    [false, false, false, false, false, false, true, false, false, false, false, false, false, false, false, false, false, false, false, false, true],
    [false, false, false, false, false, false, false, false, false, false, false, false, false, false, false, false, false, true, true, false, false],
    [true, true, true, true, true, true, true, false, false, false, false, false, false, false, true, true, true, false, false, true, false],
    [true, false, false, false, false, false, true, false, false, false, false, false, false, false, false, false, true, true, false, true, false],
    [true, false, true, true, true, false, true, false, false, false, false, false, false, true, true, true, true, false, false, true, false],
    [true, false, true, true, true, false, true, false, false, false, false, false, false, true, true, false, false, true, true, false, false],
    [true, false, true, true, true, false, true, false, false, false, false, false, false, true, false, false, false, false, false, false, false],
    [true, false, false, false, false, false, true, false, false, false, false, false, false, false, true, true, true, true, false, false, false],
    [true, true, true, true, true, true, true, false, false, false, false, false, false, false, false, true, true, false, false, true, false]]

/-- The modules after pass 5 of the `place_data_bits` column loop. -/
def modsHello5 : List (List Bool) :=
  [[true, true, true, true, true, true, true, false, false, false, false, false, true, false, true, true, true, true, true, true, true],
    [true, false, false, false, false, false, true, false, false, false, false, true, false, false, true, false, false, false, false, false, true],
    [true, false, true, true, true, false, true, false, false, false, false, true, true, false, true, false, true, true, true, false, true],
    [true, false, true, true, true, false, true, false, false, false, false, true, false, false, true, false, true, true, true, false, true],
    [true, false, true, true, true, false, true, false, false, false, false, false, false, false, true, false, true, true, true, false, true],
    [true, false, false, false, false, false, true, false, false, false, false, false, true, false, true, false, false, false, false, false, true],
    [true, true, true, true, true, true, true, false, true, false, true, false, true, false, true, true, true, true, true, true, true],
    [false, false, false, false, false, false, false, false, false, false, false, true, false, true, false, false, false, false, false, false, false],
    [false, false, false, false, false, false, true, false, false, false, false, true, true, true, false, false, false, false, false, false, false],
    [false, false, false, false, false, false, false, false, false, false, false, true, true, true, true, true, false, true, false, false, false],
    [false, false, false, false, false, false, true, false, false, false, false, false, false, true, false, false, false, true, false, true, false],
    [false, false, false, false, false, false, false, false, false, false, false, false, true, false, true, true, false, true, false, false, false],
    [false, false, false, false, false, false, true, false, false, false, false, false, false, false, false, false, false, false, false, false, true],
    [false, false, false, false, false, false, false, false, false, false, false, false, false, false, false, false, false, true, true, false, false],
    [true, true, true, true, true, true, true, false, false, false, false, false, true, false, true, true, true, false, false, true, false],
    [true, false, false, false, false, false, true, false, false, false, false, true, false, false, false, false, true, true, false, true, false],
    [true, false, true, true, true, false, true, false, false, false, false, true, true, true, true, true, true, false, false, true, false],
    [true, false, true, true, true, false, true, false, false, false, false, true, true, true, true, false, false, true, true, false, false],
    [true, false, true, true, true, false, true, false, false, false, false, false, false, true, false, false, false, false, false, false, false],
    [true, false, false, false, false, false, true, false, false, false, false, false, true, false, true, true, true, true, false, false, false],
    [true, true, true, true, true, true, true, false, false, false, false, false, false, false, false, true, true, false, false, true, false]]

/-- The modules after pass 6 of the `place_data_bits` column loop. -/
def modsHello6 : List (List Bool) :=
  [[true, true, true, true, true, true, true, false, false, false, true, false, true, false, true, true, true, true, true, true, true],
    [true, false, false, false, false, false, true, false, false, false, true, true, false, false, true, false, false, false, false, false, true],
    [true, false, true, true, true, false, true, false, false, false, true, true, true, false, true, false, true, true, true, false, true],
    [true, false, true, true, true, false, true, false, false, true, true, true, false, false, true, false, true, true, true, false, true],
    [true, false, true, true, true, false, true, false, false, true, false, false, false, false, true, false, true, true, true, false, true],
    [true, false, false, false, false, false, true, false, false, true, false, false, true, false, true, false, false, false, false, false, true],
    [true, true, true, true, true, true, true, false, true, false, true, false, true, false, true, true, true, true, true, true, true],
    [false, false, false, false, false, false, false, false, false, true, false, true, false, true, false, false, false, false, false, false, false],
    [false, false, false, false, false, false, true, false, false, false, true, true, true, true, false, false, false, false, false, false, false],
    [false, false, false, false, false, false, false, false, false, true, true, true, true, true, true, true, false, true, false, false, false],
    [false, false, false, false, false, false, true, false, false, true, false, false, false, true, false, false, false, true, false, true, false],
    [false, false, false, false, false, false, false, false, false, true, true, false, true, false, true, true, false, true, false, false, false],
    [false, false, false, false, false, false, true, false, false, true, false, false, false, false, false, false, false, false, false, false, true],
    [false, false, false, false, false, false, false, false, false, true, false, false, false, false, false, false, false, true, true, false, false],
    [true, true, true, true, true, true, true, false, false, true, false, false, true, false, true, true, true, false, false, true, false],
    [true, false, false, false, false, false, true, false, false, true, false, true, false, false, false, false, true, true, false, true, false],
    [true, false, true, true, true, false, true, false, false, true, false, true, true, true, true, true, true, false, false, true, false],
    [true, false, true, true, true, false, true, false, false, true, false, true, true, true, true, false, false, true, true, false, false],
    [true, false, true, true, true, false, true, false, false, false, true, false, false, true, false, false, false, false, false, false, false],
    [true, false, false, false, false, false, true, false, false, true, true, false, true, false, true, true, true, true, false, false, false],
    [true, true, true, true, true, true, true, false, false, false, false, false, false, false, false, true, true, false, false, true, false]]

/-- The modules after pass 7 of the `place_data_bits` column loop. -/
def modsHello7 : List (List Bool) :=
  [[true, true, true, true, true, true, true, false, false, false, true, false, true, false, true, true, true, true, true, true, true],
    [true, false, false, false, false, false, true, false, false, false, true, true, false, false, true, false, false, false, false, false, true],
    [true, false, true, true, true, false, true, false, false, false, true, true, true, false, true, false, true, true, true, false, true],
    [true, false, true, true, true, false, true, false, false, true, true, true, false, false, true, false, true, true, true, false, true],
    [true, false, true, true, true, false, true, false, false, true, false, false, false, false, true, false, true, true, true, false, true],
    [true, false, false, false, false, false, true, false, false, true, false, false, true, false, true, false, false, false, false, false, true],
    [true, true, true, true, true, true, true, false, true, false, true, false, true, false, true, true, true, true, true, true, true],
    [false, false, false, false, false, false, false, true, false, true, false, true, false, true, false, false, false, false, false, false, false],
    [false, false, false, false, false, false, true, false, false, false, true, true, true, true, false, false, false, false, false, false, false],
    [false, false, false, false, false, false, false, true, false, true, true, true, true, true, true, true, false, true, false, false, false],
    [false, false, false, false, false, false, true, false, true, true, false, false, false, true, false, false, false, true, false, true, false],
    [false, false, false, false, false, false, false, false, false, true, true, false, true, false, true, true, false, true, false, false, false],
    [false, false, false, false, false, false, true, true, false, true, false, false, false, false, false, false, false, false, false, false, true],
    [false, false, false, false, false, false, false, true, false, true, false, false, false, false, false, false, false, true, true, false, false],
    [true, true, true, true, true, true, true, false, false, true, false, false, true, false, true, true, true, false, false, true, false],
    [true, false, false, false, false, false, true, false, false, true, false, true, false, false, false, false, true, true, false, true, false],
    [true, false, true, true, true, false, true, false, false, true, false, true, true, true, true, true, true, false, false, true, false],
    [true, false, true, true, true, false, true, false, false, true, false, true, true, true, true, false, false, true, true, false, false],
    [true, false, true, true, true, false, true, false, false, false, true, false, false, true, false, false, false, false, false, false, false],
    [true, false, false, false, false, false, true, false, false, true, true, false, true, false, true, true, true, true, false, false, false],
    [true, true, true, true, true, true, true, false, false, false, false, false, false, false, false, true, true, false, false, true, false]]

/-- The modules after pass 8 of the `place_data_bits` column loop. -/
def modsHello8 : List (List Bool) :=
  [[true, true, true, true, true, true, true, false, false, false, true, false, true, false, true, true, true, true, true, true, true],
    [true, false, false, false, false, false, true, false, false, false, true, true, false, false, true, false, false, false, false, false, true],
    [true, false, true, true, true, false, true, false, false, false, true, true, true, false, true, false, true, true, true, false, true],
    [true, false, true, true, true, false, true, false, false, true, true, true, false, false, true, false, true, true, true, false, true],
    [true, false, true, true, true, false, true, false, false, true, false, false, false, false, true, false, true, true, true, false, true],
    [true, false, false, false, false, false, true, false, false, true, false, false, true, false, true, false, false, false, false, false, true],
    [true, true, true, true, true, true, true, false, true, false, true, false, true, false, true, true, true, true, true, true, true],
    [false, false, false, false, false, false, false, true, false, true, false, true, false, true, false, false, false, false, false, false, false],
    [false, false, false, false, false, false, true, false, false, false, true, true, true, true, false, false, false, false, false, false, false],
    [false, false, false, false, true, false, false, true, false, true, true, true, true, true, true, true, false, true, false, false, false],
    [false, false, false, false, true, false, true, false, true, true, false, false, false, true, false, false, false, true, false, true, false],
    [false, false, false, false, false, false, false, false, false, true, true, false, true, false, true, true, false, true, false, false, false],
    [false, false, false, false, false, false, true, true, false, true, false, false, false, false, false, false, false, false, false, false, true],
    [false, false, false, false, false, false, false, true, false, true, false, false, false, false, false, false, false, true, true, false, false],
    [true, true, true, true, true, true, true, false, false, true, false, false, true, false, true, true, true, false, false, true, false],
    [true, false, false, false, false, false, true, false, false, true, false, true, false, false, false, false, true, true, false, true, false],
    [true, false, true, true, true, false, true, false, false, true, false, true, true, true, true, true, true, false, false, true, false],
    [true, false, true, true, true, false, true, false, false, true, false, true, true, true, true, false, false, true, true, false, false],
    [true, false, true, true, true, false, true, false, false, false, true, false, false, true, false, false, false, false, false, false, false],
    [true, false, false, false, false, false, true, false, false, true, true, false, true, false, true, true, true, true, false, false, false],
    [true, true, true, true, true, true, true, false, false, false, false, false, false, false, false, true, true, false, false, true, false]]

/-- The modules after pass 9 of the `place_data_bits` column loop. -/
def modsHello9 : List (List Bool) :=
  [[true, true, true, true, true, true, true, false, false, false, true, false, true, false, true, true, true, true, true, true, true],
    [true, false, false, false, false, false, true, false, false, false, true, true, false, false, true, false, false, false, false, false, true],
    [true, false, true, true, true, false, true, false, false, false, true, true, true, false, true, false, true, true, true, false, true],
    [true, false, true, true, true, false, true, false, false, true, true, true, false, false, true, false, true, true, true, false, true],
    [true, false, true, true, true, false, true, false, false, true, false, false, false, false, true, false, true, true, true, false, true],
    [true, false, false, false, false, false, true, false, false, true, false, false, true, false, true, false, false, false, false, false, true],
    [true, true, true, true, true, true, true, false, true, false, true, false, true, false, true, true, true, true, true, true, true],
    [false, false, false, false, false, false, false, true, false, true, false, true, false, true, false, false, false, false, false, false, false],
    [false, false, false, false, false, false, true, false, false, false, true, true, true, true, false, false, false, false, false, false, false],
    [false, false, true, true, true, false, false, true, false, true, true, true, true, true, true, true, false, true, false, false, false],
    [false, false, false, false, true, false, true, false, true, true, false, false, false, true, false, false, false, true, false, true, false],
    [false, false, true, true, false, false, false, false, false, true, true, false, true, false, true, true, false, true, false, false, false],
    [false, false, false, false, false, false, true, true, false, true, false, false, false, false, false, false, false, false, false, false, true],
    [false, false, false, false, false, false, false, true, false, true, false, false, false, false, false, false, false, true, true, false, false],
    [true, true, true, true, true, true, true, false, false, true, false, false, true, false, true, true, true, false, false, true, false],
    [true, false, false, false, false, false, true, false, false, true, false, true, false, false, false, false, true, true, false, true, false],
    [true, false, true, true, true, false, true, false, false, true, false, true, true, true, true, true, true, false, false, true, false],
    [true, false, true, true, true, false, true, false, false, true, false, true, true, true, true, false, false, true, true, false, false],
    [true, false, true, true, true, false, true, false, false, false, true, false, false, true, false, false, false, false, false, false, false],
    [true, false, false, false, false, false, true, false, false, true, true, false, true, false, true, true, true, true, false, false, false],
    [true, true, true, true, true, true, true, false, false, false, false, false, false, false, false, true, true, false, false, true, false]]

/-- The modules after pass 10 of the `place_data_bits` column loop. -/
def modsHello10 : List (List Bool) :=
  [[true, true, true, true, true, true, true, false, false, false, true, false, true, false, true, true, true, true, true, true, true],
    [true, false, false, false, false, false, true, false, false, false, true, true, false, false, true, false, false, false, false, false, true],
    [true, false, true, true, true, false, true, false, false, false, true, true, true, false, true, false, true, true, true, false, true],
    [true, false, true, true, true, false, true, false, false, true, true, true, false, false, true, false, true, true, true, false, true],
    [true, false, true, true, true, false, true, false, false, true, false, false, false, false, true, false, true, true, true, false, true],
    [true, false, false, false, false, false, true, false, false, true, false, false, true, false, true, false, false, false, false, false, true],
    [true, true, true, true, true, true, true, false, true, false, true, false, true, false, true, true, true, true, true, true, true],
    [false, false, false, false, false, false, false, true, false, true, false, true, false, true, false, false, false, false, false, false, false],
    [false, false, false, false, false, false, true, false, false, false, true, true, true, true, false, false, false, false, false, false, false],
    [false, false, true, true, true, false, false, true, false, true, true, true, true, true, true, true, false, true, false, false, false],
    [false, true, false, false, true, false, true, false, true, true, false, false, false, true, false, false, false, true, false, true, false],
    [false, false, true, true, false, false, false, false, false, true, true, false, true, false, true, true, false, true, false, false, false],
    [false, false, false, false, false, false, true, true, false, true, false, false, false, false, false, false, false, false, false, false, true],
    [false, false, false, false, false, false, false, true, false, true, false, false, false, false, false, false, false, true, true, false, false],
    [true, true, true, true, true, true, true, false, false, true, false, false, true, false, true, true, true, false, false, true, false],
    [true, false, false, false, false, false, true, false, false, true, false, true, false, false, false, false, true, true, false, true, false],
    [true, false, true, true, true, false, true, false, false, true, false, true, true, true, true, true, true, false, false, true, false],
    [true, false, true, true, true, false, true, false, false, true, false, true, true, true, true, false, false, true, true, false, false],
    [true, false, true, true, true, false, true, false, false, false, true, false, false, true, false, false, false, false, false, false, false],
    [true, false, false, false, false, false, true, false, false, true, true, false, true, false, true, true, true, true, false, false, false],
    [true, true, true, true, true, true, true, false, false, false, false, false, false, false, false, true, true, false, false, true, false]]

/-- The fully placed (pre-mask) version-1 level-M grid for "HELLO". -/
def qrHelloPre : QrCode :=
  { modules := modsHello10, isFunction := funHello, version := 1, errorCorrection := .M, mask := 0 }

/-- Version-7 grid modules after phase `f1` of `place_function_patterns`. -/
def mods7f1 : List (List Bool) :=
  [[true, true, true, true, true, true, true, false, false, false, false, false, false, false, false, false, false, false, false, false, false, false, false, false, false, false, false, false, false, false, false, false, false, false, false, false, false, false, false, false, false, false, false, false, false],
    [true, false, false, false, false, false, true, false, false, false, false, false, false, false, false, false, false, false, false, false, false, false, false, false, false, false, false, false, false, false, false, false, false, false, false, false, false, false, false, false, false, false, false, false, false],
    [true, false, true, true, true, false, true, false, false, false, false, false, false, false, false, false, false, false, false, false, false, false, false, false, false, false, false, false, false, false, false, false, false, false, false, false, false, false, false, false, false, false, false, false, false],
    [true, false, true, true, true, false, true, false, false, false, false, false, false, false, false, false, false, false, false, false, false, false, false, false, false, false, false, false, false, false, false, false, false, false, false, false, false, false, false, false, false, false, false, false, false],
    [true, false, true, true, true, false, true, false, false, false, false, false, false, false, false, false, false, false, false, false, false, false, false, false, false, false, false, false, false, false, false, false, false, false, false, false, false, false, false, false, false, false, false, false, false],
    [true, false, false, false, false, false, true, false, false, false, false, false, false, false, false, false, false, false, false, false, false, false, false, false, false, false, false, false, false, false, false, false, false, false, false, false, false, false, false, false, false, false, false, false, false],
    [true, true, true, true, true, true, true, false, false, false, false, false, false, false, false, false, false, false, false, false, false, false, false, false, false, false, false, false, false, false, false, false, false, false, false, false, false, false, false, false, false, false, false, false, false],
    [false, false, false, false, false, false, false, false, false, false, false, false, false, false, false, false, false, false, false, false, false, false, false, false, false, false, false, false, false, false, false, false, false, false, false, false, false, false, false, false, false, false, false, false, false],
    [false, false, false, false, false, false, false, false, false, false, false, false, false, false, false, false, false, false, false, false, false, false, false, false, false, false, false, false, false, false, false, false, false, false, false, false, false, false, false, false, false, false, false, false, false],
    [false, false, false, false, false, false, false, false, false, false, false, false, false, false, false, false, false, false, false, false, false, false, false, false, false, false, false, false, false, false, false, false, false, false, false, false, false, false, false, false, false, false, false, false, false],
    [false, false, false, false, false, false, false, false, false, false, false, false, false, false, false, false, false, false, false, false, false, false, false, false, false, false, false, false, false, false, false, false, false, false, false, false, false, false, false, false, false, false, false, false, false],
    [false, false, false, false, false, false, false, false, false, false, false, false, false, false, false, false, false, false, false, false, false, false, false, false, false, false, false, false, false, false, false, false, false, false, false, false, false, false, false, false, false, false, false, false, false],
    [false, false, false, false, false, false, false, false, false, false, false, false, false, false, false, false, false, false, false, false, false, false, false, false, false, false, false, false, false, false, false, false, false, false, false, false, false, false, false, false, false, false, false, false, false],
    [false, false, false, false, false, false, false, false, false, false, false, false, false, false, false, false, false, false, false, false, false, false, false, false, false, false, false, false, false, false, false, false, false, false, false, false, false, false, false, false, false, false, false, false, false],
    [false, false, false, false, false, false, false, false, false, false, false, false, false, false, false, false, false, false, false, false, false, false, false, false, false, false, false, false, false, false, false, false, false, false, false, false, false, false, false, false, false, false, false, false, false],
    [false, false, false, false, false, false, false, false, false, false, false, false, false, false, false, false, false, false, false, false, false, false, false, false, false, false, false, false, false, false, false, false, false, false, false, false, false, false, false, false, false, false, false, false, false],
    [false, false, false, false, false, false, false, false, false, false, false, false, false, false, false, false, false, false, false, false, false, false, false, false, false, false, false, false, false, false, false, false, false, false, false, false, false, false, false, false, false, false, false, false, false],
    [false, false, false, false, false, false, false, false, false, false, false, false, false, false, false, false, false, false, false, false, false, false, false, false, false, false, false, false, false, false, false, false, false, false, false, false, false, false, false, false, false, false, false, false, false],
    [false, false, false, false, false, false, false, false, false, false, false, false, false, false, false, false, false, false, false, false, false, false, false, false, false, false, false, false, false, false, false, false, false, false, false, false, false, false, false, false, false, false, false, false, false],
    [false, false, false, false, false, false, false, false, false, false, false, false, false, false, false, false, false, false, false, false, false, false, false, false, false, false, false, false, false, false, false, false, false, false, false, false, false, false, false, false, false, false, false, false, false],
    [false, false, false, false, false, false, false, false, false, false, false, false, false, false, false, false, false, false, false, false, false, false, false, false, false, false, false, false, false, false, false, false, false, false, false, false, false, false, false, false, false, false, false, false, false],
    [false, false, false, false, false, false, false, false, false, false, false, false, false, false, false, false, false, false, false, false, false, false, false, false, false, false, false, false, false, false, false, false, false, false, false, false, false, false, false, false, false, false, false, false, false],
    [false, false, false, false, false, false, false, false, false, false, false, false, false, false, false, false, false, false, false, false, false, false, false, false, false, false, false, false, false, false, false, false, false, false, false, false, false, false, false, false, false, false, false, false, false],
    [false, false, false, false, false, false, false, false, false, false, false, false, false, false, false, false, false, false, false, false, false, false, false, false, false, false, false, false, false, false, false, false, false, false, false, false, false, false, false, false, false, false, false, false, false],
    [false, false, false, false, false, false, false, false, false, false, false, false, false, false, false, false, false, false, false, false, false, false, false, false, false, false, false, false, false, false, false, false, false, false, false, false, false, false, false, false, false, false, false, false, false],
    [false, false, false, false, false, false, false, false, false, false, false, false, false, false, false, false, false, false, false, false, false, false, false, false, false, false, false, false, false, false, false, false, false, false, false, false, false, false, false, false, false, false, false, false, false],
    [false, false, false, false, false, false, false, false, false, false, false, false, false, false, false, false, false, false, false, false, false, false, false, false, false, false, false, false, false, false, false, false, false, false, false, false, false, false, false, false, false, false, false, false, false],
    [false, false, false, false, false, false, false, false, false, false, false, false, false, false, false, false, false, false, false, false, false, false, false, false, false, false, false, false, false, false, false, false, false, false, false, false, false, false, false, false, false, false, false, false, false],
    [false, false, false, false, false, false, false, false, false, false, false, false, false, false, false, false, false, false, false, false, false, false, false, false, false, false, false, false, false, false, false, false, false, false, false, false, false, false, false, false, false, false, false, false, false],
    [false, false, false, false, false, false, false, false, false, false, false, false, false, false, false, false, false, false, false, false, false, false, false, false, false, false, false, false, false, false, false, false, false, false, false, false, false, false, false, false, false, false, false, false, false],
    [false, false, false, false, false, false, false, false, false, false, false, false, false, false, false, false, false, false, false, false, false, false, false, false, false, false, false, false, false, false, false, false, false, false, false, false, false, false, false, false, false, false, false, false, false],
    [false, false, false, false, false, false, false, false, false, false, false, false, false, false, false, false, false, false, false, false, false, false, false, false, false, false, false, false, false, false, false, false, false, false, false, false, false, false, false, false, false, false, false, false, false],
    [false, false, false, false, false, false, false, false, false, false, false, false, false, false, false, false, false, false, false, false, false, false, false, false, false, false, false, false, false, false, false, false, false, false, false, false, false, false, false, false, false, false, false, false, false],
    [false, false, false, false, false, false, false, false, false, false, false, false, false, false, false, false, false, false, false, false, false, false, false, false, false, false, false, false, false, false, false, false, false, false, false, false, false, false, false, false, false, false, false, false, false],
    [false, false, false, false, false, false, false, false, false, false, false, false, false, false, false, false, false, false, false, false, false, false, false, false, false, false, false, false, false, false, false, false, false, false, false, false, false, false, false, false, false, false, false, false, false],
    [false, false, false, false, false, false, false, false, false, false, false, false, false, false, false, false, false, false, false, false, false, false, false, false, false, false, false, false, false, false, false, false, false, false, false, false, false, false, false, false, false, false, false, false, false],
    [false, false, false, false, false, false, false, false, false, false, false, false, false, false, false, false, false, false, false, false, false, false, false, false, false, false, false, false, false, false, false, false, false, false, false, false, false, false, false, false, false, false, false, false, false],
    [false, false, false, false, false, false, false, false, false, false, false, false, false, false, false, false, false, false, false, false, false, false, false, false, false, false, false, false, false, false, false, false, false, false, false, false, false, false, false, false, false, false, false, false, false],
    [false, false, false, false, false, false, false, false, false, false, false, false, false, false, false, false, false, false, false, false, false, false, false, false, false, false, false, false, false, false, false, false, false, false, false, false, false, false, false, false, false, false, false, false, false],
    [false, false, false, false, false, false, false, false, false, false, false, false, false, false, false, false, false, false, false, false, false, false, false, false, false, false, false, false, false, false, false, false, false, false, false, false, false, false, false, false, false, false, false, false, false],
    [false, false, false, false, false, false, false, false, false, false, false, false, false, false, false, false, false, false, false, false, false, false, false, false, false, false, false, false, false, false, false, false, false, false, false, false, false, false, false, false, false, false, false, false, false],
    [false, false, false, false, false, false, false, false, false, false, false, false, false, false, false, false, false, false, false, false, false, false, false, false, false, false, false, false, false, false, false, false, false, false, false, false, false, false, false, false, false, false, false, false, false],
    [false, false, false, false, false, false, false, false, false, false, false, false, false, false, false, false, false, false, false, false, false, false, false, false, false, false, false, false, false, false, false, false, false, false, false, false, false, false, false, false, false, false, false, false, false],
    [false, false, false, false, false, false, false, false, false, false, false, false, false, false, false, false, false, false, false, false, false, false, false, false, false, false, false, false, false, false, false, false, false, false, false, false, false, false, false, false, false, false, false, false, false],
    [false, false, false, false, false, false, false, false, false, false, false, false, false, false, false, false, false, false, false, false, false, false, false, false, false, false, false, false, false, false, false, false, false, false, false, false, false, false, false, false, false, false, false, false, false]]

/-- Version-7 function flags after phase `f1` of `place_function_patterns`. -/
def fun7f1 : List (List Bool) :=
  [[true, true, true, true, true, true, true, true, false, false, false, false, false, false, false, false, false, false, false, false, false, false, false, false, false, false, false, false, false, false, false, false, false, false, false, false, false, false, false, false, false, false, false, false, false],
    [true, true, true, true, true, true, true, true, false, false, false, false, false, false, false, false, false, false, false, false, false, false, false, false, false, false, false, false, false, false, false, false, false, false, false, false, false, false, false, false, false, false, false, false, false],
    [true, true, true, true, true, true, true, true, false, false, false, false, false, false, false, false, false, false, false, false, false, false, false, false, false, false, false, false, false, false, false, false, false, false, false, false, false, false, false, false, false, false, false, false, false],
    [true, true, true, true, true, true, true, true, false, false, false, false, false, false, false, false, false, false, false, false, false, false, false, false, false, false, false, false, false, false, false, false, false, false, false, false, false, false, false, false, false, false, false, false, false],
    [true, true, true, true, true, true, true, true, false, false, false, false, false, false, false, false, false, false, false, false, false, false, false, false, false, false, false, false, false, false, false, false, false, false, false, false, false, false, false, false, false, false, false, false, false],
    [true, true, true, true, true, true, true, true, false, false, false, false, false, false, false, false, false, false, false, false, false, false, false, false, false, false, false, false, false, false, false, false, false, false, false, false, false, false, false, false, false, false, false, false, false],
    [true, true, true, true, true, true, true, true, false, false, false, false, false, false, false, false, false, false, false, false, false, false, false, false, false, false, false, false, false, false, false, false, false, false, false, false, false, false, false, false, false, false, false, false, false],
    [true, true, true, true, true, true, true, false, false, false, false, false, false, false, false, false, false, false, false, false, false, false, false, false, false, false, false, false, false, false, false, false, false, false, false, false, false, false, false, false, false, false, false, false, false],
    [false, false, false, false, false, false, false, false, false, false, false, false, false, false, false, false, false, false, false, false, false, false, false, false, false, false, false, false, false, false, false, false, false, false, false, false, false, false, false, false, false, false, false, false, false],
    [false, false, false, false, false, false, false, false, false, false, false, false, false, false, false, false, false, false, false, false, false, false, false, false, false, false, false, false, false, false, false, false, false, false, false, false, false, false, false, false, false, false, false, false, false],
    [false, false, false, false, false, false, false, false, false, false, false, false, false, false, false, false, false, false, false, false, false, false, false, false, false, false, false, false, false, false, false, false, false, false, false, false, false, false, false, false, false, false, false, false, false],
    [false, false, false, false, false, false, false, false, false, false, false, false, false, false, false, false, false, false, false, false, false, false, false, false, false, false, false, false, false, false, false, false, false, false, false, false, false, false, false, false, false, false, false, false, false],
    [false, false, false, false, false, false, false, false, false, false, false, false, false, false, false, false, false, false, false, false, false, false, false, false, false, false, false, false, false, false, false, false, false, false, false, false, false, false, false, false, false, false, false, false, false],
    [false, false, false, false, false, false, false, false, false, false, false, false, false, false, false, false, false, false, false, false, false, false, false, false, false, false, false, false, false, false, false, false, false, false, false, false, false, false, false, false, false, false, false, false, false],
    [false, false, false, false, false, false, false, false, false, false, false, false, false, false, false, false, false, false, false, false, false, false, false, false, false, false, false, false, false, false, false, false, false, false, false, false, false, false, false, false, false, false, false, false, false],
    [false, false, false, false, false, false, false, false, false, false, false, false, false, false, false, false, false, false, false, false, false, false, false, false, false, false, false, false, false, false, false, false, false, false, false, false, false, false, false, false, false, false, false, false, false],
    [false, false, false, false, false, false, false, false, false, false, false, false, false, false, false, false, false, false, false, false, false, false, false, false, false, false, false, false, false, false, false, false, false, false, false, false, false, false, false, false, false, false, false, false, false],
    [false, false, false, false, false, false, false, false, false, false, false, false, false, false, false, false, false, false, false, false, false, false, false, false, false, false, false, false, false, false, false, false, false, false, false, false, false, false, false, false, false, false, false, false, false],
    [false, false, false, false, false, false, false, false, false, false, false, false, false, false, false, false, false, false, false, false, false, false, false, false, false, false, false, false, false, false, false, false, false, false, false, false, false, false, false, false, false, false, false, false, false],
    [false, false, false, false, false, false, false, false, false, false, false, false, false, false, false, false, false, false, false, false, false, false, false, false, false, false, false, false, false, false, false, false, false, false, false, false, false, false, false, false, false, false, false, false, false],
    [false, false, false, false, false, false, false, false, false, false, false, false, false, false, false, false, false, false, false, false, false, false, false, false, false, false, false, false, false, false, false, false, false, false, false, false, false, false, false, false, false, false, false, false, false],
    [false, false, false, false, false, false, false, false, false, false, false, false, false, false, false, false, false, false, false, false, false, false, false, false, false, false, false, false, false, false, false, false, false, false, false, false, false, false, false, false, false, false, false, false, false],
    [false, false, false, false, false, false, false, false, false, false, false, false, false, false, false, false, false, false, false, false, false, false, false, false, false, false, false, false, false, false, false, false, false, false, false, false, false, false, false, false, false, false, false, false, false],
    [false, false, false, false, false, false, false, false, false, false, false, false, false, false, false, false, false, false, false, false, false, false, false, false, false, false, false, false, false, false, false, false, false, false, false, false, false, false, false, false, false, false, false, false, false],
    [false, false, false, false, false, false, false, false, false, false, false, false, false, false, false, false, false, false, false, false, false, false, false, false, false, false, false, false, false, false, false, false, false, false, false, false, false, false, false, false, false, false, false, false, false],
    [false, false, false, false, false, false, false, false, false, false, false, false, false, false, false, false, false, false, false, false, false, false, false, false, false, false, false, false, false, false, false, false, false, false, false, false, false, false, false, false, false, false, false, false, false],
    [false, false, false, false, false, false, false, false, false, false, false, false, false, false, false, false, false, false, false, false, false, false, false, false, false, false, false, false, false, false, false, false, false, false, false, false, false, false, false, false, false, false, false, false, false],
    [false, false, false, false, false, false, false, false, false, false, false, false, false, false, false, false, false, false, false, false, false, false, false, false, false, false, false, false, false, false, false, false, false, false, false, false, false, false, false, false, false, false, false, false, false],
    [false, false, false, false, false, false, false, false, false, false, false, false, false, false, false, false, false, false, false, false, false, false, false, false, false, false, false, false, false, false, false, false, false, false, false, false, false, false, false, false, false, false, false, false, false],
    [false, false, false, false, false, false, false, false, false, false, false, false, false, false, false, false, false, false, false, false, false, false, false, false, false, false, false, false, false, false, false, false, false, false, false, false, false, false, false, false, false, false, false, false, false],
    [false, false, false, false, false, false, false, false, false, false, false, false, false, false, false, false, false, false, false, false, false, false, false, false, false, false, false, false, false, false, false, false, false, false, false, false, false, false, false, false, false, false, false, false, false],
    [false, false, false, false, false, false, false, false, false, false, false, false, false, false, false, false, false, false, false, false, false, false, false, false, false, false, false, false, false, false, false, false, false, false, false, false, false, false, false, false, false, false, false, false, false],
    [false, false, false, false, false, false, false, false, false, false, false, false, false, false, false, false, false, false, false, false, false, false, false, false, false, false, false, false, false, false, false, false, false, false, false, false, false, false, false, false, false, false, false, false, false],
    [false, false, false, false, false, false, false, false, false, false, false, false, false, false, false, false, false, false, false, false, false, false, false, false, false, false, false, false, false, false, false, false, false, false, false, false, false, false, false, false, false, false, false, false, false],
    [false, false, false, false, false, false, false, false, false, false, false, false, false, false, false, false, false, false, false, false, false, false, false, false, false, false, false, false, false, false, false, false, false, false, false, false, false, false, false, false, false, false, false, false, false],
    [false, false, false, false, false, false, false, false, false, false, false, false, false, false, false, false, false, false, false, false, false, false, false, false, false, false, false, false, false, false, false, false, false, false, false, false, false, false, false, false, false, false, false, false, false],
    [false, false, false, false, false, false, false, false, false, false, false, false, false, false, false, false, false, false, false, false, false, false, false, false, false, false, false, false, false, false, false, false, false, false, false, false, false, false, false, false, false, false, false, false, false],
    [false, false, false, false, false, false, false, false, false, false, false, false, false, false, false, false, false, false, false, false, false, false, false, false, false, false, false, false, false, false, false, false, false, false, false, false, false, false, false, false, false, false, false, false, false],
    [false, false, false, false, false, false, false, false, false, false, false, false, false, false, false, false, false, false, false, false, false, false, false, false, false, false, false, false, false, false, false, false, false, false, false, false, false, false, false, false, false, false, false, false, false],
    [false, false, false, false, false, false, false, false, false, false, false, false, false, false, false, false, false, false, false, false, false, false, false, false, false, false, false, false, false, false, false, false, false, false, false, false, false, false, false, false, false, false, false, false, false],
    [false, false, false, false, false, false, false, false, false, false, false, false, false, false, false, false, false, false, false, false, false, false, false, false, false, false, false, false, false, false, false, false, false, false, false, false, false, false, false, false, false, false, false, false, false],
    [false, false, false, false, false, false, false, false, false, false, false, false, false, false, false, false, false, false, false, false, false, false, false, false, false, false, false, false, false, false, false, false, false, false, false, false, false, false, false, false, false, false, false, false, false],
    [false, false, false, false, false, false, false, false, false, false, false, false, false, false, false, false, false, false, false, false, false, false, false, false, false, false, false, false, false, false, false, false, false, false, false, false, false, false, false, false, false, false, false, false, false],
    [false, false, false, false, false, false, false, false, false, false, false, false, false, false, false, false, false, false, false, false, false, false, false, false, false, false, false, false, false, false, false, false, false, false, false, false, false, false, false, false, false, false, false, false, false],
    [false, false, false, false, false, false, false, false, false, false, false, false, false, false, false, false, false, false, false, false, false, false, false, false, false, false, false, false, false, false, false, false, false, false, false, false, false, false, false, false, false, false, false, false, false]]

/-- Version-7 grid modules after phase `f2` of `place_function_patterns`. -/
def mods7f2 : List (List Bool) :=
  [[true, true, true, true, true, true, true, false, false, false, false, false, false, false, false, false, false, false, false, false, false, false, false, false, false, false, false, false, false, false, false, false, false, false, false, false, false, false, false, false, false, false, false, false, false],
    [true, false, false, false, false, false, true, false, false, false, false, false, false, false, false, false, false, false, false, false, false, false, false, false, false, false, false, false, false, false, false, false, false, false, false, false, false, false, false, false, false, false, false, false, false],
    [true, false, true, true, true, false, true, false, false, false, false, false, false, false, false, false, false, false, false, false, false, false, false, false, false, false, false, false, false, false, false, false, false, false, false, false, false, false, false, false, false, false, false, false, false],
    [true, false, true, true, true, false, true, false, false, false, false, false, false, false, false, false, false, false, false, false, false, false, false, false, false, false, false, false, false, false, false, false, false, false, false, false, false, false, false, false, false, false, false, false, false],
    [true, false, true, true, true, false, true, false, false, false, false, false, false, false, false, false, false, false, false, false, false, false, false, false, false, false, false, false, false, false, false, false, false, false, false, false, false, false, false, false, false, false, false, false, false],
    [true, false, false, false, false, false, true, false, false, false, false, false, false, false, false, false, false, false, false, false, false, false, false, false, false, false, false, false, false, false, false, false, false, false, false, false, false, false, false, false, false, false, false, false, false],
    [true, true, true, true, true, true, true, false, false, false, false, false, false, false, false, false, false, false, false, false, false, false, false, false, false, false, false, false, false, false, false, false, false, false, false, false, false, false, false, false, false, false, false, false, false],
    [false, false, false, false, false, false, false, false, false, false, false, false, false, false, false, false, false, false, false, false, false, false, false, false, false, false, false, false, false, false, false, false, false, false, false, false, false, false, false, false, false, false, false, false, false],
    [false, false, false, false, false, false, false, false, false, false, false, false, false, false, false, false, false, false, false, false, false, false, false, false, false, false, false, false, false, false, false, false, false, false, false, false, false, false, false, false, false, false, false, false, false],
    [false, false, false, false, false, false, false, false, false, false, false, false, false, false, false, false, false, false, false, false, false, false, false, false, false, false, false, false, false, false, false, false, false, false, false, false, false, false, false, false, false, false, false, false, false],
    [false, false, false, false, false, false, false, false, false, false, false, false, false, false, false, false, false, false, false, false, false, false, false, false, false, false, false, false, false, false, false, false, false, false, false, false, false, false, false, false, false, false, false, false, false],
    [false, false, false, false, false, false, false, false, false, false, false, false, false, false, false, false, false, false, false, false, false, false, false, false, false, false, false, false, false, false, false, false, false, false, false, false, false, false, false, false, false, false, false, false, false],
    [false, false, false, false, false, false, false, false, false, false, false, false, false, false, false, false, false, false, false, false, false, false, false, false, false, false, false, false, false, false, false, false, false, false, false, false, false, false, false, false, false, false, false, false, false],
    [false, false, false, false, false, false, false, false, false, false, false, false, false, false, false, false, false, false, false, false, false, false, false, false, false, false, false, false, false, false, false, false, false, false, false, false, false, false, false, false, false, false, false, false, false],
    [false, false, false, false, false, false, false, false, false, false, false, false, false, false, false, false, false, false, false, false, false, false, false, false, false, false, false, false, false, false, false, false, false, false, false, false, false, false, false, false, false, false, false, false, false],
    [false, false, false, false, false, false, false, false, false, false, false, false, false, false, false, false, false, false, false, false, false, false, false, false, false, false, false, false, false, false, false, false, false, false, false, false, false, false, false, false, false, false, false, false, false],
    [false, false, false, false, false, false, false, false, false, false, false, false, false, false, false, false, false, false, false, false, false, false, false, false, false, false, false, false, false, false, false, false, false, false, false, false, false, false, false, false, false, false, false, false, false],
    [false, false, false, false, false, false, false, false, false, false, false, false, false, false, false, false, false, false, false, false, false, false, false, false, false, false, false, false, false, false, false, false, false, false, false, false, false, false, false, false, false, false, false, false, false],
    [false, false, false, false, false, false, false, false, false, false, false, false, false, false, false, false, false, false, false, false, false, false, false, false, false, false, false, false, false, false, false, false, false, false, false, false, false, false, false, false, false, false, false, false, false],
    [false, false, false, false, false, false, false, false, false, false, false, false, false, false, false, false, false, false, false, false, false, false, false, false, false, false, false, false, false, false, false, false, false, false, false, false, false, false, false, false, false, false, false, false, false],
    [false, false, false, false, false, false, false, false, false, false, false, false, false, false, false, false, false, false, false, false, false, false, false, false, false, false, false, false, false, false, false, false, false, false, false, false, false, false, false, false, false, false, false, false, false],
    [false, false, false, false, false, false, false, false, false, false, false, false, false, false, false, false, false, false, false, false, false, false, false, false, false, false, false, false, false, false, false, false, false, false, false, false, false, false, false, false, false, false, false, false, false],
    [false, false, false, false, false, false, false, false, false, false, false, false, false, false, false, false, false, false, false, false, false, false, false, false, false, false, false, false, false, false, false, false, false, false, false, false, false, false, false, false, false, false, false, false, false],
    [false, false, false, false, false, false, false, false, false, false, false, false, false, false, false, false, false, false, false, false, false, false, false, false, false, false, false, false, false, false, false, false, false, false, false, false, false, false, false, false, false, false, false, false, false],
    [false, false, false, false, false, false, false, false, false, false, false, false, false, false, false, false, false, false, false, false, false, false, false, false, false, false, false, false, false, false, false, false, false, false, false, false, false, false, false, false, false, false, false, false, false],
    [false, false, false, false, false, false, false, false, false, false, false, false, false, false, false, false, false, false, false, false, false, false, false, false, false, false, false, false, false, false, false, false, false, false, false, false, false, false, false, false, false, false, false, false, false],
    [false, false, false, false, false, false, false, false, false, false, false, false, false, false, false, false, false, false, false, false, false, false, false, false, false, false, false, false, false, false, false, false, false, false, false, false, false, false, false, false, false, false, false, false, false],
    [false, false, false, false, false, false, false, false, false, false, false, false, false, false, false, false, false, false, false, false, false, false, false, false, false, false, false, false, false, false, false, false, false, false, false, false, false, false, false, false, false, false, false, false, false],
    [false, false, false, false, false, false, false, false, false, false, false, false, false, false, false, false, false, false, false, false, false, false, false, false, false, false, false, false, false, false, false, false, false, false, false, false, false, false, false, false, false, false, false, false, false],
    [false, false, false, false, false, false, false, false, false, false, false, false, false, false, false, false, false, false, false, false, false, false, false, false, false, false, false, false, false, false, false, false, false, false, false, false, false, false, false, false, false, false, false, false, false],
    [false, false, false, false, false, false, false, false, false, false, false, false, false, false, false, false, false, false, false, false, false, false, false, false, false, false, false, false, false, false, false, false, false, false, false, false, false, false, false, false, false, false, false, false, false],
    [false, false, false, false, false, false, false, false, false, false, false, false, false, false, false, false, false, false, false, false, false, false, false, false, false, false, false, false, false, false, false, false, false, false, false, false, false, false, false, false, false, false, false, false, false],
    [false, false, false, false, false, false, false, false, false, false, false, false, false, false, false, false, false, false, false, false, false, false, false, false, false, false, false, false, false, false, false, false, false, false, false, false, false, false, false, false, false, false, false, false, false],
    [false, false, false, false, false, false, false, false, false, false, false, false, false, false, false, false, false, false, false, false, false, false, false, false, false, false, false, false, false, false, false, false, false, false, false, false, false, false, false, false, false, false, false, false, false],
    [false, false, false, false, false, false, false, false, false, false, false, false, false, false, false, false, false, false, false, false, false, false, false, false, false, false, false, false, false, false, false, false, false, false, false, false, false, false, false, false, false, false, false, false, false],
    [false, false, false, false, false, false, false, false, false, false, false, false, false, false, false, false, false, false, false, false, false, false, false, false, false, false, false, false, false, false, false, false, false, false, false, false, false, false, false, false, false, false, false, false, false],
    [false, false, false, false, false, false, false, false, false, false, false, false, false, false, false, false, false, false, false, false, false, false, false, false, false, false, false, false, false, false, false, false, false, false, false, false, false, false, false, false, false, false, false, false, false],
    [false, false, false, false, false, false, false, false, false, false, false, false, false, false, false, false, false, false, false, false, false, false, false, false, false, false, false, false, false, false, false, false, false, false, false, false, false, false, false, false, false, false, false, false, false],
    [true, true, true, true, true, true, true, false, false, false, false, false, false, false, false, false, false, false, false, false, false, false, false, false, false, false, false, false, false, false, false, false, false, false, false, false, false, false, false, false, false, false, false, false, false],
    [true, false, false, false, false, false, true, false, false, false, false, false, false, false, false, false, false, false, false, false, false, false, false, false, false, false, false, false, false, false, false, false, false, false, false, false, false, false, false, false, false, false, false, false, false],
    [true, false, true, true, true, false, true, false, false, false, false, false, false, false, false, false, false, false, false, false, false, false, false, false, false, false, false, false, false, false, false, false, false, false, false, false, false, false, false, false, false, false, false, false, false],
    [true, false, true, true, true, false, true, false, false, false, false, false, false, false, false, false, false, false, false, false, false, false, false, false, false, false, false, false, false, false, false, false, false, false, false, false, false, false, false, false, false, false, false, false, false],
    [true, false, true, true, true, false, true, false, false, false, false, false, false, false, false, false, false, false, false, false, false, false, false, false, false, false, false, false, false, false, false, false, false, false, false, false, false, false, false, false, false, false, false, false, false],
    [true, false, false, false, false, false, true, false, false, false, false, false, false, false, false, false, false, false, false, false, false, false, false, false, false, false, false, false, false, false, false, false, false, false, false, false, false, false, false, false, false, false, false, false, false],
    [true, true, true, true, true, true, true, false, false, false, false, false, false, false, false, false, false, false, false, false, false, false, false, false, false, false, false, false, false, false, false, false, false, false, false, false, false, false, false, false, false, false, false, false, false]]

/-- Version-7 function flags after phase `f2` of `place_function_patterns`. -/
def fun7f2 : List (List Bool) :=
  [[true, true, true, true, true, true, true, true, false, false, false, false, false, false, false, false, false, false, false, false, false, false, false, false, false, false, false, false, false, false, false, false, false, false, false, false, false, false, false, false, false, false, false, false, false],
    [true, true, true, true, true, true, true, true, false, false, false, false, false, false, false, false, false, false, false, false, false, false, false, false, false, false, false, false, false, false, false, false, false, false, false, false, false, false, false, false, false, false, false, false, false],
    [true, true, true, true, true, true, true, true, false, false, false, false, false, false, false, false, false, false, false, false, false, false, false, false, false, false, false, false, false, false, false, false, false, false, false, false, false, false, false, false, false, false, false, false, false],
    [true, true, true, true, true, true, true, true, false, false, false, false, false, false, false, false, false, false, false, false, false, false, false, false, false, false, false, false, false, false, false, false, false, false, false, false, false, false, false, false, false, false, false, false, false],
    [true, true, true, true, true, true, true, true, false, false, false, false, false, false, false, false, false, false, false, false, false, false, false, false, false, false, false, false, false, false, false, false, false, false, false, false, false, false, false, false, false, false, false, false, false],
    [true, true, true, true, true, true, true, true, false, false, false, false, false, false, false, false, false, false, false, false, false, false, false, false, false, false, false, false, false, false, false, false, false, false, false, false, false, false, false, false, false, false, false, false, false],
    [true, true, true, true, true, true, true, true, false, false, false, false, false, false, false, false, false, false, false, false, false, false, false, false, false, false, false, false, false, false, false, false, false, false, false, false, false, false, false, false, false, false, false, false, false],
    [true, true, true, true, true, true, true, false, false, false, false, false, false, false, false, false, false, false, false, false, false, false, false, false, false, false, false, false, false, false, false, false, false, false, false, false, false, false, false, false, false, false, false, false, false],
    [false, false, false, false, false, false, false, false, false, false, false, false, false, false, false, false, false, false, false, false, false, false, false, false, false, false, false, false, false, false, false, false, false, false, false, false, false, false, false, false, false, false, false, false, false],
    [false, false, false, false, false, false, false, false, false, false, false, false, false, false, false, false, false, false, false, false, false, false, false, false, false, false, false, false, false, false, false, false, false, false, false, false, false, false, false, false, false, false, false, false, false],
    [false, false, false, false, false, false, false, false, false, false, false, false, false, false, false, false, false, false, false, false, false, false, false, false, false, false, false, false, false, false, false, false, false, false, false, false, false, false, false, false, false, false, false, false, false],
    [false, false, false, false, false, false, false, false, false, false, false, false, false, false, false, false, false, false, false, false, false, false, false, false, false, false, false, false, false, false, false, false, false, false, false, false, false, false, false, false, false, false, false, false, false],
    [false, false, false, false, false, false, false, false, false, false, false, false, false, false, false, false, false, false, false, false, false, false, false, false, false, false, false, false, false, false, false, false, false, false, false, false, false, false, false, false, false, false, false, false, false],
    [false, false, false, false, false, false, false, false, false, false, false, false, false, false, false, false, false, false, false, false, false, false, false, false, false, false, false, false, false, false, false, false, false, false, false, false, false, false, false, false, false, false, false, false, false],
    [false, false, false, false, false, false, false, false, false, false, false, false, false, false, false, false, false, false, false, false, false, false, false, false, false, false, false, false, false, false, false, false, false, false, false, false, false, false, false, false, false, false, false, false, false],
    [false, false, false, false, false, false, false, false, false, false, false, false, false, false, false, false, false, false, false, false, false, false, false, false, false, false, false, false, false, false, false, false, false, false, false, false, false, false, false, false, false, false, false, false, false],
    [false, false, false, false, false, false, false, false, false, false, false, false, false, false, false, false, false, false, false, false, false, false, false, false, false, false, false, false, false, false, false, false, false, false, false, false, false, false, false, false, false, false, false, false, false],
    [false, false, false, false, false, false, false, false, false, false, false, false, false, false, false, false, false, false, false, false, false, false, false, false, false, false, false, false, false, false, false, false, false, false, false, false, false, false, false, false, false, false, false, false, false],
    [false, false, false, false, false, false, false, false, false, false, false, false, false, false, false, false, false, false, false, false, false, false, false, false, false, false, false, false, false, false, false, false, false, false, false, false, false, false, false, false, false, false, false, false, false],
    [false, false, false, false, false, false, false, false, false, false, false, false, false, false, false, false, false, false, false, false, false, false, false, false, false, false, false, false, false, false, false, false, false, false, false, false, false, false, false, false, false, false, false, false, false],
    [false, false, false, false, false, false, false, false, false, false, false, false, false, false, false, false, false, false, false, false, false, false, false, false, false, false, false, false, false, false, false, false, false, false, false, false, false, false, false, false, false, false, false, false, false],
    [false, false, false, false, false, false, false, false, false, false, false, false, false, false, false, false, false, false, false, false, false, false, false, false, false, false, false, false, false, false, false, false, false, false, false, false, false, false, false, false, false, false, false, false, false],
    [false, false, false, false, false, false, false, false, false, false, false, false, false, false, false, false, false, false, false, false, false, false, false, false, false, false, false, false, false, false, false, false, false, false, false, false, false, false, false, false, false, false, false, false, false],
    [false, false, false, false, false, false, false, false, false, false, false, false, false, false, false, false, false, false, false, false, false, false, false, false, false, false, false, false, false, false, false, false, false, false, false, false, false, false, false, false, false, false, false, false, false],
    [false, false, false, false, false, false, false, false, false, false, false, false, false, false, false, false, false, false, false, false, false, false, false, false, false, false, false, false, false, false, false, false, false, false, false, false, false, false, false, false, false, false, false, false, false],
    [false, false, false, false, false, false, false, false, false, false, false, false, false, false, false, false, false, false, false, false, false, false, false, false, false, false, false, false, false, false, false, false, false, false, false, false, false, false, false, false, false, false, false, false, false],
    [false, false, false, false, false, false, false, false, false, false, false, false, false, false, false, false, false, false, false, false, false, false, false, false, false, false, false, false, false, false, false, false, false, false, false, false, false, false, false, false, false, false, false, false, false],
    [false, false, false, false, false, false, false, false, false, false, false, false, false, false, false, false, false, false, false, false, false, false, false, false, false, false, false, false, false, false, false, false, false, false, false, false, false, false, false, false, false, false, false, false, false],
    [false, false, false, false, false, false, false, false, false, false, false, false, false, false, false, false, false, false, false, false, false, false, false, false, false, false, false, false, false, false, false, false, false, false, false, false, false, false, false, false, false, false, false, false, false],
    [false, false, false, false, false, false, false, false, false, false, false, false, false, false, false, false, false, false, false, false, false, false, false, false, false, false, false, false, false, false, false, false, false, false, false, false, false, false, false, false, false, false, false, false, false],
    [false, false, false, false, false, false, false, false, false, false, false, false, false, false, false, false, false, false, false, false, false, false, false, false, false, false, false, false, false, false, false, false, false, false, false, false, false, false, false, false, false, false, false, false, false],
    [false, false, false, false, false, false, false, false, false, false, false, false, false, false, false, false, false, false, false, false, false, false, false, false, false, false, false, false, false, false, false, false, false, false, false, false, false, false, false, false, false, false, false, false, false],
    [false, false, false, false, false, false, false, false, false, false, false, false, false, false, false, false, false, false, false, false, false, false, false, false, false, false, false, false, false, false, false, false, false, false, false, false, false, false, false, false, false, false, false, false, false],
    [false, false, false, false, false, false, false, false, false, false, false, false, false, false, false, false, false, false, false, false, false, false, false, false, false, false, false, false, false, false, false, false, false, false, false, false, false, false, false, false, false, false, false, false, false],
    [false, false, false, false, false, false, false, false, false, false, false, false, false, false, false, false, false, false, false, false, false, false, false, false, false, false, false, false, false, false, false, false, false, false, false, false, false, false, false, false, false, false, false, false, false],
    [false, false, false, false, false, false, false, false, false, false, false, false, false, false, false, false, false, false, false, false, false, false, false, false, false, false, false, false, false, false, false, false, false, false, false, false, false, false, false, false, false, false, false, false, false],
    [false, false, false, false, false, false, false, false, false, false, false, false, false, false, false, false, false, false, false, false, false, false, false, false, false, false, false, false, false, false, false, false, false, false, false, false, false, false, false, false, false, false, false, false, false],
    [true, true, true, true, true, true, true, false, false, false, false, false, false, false, false, false, false, false, false, false, false, false, false, false, false, false, false, false, false, false, false, false, false, false, false, false, false, false, false, false, false, false, false, false, false],
    [true, true, true, true, true, true, true, true, false, false, false, false, false, false, false, false, false, false, false, false, false, false, false, false, false, false, false, false, false, false, false, false, false, false, false, false, false, false, false, false, false, false, false, false, false],
    [true, true, true, true, true, true, true, true, false, false, false, false, false, false, false, false, false, false, false, false, false, false, false, false, false, false, false, false, false, false, false, false, false, false, false, false, false, false, false, false, false, false, false, false, false],
    [true, true, true, true, true, true, true, true, false, false, false, false, false, false, false, false, false, false, false, false, false, false, false, false, false, false, false, false, false, false, false, false, false, false, false, false, false, false, false, false, false, false, false, false, false],
    [true, true, true, true, true, true, true, true, false, false, false, false, false, false, false, false, false, false, false, false, false, false, false, false, false, false, false, false, false, false, false, false, false, false, false, false, false, false, false, false, false, false, false, false, false],
    [true, true, true, true, true, true, true, true, false, false, false, false, false, false, false, false, false, false, false, false, false, false, false, false, false, false, false, false, false, false, false, false, false, false, false, false, false, false, false, false, false, false, false, false, false],
    [true, true, true, true, true, true, true, true, false, false, false, false, false, false, false, false, false, false, false, false, false, false, false, false, false, false, false, false, false, false, false, false, false, false, false, false, false, false, false, false, false, false, false, false, false],
    [true, true, true, true, true, true, true, true, false, false, false, false, false, false, false, false, false, false, false, false, false, false, false, false, false, false, false, false, false, false, false, false, false, false, false, false, false, false, false, false, false, false, false, false, false]]

/-- Version-7 grid modules after phase `f3` of `place_function_patterns`. -/
def mods7f3 : List (List Bool) :=
  [[true, true, true, true, true, true, true, false, false, false, false, false, false, false, false, false, false, false, false, false, false, false, false, false, false, false, false, false, false, false, false, false, false, false, false, false, false, false, true, true, true, true, true, true, true],
    [true, false, false, false, false, false, true, false, false, false, false, false, false, false, false, false, false, false, false, false, false, false, false, false, false, false, false, false, false, false, false, false, false, false, false, false, false, false, true, false, false, false, false, false, true],
    [true, false, true, true, true, false, true, false, false, false, false, false, false, false, false, false, false, false, false, false, false, false, false, false, false, false, false, false, false, false, false, false, false, false, false, false, false, false, true, false, true, true, true, false, true],
    [true, false, true, true, true, false, true, false, false, false, false, false, false, false, false, false, false, false, false, false, false, false, false, false, false, false, false, false, false, false, false, false, false, false, false, false, false, false, true, false, true, true, true, false, true],
    [true, false, true, true, true, false, true, false, false, false, false, false, false, false, false, false, false, false, false, false, false, false, false, false, false, false, false, false, false, false, false, false, false, false, false, false, false, false, true, false, true, true, true, false, true],
    [true, false, false, false, false, false, true, false, false, false, false, false, false, false, false, false, false, false, false, false, false, false, false, false, false, false, false, false, false, false, false, false, false, false, false, false, false, false, true, false, false, false, false, false, true],
    [true, true, true, true, true, true, true, false, false, false, false, false, false, false, false, false, false, false, false, false, false, false, false, false, false, false, false, false, false, false, false, false, false, false, false, false, false, false, true, true, true, true, true, true, true],
    [false, false, false, false, false, false, false, false, false, false, false, false, false, false, false, false, false, false, false, false, false, false, false, false, false, false, false, false, false, false, false, false, false, false, false, false, false, false, false, false, false, false, false, false, false],
    [false, false, false, false, false, false, false, false, false, false, false, false, false, false, false, false, false, false, false, false, false, false, false, false, false, false, false, false, false, false, false, false, false, false, false, false, false, false, false, false, false, false, false, false, false],
    [false, false, false, false, false, false, false, false, false, false, false, false, false, false, false, false, false, false, false, false, false, false, false, false, false, false, false, false, false, false, false, false, false, false, false, false, false, false, false, false, false, false, false, false, false],
    [false, false, false, false, false, false, false, false, false, false, false, false, false, false, false, false, false, false, false, false, false, false, false, false, false, false, false, false, false, false, false, false, false, false, false, false, false, false, false, false, false, false, false, false, false],
    [false, false, false, false, false, false, false, false, false, false, false, false, false, false, false, false, false, false, false, false, false, false, false, false, false, false, false, false, false, false, false, false, false, false, false, false, false, false, false, false, false, false, false, false, false],
    [false, false, false, false, false, false, false, false, false, false, false, false, false, false, false, false, false, false, false, false, false, false, false, false, false, false, false, false, false, false, false, false, false, false, false, false, false, false, false, false, false, false, false, false, false],
    [false, false, false, false, false, false, false, false, false, false, false, false, false, false, false, false, false, false, false, false, false, false, false, false, false, false, false, false, false, false, false, false, false, false, false, false, false, false, false, false, false, false, false, false, false],
    [false, false, false, false, false, false, false, false, false, false, false, false, false, false, false, false, false, false, false, false, false, false, false, false, false, false, false, false, false, false, false, false, false, false, false, false, false, false, false, false, false, false, false, false, false],
    [false, false, false, false, false, false, false, false, false, false, false, false, false, false, false, false, false, false, false, false, false, false, false, false, false, false, false, false, false, false, false, false, false, false, false, false, false, false, false, false, false, false, false, false, false],
    [false, false, false, false, false, false, false, false, false, false, false, false, false, false, false, false, false, false, false, false, false, false, false, false, false, false, false, false, false, false, false, false, false, false, false, false, false, false, false, false, false, false, false, false, false],
    [false, false, false, false, false, false, false, false, false, false, false, false, false, false, false, false, false, false, false, false, false, false, false, false, false, false, false, false, false, false, false, false, false, false, false, false, false, false, false, false, false, false, false, false, false],
    [false, false, false, false, false, false, false, false, false, false, false, false, false, false, false, false, false, false, false, false, false, false, false, false, false, false, false, false, false, false, false, false, false, false, false, false, false, false, false, false, false, false, false, false, false],
    [false, false, false, false, false, false, false, false, false, false, false, false, false, false, false, false, false, false, false, false, false, false, false, false, false, false, false, false, false, false, false, false, false, false, false, false, false, false, false, false, false, false, false, false, false],
    [false, false, false, false, false, false, false, false, false, false, false, false, false, false, false, false, false, false, false, false, false, false, false, false, false, false, false, false, false, false, false, false, false, false, false, false, false, false, false, false, false, false, false, false, false],
    [false, false, false, false, false, false, false, false, false, false, false, false, false, false, false, false, false, false, false, false, false, false, false, false, false, false, false, false, false, false, false, false, false, false, false, false, false, false, false, false, false, false, false, false, false],
    [false, false, false, false, false, false, false, false, false, false, false, false, false, false, false, false, false, false, false, false, false, false, false, false, false, false, false, false, false, false, false, false, false, false, false, false, false, false, false, false, false, false, false, false, false],
    [false, false, false, false, false, false, false, false, false, false, false, false, false, false, false, false, false, false, false, false, false, false, false, false, false, false, false, false, false, false, false, false, false, false, false, false, false, false, false, false, false, false, false, false, false],
    [false, false, false, false, false, false, false, false, false, false, false, false, false, false, false, false, false, false, false, false, false, false, false, false, false, false, false, false, false, false, false, false, false, false, false, false, false, false, false, false, false, false, false, false, false],
    [false, false, false, false, false, false, false, false, false, false, false, false, false, false, false, false, false, false, false, false, false, false, false, false, false, false, false, false, false, false, false, false, false, false, false, false, false, false, false, false, false, false, false, false, false],
    [false, false, false, false, false, false, false, false, false, false, false, false, false, false, false, false, false, false, false, false, false, false, false, false, false, false, false, false, false, false, false, false, false, false, false, false, false, false, false, false, false, false, false, false, false],
    [false, false, false, false, false, false, false, false, false, false, false, false, false, false, false, false, false, false, false, false, false, false, false, false, false, false, false, false, false, false, false, false, false, false, false, false, false, false, false, false, false, false, false, false, false],
    [false, false, false, false, false, false, false, false, false, false, false, false, false, false, false, false, false, false, false, false, false, false, false, false, false, false, false, false, false, false, false, false, false, false, false, false, false, false, false, false, false, false, false, false, false],
    [false, false, false, false, false, false, false, false, false, false, false, false, false, false, false, false, false, false, false, false, false, false, false, false, false, false, false, false, false, false, false, false, false, false, false, false, false, false, false, false, false, false, false, false, false],
    [false, false, false, false, false, false, false, false, false, false, false, false, false, false, false, false, false, false, false, false, false, false, false, false, false, false, false, false, false, false, false, false, false, false, false, false, false, false, false, false, false, false, false, false, false],
    [false, false, false, false, false, false, false, false, false, false, false, false, false, false, false, false, false, false, false, false, false, false, false, false, false, false, false, false, false, false, false, false, false, false, false, false, false, false, false, false, false, false, false, false, false],
    [false, false, false, false, false, false, false, false, false, false, false, false, false, false, false, false, false, false, false, false, false, false, false, false, false, false, false, false, false, false, false, false, false, false, false, false, false, false, false, false, false, false, false, false, false],
    [false, false, false, false, false, false, false, false, false, false, false, false, false, false, false, false, false, false, false, false, false, false, false, false, false, false, false, false, false, false, false, false, false, false, false, false, false, false, false, false, false, false, false, false, false],
    [false, false, false, false, false, false, false, false, false, false, false, false, false, false, false, false, false, false, false, false, false, false, false, false, false, false, false, false, false, false, false, false, false, false, false, false, false, false, false, false, false, false, false, false, false],
    [false, false, false, false, false, false, false, false, false, false, false, false, false, false, false, false, false, false, false, false, false, false, false, false, false, false, false, false, false, false, false, false, false, false, false, false, false, false, false, false, false, false, false, false, false],
    [false, false, false, false, false, false, false, false, false, false, false, false, false, false, false, false, false, false, false, false, false, false, false, false, false, false, false, false, false, false, false, false, false, false, false, false, false, false, false, false, false, false, false, false, false],
    [false, false, false, false, false, false, false, false, false, false, false, false, false, false, false, false, false, false, false, false, false, false, false, false, false, false, false, false, false, false, false, false, false, false, false, false, false, false, false, false, false, false, false, false, false],
    [true, true, true, true, true, true, true, false, false, false, false, false, false, false, false, false, false, false, false, false, false, false, false, false, false, false, false, false, false, false, false, false, false, false, false, false, false, false, false, false, false, false, false, false, false],
    [true, false, false, false, false, false, true, false, false, false, false, false, false, false, false, false, false, false, false, false, false, false, false, false, false, false, false, false, false, false, false, false, false, false, false, false, false, false, false, false, false, false, false, false, false],
    [true, false, true, true, true, false, true, false, false, false, false, false, false, false, false, false, false, false, false, false, false, false, false, false, false, false, false, false, false, false, false, false, false, false, false, false, false, false, false, false, false, false, false, false, false],
    [true, false, true, true, true, false, true, false, false, false, false, false, false, false, false, false, false, false, false, false, false, false, false, false, false, false, false, false, false, false, false, false, false, false, false, false, false, false, false, false, false, false, false, false, false],
    [true, false, true, true, true, false, true, false, false, false, false, false, false, false, false, false, false, false, false, false, false, false, false, false, false, false, false, false, false, false, false, false, false, false, false, false, false, false, false, false, false, false, false, false, false],
    [true, false, false, false, false, false, true, false, false, false, false, false, false, false, false, false, false, false, false, false, false, false, false, false, false, false, false, false, false, false, false, false, false, false, false, false, false, false, false, false, false, false, false, false, false],
    [true, true, true, true, true, true, true, false, false, false, false, false, false, false, false, false, false, false, false, false, false, false, false, false, false, false, false, false, false, false, false, false, false, false, false, false, false, false, false, false, false, false, false, false, false]]

/-- Version-7 function flags after phase `f3` of `place_function_patterns`. -/
def fun7f3 : List (List Bool) :=
  [[true, true, true, true, true, true, true, true, false, false, false, false, false, false, false, false, false, false, false, false, false, false, false, false, false, false, false, false, false, false, false, false, false, false, false, false, false, true, true, true, true, true, true, true, true],
    [true, true, true, true, true, true, true, true, false, false, false, false, false, false, false, false, false, false, false, false, false, false, false, false, false, false, false, false, false, false, false, false, false, false, false, false, false, true, true, true, true, true, true, true, true],
    [true, true, true, true, true, true, true, true, false, false, false, false, false, false, false, false, false, false, false, false, false, false, false, false, false, false, false, false, false, false, false, false, false, false, false, false, false, true, true, true, true, true, true, true, true],
    [true, true, true, true, true, true, true, true, false, false, false, false, false, false, false, false, false, false, false, false, false, false, false, false, false, false, false, false, false, false, false, false, false, false, false, false, false, true, true, true, true, true, true, true, true],
    [true, true, true, true, true, true, true, true, false, false, false, false, false, false, false, false, false, false, false, false, false, false, false, false, false, false, false, false, false, false, false, false, false, false, false, false, false, true, true, true, true, true, true, true, true],
    [true, true, true, true, true, true, true, true, false, false, false, false, false, false, false, false, false, false, false, false, false, false, false, false, false, false, false, false, false, false, false, false, false, false, false, false, false, true, true, true, true, true, true, true, true],
    [true, true, true, true, true, true, true, true, false, false, false, false, false, false, false, false, false, false, false, false, false, false, false, false, false, false, false, false, false, false, false, false, false, false, false, false, false, true, true, true, true, true, true, true, true],
    [true, true, true, true, true, true, true, false, false, false, false, false, false, false, false, false, false, false, false, false, false, false, false, false, false, false, false, false, false, false, false, false, false, false, false, false, false, false, true, true, true, true, true, true, true],
    [false, false, false, false, false, false, false, false, false, false, false, false, false, false, false, false, false, false, false, false, false, false, false, false, false, false, false, false, false, false, false, false, false, false, false, false, false, false, false, false, false, false, false, false, false],
    [false, false, false, false, false, false, false, false, false, false, false, false, false, false, false, false, false, false, false, false, false, false, false, false, false, false, false, false, false, false, false, false, false, false, false, false, false, false, false, false, false, false, false, false, false],
    [false, false, false, false, false, false, false, false, false, false, false, false, false, false, false, false, false, false, false, false, false, false, false, false, false, false, false, false, false, false, false, false, false, false, false, false, false, false, false, false, false, false, false, false, false],
    [false, false, false, false, false, false, false, false, false, false, false, false, false, false, false, false, false, false, false, false, false, false, false, false, false, false, false, false, false, false, false, false, false, false, false, false, false, false, false, false, false, false, false, false, false],
    [false, false, false, false, false, false, false, false, false, false, false, false, false, false, false, false, false, false, false, false, false, false, false, false, false, false, false, false, false, false, false, false, false, false, false, false, false, false, false, false, false, false, false, false, false],
    [false, false, false, false, false, false, false, false, false, false, false, false, false, false, false, false, false, false, false, false, false, false, false, false, false, false, false, false, false, false, false, false, false, false, false, false, false, false, false, false, false, false, false, false, false],
    [false, false, false, false, false, false, false, false, false, false, false, false, false, false, false, false, false, false, false, false, false, false, false, false, false, false, false, false, false, false, false, false, false, false, false, false, false, false, false, false, false, false, false, false, false],
    [false, false, false, false, false, false, false, false, false, false, false, false, false, false, false, false, false, false, false, false, false, false, false, false, false, false, false, false, false, false, false, false, false, false, false, false, false, false, false, false, false, false, false, false, false],
    [false, false, false, false, false, false, false, false, false, false, false, false, false, false, false, false, false, false, false, false, false, false, false, false, false, false, false, false, false, false, false, false, false, false, false, false, false, false, false, false, false, false, false, false, false],
    [false, false, false, false, false, false, false, false, false, false, false, false, false, false, false, false, false, false, false, false, false, false, false, false, false, false, false, false, false, false, false, false, false, false, false, false, false, false, false, false, false, false, false, false, false],
    [false, false, false, false, false, false, false, false, false, false, false, false, false, false, false, false, false, false, false, false, false, false, false, false, false, false, false, false, false, false, false, false, false, false, false, false, false, false, false, false, false, false, false, false, false],
    [false, false, false, false, false, false, false, false, false, false, false, false, false, false, false, false, false, false, false, false, false, false, false, false, false, false, false, false, false, false, false, false, false, false, false, false, false, false, false, false, false, false, false, false, false],
    [false, false, false, false, false, false, false, false, false, false, false, false, false, false, false, false, false, false, false, false, false, false, false, false, false, false, false, false, false, false, false, false, false, false, false, false, false, false, false, false, false, false, false, false, false],
    [false, false, false, false, false, false, false, false, false, false, false, false, false, false, false, false, false, false, false, false, false, false, false, false, false, false, false, false, false, false, false, false, false, false, false, false, false, false, false, false, false, false, false, false, false],
    [false, false, false, false, false, false, false, false, false, false, false, false, false, false, false, false, false, false, false, false, false, false, false, false, false, false, false, false, false, false, false, false, false, false, false, false, false, false, false, false, false, false, false, false, false],
    [false, false, false, false, false, false, false, false, false, false, false, false, false, false, false, false, false, false, false, false, false, false, false, false, false, false, false, false, false, false, false, false, false, false, false, false, false, false, false, false, false, false, false, false, false],
    [false, false, false, false, false, false, false, false, false, false, false, false, false, false, false, false, false, false, false, false, false, false, false, false, false, false, false, false, false, false, false, false, false, false, false, false, false, false, false, false, false, false, false, false, false],
    [false, false, false, false, false, false, false, false, false, false, false, false, false, false, false, false, false, false, false, false, false, false, false, false, false, false, false, false, false, false, false, false, false, false, false, false, false, false, false, false, false, false, false, false, false],
    [false, false, false, false, false, false, false, false, false, false, false, false, false, false, false, false, false, false, false, false, false, false, false, false, false, false, false, false, false, false, false, false, false, false, false, false, false, false, false, false, false, false, false, false, false],
    [false, false, false, false, false, false, false, false, false, false, false, false, false, false, false, false, false, false, false, false, false, false, false, false, false, false, false, false, false, false, false, false, false, false, false, false, false, false, false, false, false, false, false, false, false],
    [false, false, false, false, false, false, false, false, false, false, false, false, false, false, false, false, false, false, false, false, false, false, false, false, false, false, false, false, false, false, false, false, false, false, false, false, false, false, false, false, false, false, false, false, false],
    [false, false, false, false, false, false, false, false, false, false, false, false, false, false, false, false, false, false, false, false, false, false, false, false, false, false, false, false, false, false, false, false, false, false, false, false, false, false, false, false, false, false, false, false, false],
    [false, false, false, false, false, false, false, false, false, false, false, false, false, false, false, false, false, false, false, false, false, false, false, false, false, false, false, false, false, false, false, false, false, false, false, false, false, false, false, false, false, false, false, false, false],
    [false, false, false, false, false, false, false, false, false, false, false, false, false, false, false, false, false, false, false, false, false, false, false, false, false, false, false, false, false, false, false, false, false, false, false, false, false, false, false, false, false, false, false, false, false],
    [false, false, false, false, false, false, false, false, false, false, false, false, false, false, false, false, false, false, false, false, false, false, false, false, false, false, false, false, false, false, false, false, false, false, false, false, false, false, false, false, false, false, false, false, false],
    [false, false, false, false, false, false, false, false, false, false, false, false, false, false, false, false, false, false, false, false, false, false, false, false, false, false, false, false, false, false, false, false, false, false, false, false, false, false, false, false, false, false, false, false, false],
    [false, false, false, false, false, false, false, false, false, false, false, false, false, false, false, false, false, false, false, false, false, false, false, false, false, false, false, false, false, false, false, false, false, false, false, false, false, false, false, false, false, false, false, false, false],
    [false, false, false, false, false, false, false, false, false, false, false, false, false, false, false, false, false, false, false, false, false, false, false, false, false, false, false, false, false, false, false, false, false, false, false, false, false, false, false, false, false, false, false, false, false],
    [false, false, false, false, false, false, false, false, false, false, false, false, false, false, false, false, false, false, false, false, false, false, false, false, false, false, false, false, false, false, false, false, false, false, false, false, false, false, false, false, false, false, false, false, false],
    [true, true, true, true, true, true, true, false, false, false, false, false, false, false, false, false, false, false, false, false, false, false, false, false, false, false, false, false, false, false, false, false, false, false, false, false, false, false, false, false, false, false, false, false, false],
    [true, true, true, true, true, true, true, true, false, false, false, false, false, false, false, false, false, false, false, false, false, false, false, false, false, false, false, false, false, false, false, false, false, false, false, false, false, false, false, false, false, false, false, false, false],
    [true, true, true, true, true, true, true, true, false, false, false, false, false, false, false, false, false, false, false, false, false, false, false, false, false, false, false, false, false, false, false, false, false, false, false, false, false, false, false, false, false, false, false, false, false],
    [true, true, true, true, true, true, true, true, false, false, false, false, false, false, false, false, false, false, false, false, false, false, false, false, false, false, false, false, false, false, false, false, false, false, false, false, false, false, false, false, false, false, false, false, false],
    [true, true, true, true, true, true, true, true, false, false, false, false, false, false, false, false, false, false, false, false, false, false, false, false, false, false, false, false, false, false, false, false, false, false, false, false, false, false, false, false, false, false, false, false, false],
    [true, true, true, true, true, true, true, true, false, false, false, false, false, false, false, false, false, false, false, false, false, false, false, false, false, false, false, false, false, false, false, false, false, false, false, false, false, false, false, false, false, false, false, false, false],
    [true, true, true, true, true, true, true, true, false, false, false, false, false, false, false, false, false, false, false, false, false, false, false, false, false, false, false, false, false, false, false, false, false, false, false, false, false, false, false, false, false, false, false, false, false],
    [true, true, true, true, true, true, true, true, false, false, false, false, false, false, false, false, false, false, false, false, false, false, false, false, false, false, false, false, false, false, false, false, false, false, false, false, false, false, false, false, false, false, false, false, false]]

/-- Version-7 grid modules after phase `f4` of `place_function_patterns`. -/
def mods7f4 : List (List Bool) :=
  [[true, true, true, true, true, true, true, false, false, false, false, false, false, false, false, false, false, false, false, false, false, false, false, false, false, false, false, false, false, false, false, false, false, false, false, false, false, false, true, true, true, true, true, true, true],
    [true, false, false, false, false, false, true, false, false, false, false, false, false, false, false, false, false, false, false, false, false, false, false, false, false, false, false, false, false, false, false, false, false, false, false, false, false, false, true, false, false, false, false, false, true],
    [true, false, true, true, true, false, true, false, false, false, false, false, false, false, false, false, false, false, false, false, false, false, false, false, false, false, false, false, false, false, false, false, false, false, false, false, false, false, true, false, true, true, true, false, true],
    [true, false, true, true, true, false, true, false, false, false, false, false, false, false, false, false, false, false, false, false, false, false, false, false, false, false, false, false, false, false, false, false, false, false, false, false, false, false, true, false, true, true, true, false, true],
    [true, false, true, true, true, false, true, false, false, false, false, false, false, false, false, false, false, false, false, false, false, false, false, false, false, false, false, false, false, false, false, false, false, false, false, false, false, false, true, false, true, true, true, false, true],
    [true, false, false, false, false, false, true, false, false, false, false, false, false, false, false, false, false, false, false, false, false, false, false, false, false, false, false, false, false, false, false, false, false, false, false, false, false, false, true, false, false, false, false, false, true],
    [true, true, true, true, true, true, true, false, true, false, true, false, true, false, true, false, true, false, true, false, true, false, true, false, true, false, true, false, true, false, true, false, true, false, true, false, true, false, true, true, true, true, true, true, true],
    [false, false, false, false, false, false, false, false, false, false, false, false, false, false, false, false, false, false, false, false, false, false, false, false, false, false, false, false, false, false, false, false, false, false, false, false, false, false, false, false, false, false, false, false, false],
    [false, false, false, false, false, false, true, false, false, false, false, false, false, false, false, false, false, false, false, false, false, false, false, false, false, false, false, false, false, false, false, false, false, false, false, false, false, false, false, false, false, false, false, false, false],
    [false, false, false, false, false, false, false, false, false, false, false, false, false, false, false, false, false, false, false, false, false, false, false, false, false, false, false, false, false, false, false, false, false, false, false, false, false, false, false, false, false, false, false, false, false],
    [false, false, false, false, false, false, true, false, false, false, false, false, false, false, false, false, false, false, false, false, false, false, false, false, false, false, false, false, false, false, false, false, false, false, false, false, false, false, false, false, false, false, false, false, false],
    [false, false, false, false, false, false, false, false, false, false, false, false, false, false, false, false, false, false, false, false, false, false, false, false, false, false, false, false, false, false, false, false, false, false, false, false, false, false, false, false, false, false, false, false, false],
    [false, false, false, false, false, false, true, false, false, false, false, false, false, false, false, false, false, false, false, false, false, false, false, false, false, false, false, false, false, false, false, false, false, false, false, false, false, false, false, false, false, false, false, false, false],
    [false, false, false, false, false, false, false, false, false, false, false, false, false, false, false, false, false, false, false, false, false, false, false, false, false, false, false, false, false, false, false, false, false, false, false, false, false, false, false, false, false, false, false, false, false],
    [false, false, false, false, false, false, true, false, false, false, false, false, false, false, false, false, false, false, false, false, false, false, false, false, false, false, false, false, false, false, false, false, false, false, false, false, false, false, false, false, false, false, false, false, false],
    [false, false, false, false, false, false, false, false, false, false, false, false, false, false, false, false, false, false, false, false, false, false, false, false, false, false, false, false, false, false, false, false, false, false, false, false, false, false, false, false, false, false, false, false, false],
    [false, false, false, false, false, false, true, false, false, false, false, false, false, false, false, false, false, false, false, false, false, false, false, false, false, false, false, false, false, false, false, false, false, false, false, false, false, false, false, false, false, false, false, false, false],
    [false, false, false, false, false, false, false, false, false, false, false, false, false, false, false, false, false, false, false, false, false, false, false, false, false, false, false, false, false, false, false, false, false, false, false, false, false, false, false, false, false, false, false, false, false],
    [false, false, false, false, false, false, true, false, false, false, false, false, false, false, false, false, false, false, false, false, false, false, false, false, false, false, false, false, false, false, false, false, false, false, false, false, false, false, false, false, false, false, false, false, false],
    [false, false, false, false, false, false, false, false, false, false, false, false, false, false, false, false, false, false, false, false, false, false, false, false, false, false, false, false, false, false, false, false, false, false, false, false, false, false, false, false, false, false, false, false, false],
    [false, false, false, false, false, false, true, false, false, false, false, false, false, false, false, false, false, false, false, false, false, false, false, false, false, false, false, false, false, false, false, false, false, false, false, false, false, false, false, false, false, false, false, false, false],
    [false, false, false, false, false, false, false, false, false, false, false, false, false, false, false, false, false, false, false, false, false, false, false, false, false, false, false, false, false, false, false, false, false, false, false, false, false, false, false, false, false, false, false, false, false],
    [false, false, false, false, false, false, true, false, false, false, false, false, false, false, false, false, false, false, false, false, false, false, false, false, false, false, false, false, false, false, false, false, false, false, false, false, false, false, false, false, false, false, false, false, false],
    [false, false, false, false, false, false, false, false, false, false, false, false, false, false, false, false, false, false, false, false, false, false, false, false, false, false, false, false, false, false, false, false, false, false, false, false, false, false, false, false, false, false, false, false, false],
    [false, false, false, false, false, false, true, false, false, false, false, false, false, false, false, false, false, false, false, false, false, false, false, false, false, false, false, false, false, false, false, false, false, false, false, false, false, false, false, false, false, false, false, false, false],
    [false, false, false, false, false, false, false, false, false, false, false, false, false, false, false, false, false, false, false, false, false, false, false, false, false, false, false, false, false, false, false, false, false, false, false, false, false, false, false, false, false, false, false, false, false],
    [false, false, false, false, false, false, true, false, false, false, false, false, false, false, false, false, false, false, false, false, false, false, false, false, false, false, false, false, false, false, false, false, false, false, false, false, false, false, false, false, false, false, false, false, false],
    [false, false, false, false, false, false, false, false, false, false, false, false, false, false, false, false, false, false, false, false, false, false, false, false, false, false, false, false, false, false, false, false, false, false, false, false, false, false, false, false, false, false, false, false, false],
    [false, false, false, false, false, false, true, false, false, false, false, false, false, false, false, false, false, false, false, false, false, false, false, false, false, false, false, false, false, false, false, false, false, false, false, false, false, false, false, false, false, false, false, false, false],
    [false, false, false, false, false, false, false, false, false, false, false, false, false, false, false, false, false, false, false, false, false, false, false, false, false, false, false, false, false, false, false, false, false, false, false, false, false, false, false, false, false, false, false, false, false],
    [false, false, false, false, false, false, true, false, false, false, false, false, false, false, false, false, false, false, false, false, false, false, false, false, false, false, false, false, false, false, false, false, false, false, false, false, false, false, false, false, false, false, false, false, false],
    [false, false, false, false, false, false, false, false, false, false, false, false, false, false, false, false, false, false, false, false, false, false, false, false, false, false, false, false, false, false, false, false, false, false, false, false, false, false, false, false, false, false, false, false, false],
    [false, false, false, false, false, false, true, false, false, false, false, false, false, false, false, false, false, false, false, false, false, false, false, false, false, false, false, false, false, false, false, false, false, false, false, false, false, false, false, false, false, false, false, false, false],
    [false, false, false, false, false, false, false, false, false, false, false, false, false, false, false, false, false, false, false, false, false, false, false, false, false, false, false, false, false, false, false, false, false, false, false, false, false, false, false, false, false, false, false, false, false],
    [false, false, false, false, false, false, true, false, false, false, false, false, false, false, false, false, false, false, false, false, false, false, false, false, false, false, false, false, false, false, false, false, false, false, false, false, false, false, false, false, false, false, false, false, false],
    [false, false, false, false, false, false, false, false, false, false, false, false, false, false, false, false, false, false, false, false, false, false, false, false, false, false, false, false, false, false, false, false, false, false, false, false, false, false, false, false, false, false, false, false, false],
    [false, false, false, false, false, false, true, false, false, false, false, false, false, false, false, false, false, false, false, false, false, false, false, false, false, false, false, false, false, false, false, false, false, false, false, false, false, false, false, false, false, false, false, false, false],
    [false, false, false, false, false, false, false, false, false, false, false, false, false, false, false, false, false, false, false, false, false, false, false, false, false, false, false, false, false, false, false, false, false, false, false, false, false, false, false, false, false, false, false, false, false],
    [true, true, true, true, true, true, true, false, false, false, false, false, false, false, false, false, false, false, false, false, false, false, false, false, false, false, false, false, false, false, false, false, false, false, false, false, false, false, false, false, false, false, false, false, false],
    [true, false, false, false, false, false, true, false, false, false, false, false, false, false, false, false, false, false, false, false, false, false, false, false, false, false, false, false, false, false, false, false, false, false, false, false, false, false, false, false, false, false, false, false, false],
    [true, false, true, true, true, false, true, false, false, false, false, false, false, false, false, false, false, false, false, false, false, false, false, false, false, false, false, false, false, false, false, false, false, false, false, false, false, false, false, false, false, false, false, false, false],
    [true, false, true, true, true, false, true, false, false, false, false, false, false, false, false, false, false, false, false, false, false, false, false, false, false, false, false, false, false, false, false, false, false, false, false, false, false, false, false, false, false, false, false, false, false],
    [true, false, true, true, true, false, true, false, false, false, false, false, false, false, false, false, false, false, false, false, false, false, false, false, false, false, false, false, false, false, false, false, false, false, false, false, false, false, false, false, false, false, false, false, false],
    [true, false, false, false, false, false, true, false, false, false, false, false, false, false, false, false, false, false, false, false, false, false, false, false, false, false, false, false, false, false, false, false, false, false, false, false, false, false, false, false, false, false, false, false, false],
    [true, true, true, true, true, true, true, false, false, false, false, false, false, false, false, false, false, false, false, false, false, false, false, false, false, false, false, false, false, false, false, false, false, false, false, false, false, false, false, false, false, false, false, false, false]]

/-- Version-7 function flags after phase `f4` of `place_function_patterns`. -/
def fun7f4 : List (List Bool) :=
  [[true, true, true, true, true, true, true, true, false, false, false, false, false, false, false, false, false, false, false, false, false, false, false, false, false, false, false, false, false, false, false, false, false, false, false, false, false, true, true, true, true, true, true, true, true],
    [true, true, true, true, true, true, true, true, false, false, false, false, false, false, false, false, false, false, false, false, false, false, false, false, false, false, false, false, false, false, false, false, false, false, false, false, false, true, true, true, true, true, true, true, true],
    [true, true, true, true, true, true, true, true, false, false, false, false, false, false, false, false, false, false, false, false, false, false, false, false, false, false, false, false, false, false, false, false, false, false, false, false, false, true, true, true, true, true, true, true, true],
    [true, true, true, true, true, true, true, true, false, false, false, false, false, false, false, false, false, false, false, false, false, false, false, false, false, false, false, false, false, false, false, false, false, false, false, false, false, true, true, true, true, true, true, true, true],
    [true, true, true, true, true, true, true, true, false, false, false, false, false, false, false, false, false, false, false, false, false, false, false, false, false, false, false, false, false, false, false, false, false, false, false, false, false, true, true, true, true, true, true, true, true],
    [true, true, true, true, true, true, true, true, false, false, false, false, false, false, false, false, false, false, false, false, false, false, false, false, false, false, false, false, false, false, false, false, false, false, false, false, false, true, true, true, true, true, true, true, true],
    [true, true, true, true, true, true, true, true, true, true, true, true, true, true, true, true, true, true, true, true, true, true, true, true, true, true, true, true, true, true, true, true, true, true, true, true, true, true, true, true, true, true, true, true, true],
    [true, true, true, true, true, true, true, false, false, false, false, false, false, false, false, false, false, false, false, false, false, false, false, false, false, false, false, false, false, false, false, false, false, false, false, false, false, false, true, true, true, true, true, true, true],
    [false, false, false, false, false, false, true, false, false, false, false, false, false, false, false, false, false, false, false, false, false, false, false, false, false, false, false, false, false, false, false, false, false, false, false, false, false, false, false, false, false, false, false, false, false],
    [false, false, false, false, false, false, true, false, false, false, false, false, false, false, false, false, false, false, false, false, false, false, false, false, false, false, false, false, false, false, false, false, false, false, false, false, false, false, false, false, false, false, false, false, false],
    [false, false, false, false, false, false, true, false, false, false, false, false, false, false, false, false, false, false, false, false, false, false, false, false, false, false, false, false, false, false, false, false, false, false, false, false, false, false, false, false, false, false, false, false, false],
    [false, false, false, false, false, false, true, false, false, false, false, false, false, false, false, false, false, false, false, false, false, false, false, false, false, false, false, false, false, false, false, false, false, false, false, false, false, false, false, false, false, false, false, false, false],
    [false, false, false, false, false, false, true, false, false, false, false, false, false, false, false, false, false, false, false, false, false, false, false, false, false, false, false, false, false, false, false, false, false, false, false, false, false, false, false, false, false, false, false, false, false],
    [false, false, false, false, false, false, true, false, false, false, false, false, false, false, false, false, false, false, false, false, false, false, false, false, false, false, false, false, false, false, false, false, false, false, false, false, false, false, false, false, false, false, false, false, false],
    [false, false, false, false, false, false, true, false, false, false, false, false, false, false, false, false, false, false, false, false, false, false, false, false, false, false, false, false, false, false, false, false, false, false, false, false, false, false, false, false, false, false, false, false, false],
    [false, false, false, false, false, false, true, false, false, false, false, false, false, false, false, false, false, false, false, false, false, false, false, false, false, false, false, false, false, false, false, false, false, false, false, false, false, false, false, false, false, false, false, false, false],
    [false, false, false, false, false, false, true, false, false, false, false, false, false, false, false, false, false, false, false, false, false, false, false, false, false, false, false, false, false, false, false, false, false, false, false, false, false, false, false, false, false, false, false, false, false],
    [false, false, false, false, false, false, true, false, false, false, false, false, false, false, false, false, false, false, false, false, false, false, false, false, false, false, false, false, false, false, false, false, false, false, false, false, false, false, false, false, false, false, false, false, false],
    [false, false, false, false, false, false, true, false, false, false, false, false, false, false, false, false, false, false, false, false, false, false, false, false, false, false, false, false, false, false, false, false, false, false, false, false, false, false, false, false, false, false, false, false, false],
    [false, false, false, false, false, false, true, false, false, false, false, false, false, false, false, false, false, false, false, false, false, false, false, false, false, false, false, false, false, false, false, false, false, false, false, false, false, false, false, false, false, false, false, false, false],
    [false, false, false, false, false, false, true, false, false, false, false, false, false, false, false, false, false, false, false, false, false, false, false, false, false, false, false, false, false, false, false, false, false, false, false, false, false, false, false, false, false, false, false, false, false],
    [false, false, false, false, false, false, true, false, false, false, false, false, false, false, false, false, false, false, false, false, false, false, false, false, false, false, false, false, false, false, false, false, false, false, false, false, false, false, false, false, false, false, false, false, false],
    [false, false, false, false, false, false, true, false, false, false, false, false, false, false, false, false, false, false, false, false, false, false, false, false, false, false, false, false, false, false, false, false, false, false, false, false, false, false, false, false, false, false, false, false, false],
    [false, false, false, false, false, false, true, false, false, false, false, false, false, false, false, false, false, false, false, false, false, false, false, false, false, false, false, false, false, false, false, false, false, false, false, false, false, false, false, false, false, false, false, false, false],
    [false, false, false, false, false, false, true, false, false, false, false, false, false, false, false, false, false, false, false, false, false, false, false, false, false, false, false, false, false, false, false, false, false, false, false, false, false, false, false, false, false, false, false, false, false],
    [false, false, false, false, false, false, true, false, false, false, false, false, false, false, false, false, false, false, false, false, false, false, false, false, false, false, false, false, false, false, false, false, false, false, false, false, false, false, false, false, false, false, false, false, false],
    [false, false, false, false, false, false, true, false, false, false, false, false, false, false, false, false, false, false, false, false, false, false, false, false, false, false, false, false, false, false, false, false, false, false, false, false, false, false, false, false, false, false, false, false, false],
    [false, false, false, false, false, false, true, false, false, false, false, false, false, false, false, false, false, false, false, false, false, false, false, false, false, false, false, false, false, false, false, false, false, false, false, false, false, false, false, false, false, false, false, false, false],
    [false, false, false, false, false, false, true, false, false, false, false, false, false, false, false, false, false, false, false, false, false, false, false, false, false, false, false, false, false, false, false, false, false, false, false, false, false, false, false, false, false, false, false, false, false],
    [false, false, false, false, false, false, true, false, false, false, false, false, false, false, false, false, false, false, false, false, false, false, false, false, false, false, false, false, false, false, false, false, false, false, false, false, false, false, false, false, false, false, false, false, false],
    [false, false, false, false, false, false, true, false, false, false, false, false, false, false, false, false, false, false, false, false, false, false, false, false, false, false, false, false, false, false, false, false, false, false, false, false, false, false, false, false, false, false, false, false, false],
    [false, false, false, false, false, false, true, false, false, false, false, false, false, false, false, false, false, false, false, false, false, false, false, false, false, false, false, false, false, false, false, false, false, false, false, false, false, false, false, false, false, false, false, false, false],
    [false, false, false, false, false, false, true, false, false, false, false, false, false, false, false, false, false, false, false, false, false, false, false, false, false, false, false, false, false, false, false, false, false, false, false, false, false, false, false, false, false, false, false, false, false],
    [false, false, false, false, false, false, true, false, false, false, false, false, false, false, false, false, false, false, false, false, false, false, false, false, false, false, false, false, false, false, false, false, false, false, false, false, false, false, false, false, false, false, false, false, false],
    [false, false, false, false, false, false, true, false, false, false, false, false, false, false, false, false, false, false, false, false, false, false, false, false, false, false, false, false, false, false, false, false, false, false, false, false, false, false, false, false, false, false, false, false, false],
    [false, false, false, false, false, false, true, false, false, false, false, false, false, false, false, false, false, false, false, false, false, false, false, false, false, false, false, false, false, false, false, false, false, false, false, false, false, false, false, false, false, false, false, false, false],
    [false, false, false, false, false, false, true, false, false, false, false, false, false, false, false, false, false, false, false, false, false, false, false, false, false, false, false, false, false, false, false, false, false, false, false, false, false, false, false, false, false, false, false, false, false],
    [true, true, true, true, true, true, true, false, false, false, false, false, false, false, false, false, false, false, false, false, false, false, false, false, false, false, false, false, false, false, false, false, false, false, false, false, false, false, false, false, false, false, false, false, false],
    [true, true, true, true, true, true, true, true, false, false, false, false, false, false, false, false, false, false, false, false, false, false, false, false, false, false, false, false, false, false, false, false, false, false, false, false, false, false, false, false, false, false, false, false, false],
    [true, true, true, true, true, true, true, true, false, false, false, false, false, false, false, false, false, false, false, false, false, false, false, false, false, false, false, false, false, false, false, false, false, false, false, false, false, false, false, false, false, false, false, false, false],
    [true, true, true, true, true, true, true, true, false, false, false, false, false, false, false, false, false, false, false, false, false, false, false, false, false, false, false, false, false, false, false, false, false, false, false, false, false, false, false, false, false, false, false, false, false],
    [true, true, true, true, true, true, true, true, false, false, false, false, false, false, false, false, false, false, false, false, false, false, false, false, false, false, false, false, false, false, false, false, false, false, false, false, false, false, false, false, false, false, false, false, false],
    [true, true, true, true, true, true, true, true, false, false, false, false, false, false, false, false, false, false, false, false, false, false, false, false, false, false, false, false, false, false, false, false, false, false, false, false, false, false, false, false, false, false, false, false, false],
    [true, true, true, true, true, true, true, true, false, false, false, false, false, false, false, false, false, false, false, false, false, false, false, false, false, false, false, false, false, false, false, false, false, false, false, false, false, false, false, false, false, false, false, false, false],
    [true, true, true, true, true, true, true, true, false, false, false, false, false, false, false, false, false, false, false, false, false, false, false, false, false, false, false, false, false, false, false, false, false, false, false, false, false, false, false, false, false, false, false, false, false]]

/-- Version-7 grid modules after phase `f5` of `place_function_patterns`. -/
def mods7f5 : List (List Bool) :=
  [[true, true, true, true, true, true, true, false, false, false, false, false, false, false, false, false, false, false, false, false, false, false, false, false, false, false, false, false, false, false, false, false, false, false, false, false, false, false, true, true, true, true, true, true, true],
    [true, false, false, false, false, false, true, false, false, false, false, false, false, false, false, false, false, false, false, false, false, false, false, false, false, false, false, false, false, false, false, false, false, false, false, false, false, false, true, false, false, false, false, false, true],
    [true, false, true, true, true, false, true, false, false, false, false, false, false, false, false, false, false, false, false, false, false, false, false, false, false, false, false, false, false, false, false, false, false, false, false, false, false, false, true, false, true, true, true, false, true],
    [true, false, true, true, true, false, true, false, false, false, false, false, false, false, false, false, false, false, false, false, false, false, false, false, false, false, false, false, false, false, false, false, false, false, false, false, false, false, true, false, true, true, true, false, true],
    [true, false, true, true, true, false, true, false, false, false, false, false, false, false, false, false, false, false, false, false, false, false, false, false, false, false, false, false, false, false, false, false, false, false, false, false, false, false, true, false, true, true, true, false, true],
    [true, false, false, false, false, false, true, false, false, false, false, false, false, false, false, false, false, false, false, false, false, false, false, false, false, false, false, false, false, false, false, false, false, false, false, false, false, false, true, false, false, false, false, false, true],
    [true, true, true, true, true, true, true, false, true, false, true, false, true, false, true, false, true, false, true, false, true, false, true, false, true, false, true, false, true, false, true, false, true, false, true, false, true, false, true, true, true, true, true, true, true],
    [false, false, false, false, false, false, false, false, false, false, false, false, false, false, false, false, false, false, false, false, false, false, false, false, false, false, false, false, false, false, false, false, false, false, false, false, false, false, false, false, false, false, false, false, false],
    [false, false, false, false, false, false, true, false, false, false, false, false, false, false, false, false, false, false, false, false, false, false, false, false, false, false, false, false, false, false, false, false, false, false, false, false, false, false, false, false, false, false, false, false, false],
    [false, false, false, false, false, false, false, false, false, false, false, false, false, false, false, false, false, false, false, false, false, false, false, false, false, false, false, false, false, false, false, false, false, false, false, false, false, false, false, false, false, false, false, false, false],
    [false, false, false, false, false, false, true, false, false, false, false, false, false, false, false, false, false, false, false, false, false, false, false, false, false, false, false, false, false, false, false, false, false, false, false, false, false, false, false, false, false, false, false, false, false],
    [false, false, false, false, false, false, false, false, false, false, false, false, false, false, false, false, false, false, false, false, false, false, false, false, false, false, false, false, false, false, false, false, false, false, false, false, false, false, false, false, false, false, false, false, false],
    [false, false, false, false, false, false, true, false, false, false, false, false, false, false, false, false, false, false, false, false, false, false, false, false, false, false, false, false, false, false, false, false, false, false, false, false, false, false, false, false, false, false, false, false, false],
    [false, false, false, false, false, false, false, false, false, false, false, false, false, false, false, false, false, false, false, false, false, false, false, false, false, false, false, false, false, false, false, false, false, false, false, false, false, false, false, false, false, false, false, false, false],
    [false, false, false, false, false, false, true, false, false, false, false, false, false, false, false, false, false, false, false, false, false, false, false, false, false, false, false, false, false, false, false, false, false, false, false, false, false, false, false, false, false, false, false, false, false],
    [false, false, false, false, false, false, false, false, false, false, false, false, false, false, false, false, false, false, false, false, false, false, false, false, false, false, false, false, false, false, false, false, false, false, false, false, false, false, false, false, false, false, false, false, false],
    [false, false, false, false, false, false, true, false, false, false, false, false, false, false, false, false, false, false, false, false, false, false, false, false, false, false, false, false, false, false, false, false, false, false, false, false, false, false, false, false, false, false, false, false, false],
    [false, false, false, false, false, false, false, false, false, false, false, false, false, false, false, false, false, false, false, false, false, false, false, false, false, false, false, false, false, false, false, false, false, false, false, false, false, false, false, false, false, false, false, false, false],
    [false, false, false, false, false, false, true, false, false, false, false, false, false, false, false, false, false, false, false, false, false, false, false, false, false, false, false, false, false, false, false, false, false, false, false, false, false, false, false, false, false, false, false, false, false],
    [false, false, false, false, false, false, false, false, false, false, false, false, false, false, false, false, false, false, false, false, false, false, false, false, false, false, false, false, false, false, false, false, false, false, false, false, false, false, false, false, false, false, false, false, false],
    [false, false, false, false, false, false, true, false, false, false, false, false, false, false, false, false, false, false, false, false, true, true, true, true, true, false, false, false, false, false, false, false, false, false, false, false, true, true, true, true, true, false, false, false, false],
    [false, false, false, false, false, false, false, false, false, false, false, false, false, false, false, false, false, false, false, false, true, false, false, false, true, false, false, false, false, false, false, false, false, false, false, false, true, false, false, false, true, false, false, false, false],
    [false, false, false, false, false, false, true, false, false, false, false, false, false, false, false, false, false, false, false, false, true, false, true, false, true, false, false, false, false, false, false, false, false, false, false, false, true, false, true, false, true, false, false, false, false],
    [false, false, false, false, false, false, false, false, false, false, false, false, false, false, false, false, false, false, false, false, true, false, false, false, true, false, false, false, false, false, false, false, false, false, false, false, true, false, false, false, true, false, false, false, false],
    [false, false, false, false, false, false, true, false, false, false, false, false, false, false, false, false, false, false, false, false, true, true, true, true, true, false, false, false, false, false, false, false, false, false, false, false, true, true, true, true, true, false, false, false, false],
    [false, false, false, false, false, false, false, false, false, false, false, false, false, false, false, false, false, false, false, false, false, false, false, false, false, false, false, false, false, false, false, false, false, false, false, false, false, false, false, false, false, false, false, false, false],
    [false, false, false, false, false, false, true, false, false, false, false, false, false, false, false, false, false, false, false, false, false, false, false, false, false, false, false, false, false, false, false, false, false, false, false, false, false, false, false, false, false, false, false, false, false],
    [false, false, false, false, false, false, false, false, false, false, false, false, false, false, false, false, false, false, false, false, false, false, false, false, false, false, false, false, false, false, false, false, false, false, false, false, false, false, false, false, false, false, false, false, false],
    [false, false, false, false, false, false, true, false, false, false, false, false, false, false, false, false, false, false, false, false, false, false, false, false, false, false, false, false, false, false, false, false, false, false, false, false, false, false, false, false, false, false, false, false, false],
    [false, false, false, false, false, false, false, false, false, false, false, false, false, false, false, false, false, false, false, false, false, false, false, false, false, false, false, false, false, false, false, false, false, false, false, false, false, false, false, false, false, false, false, false, false],
    [false, false, false, false, false, false, true, false, false, false, false, false, false, false, false, false, false, false, false, false, false, false, false, false, false, false, false, false, false, false, false, false, false, false, false, false, false, false, false, false, false, false, false, false, false],
    [false, false, false, false, false, false, false, false, false, false, false, false, false, false, false, false, false, false, false, false, false, false, false, false, false, false, false, false, false, false, false, false, false, false, false, false, false, false, false, false, false, false, false, false, false],
    [false, false, false, false, false, false, true, false, false, false, false, false, false, false, false, false, false, false, false, false, false, false, false, false, false, false, false, false, false, false, false, false, false, false, false, false, false, false, false, false, false, false, false, false, false],
    [false, false, false, false, false, false, false, false, false, false, false, false, false, false, false, false, false, false, false, false, false, false, false, false, false, false, false, false, false, false, false, false, false, false, false, false, false, false, false, false, false, false, false, false, false],
    [false, false, false, false, false, false, true, false, false, false, false, false, false, false, false, false, false, false, false, false, false, false, false, false, false, false, false, false, false, false, false, false, false, false, false, false, false, false, false, false, false, false, false, false, false],
    [false, false, false, false, false, false, false, false, false, false, false, false, false, false, false, false, false, false, false, false, false, false, false, false, false, false, false, false, false, false, false, false, false, false, false, false, false, false, false, false, false, false, false, false, false],
    [false, false, false, false, false, false, true, false, false, false, false, false, false, false, false, false, false, false, false, false, true, true, true, true, true, false, false, false, false, false, false, false, false, false, false, false, true, true, true, true, true, false, false, false, false],
    [false, false, false, false, false, false, false, false, false, false, false, false, false, false, false, false, false, false, false, false, true, false, false, false, true, false, false, false, false, false, false, false, false, false, false, false, true, false, false, false, true, false, false, false, false],
    [true, true, true, true, true, true, true, false, false, false, false, false, false, false, false, false, false, false, false, false, true, false, true, false, true, false, false, false, false, false, false, false, false, false, false, false, true, false, true, false, true, false, false, false, false],
    [true, false, false, false, false, false, true, false, false, false, false, false, false, false, false, false, false, false, false, false, true, false, false, false, true, false, false, false, false, false, false, false, false, false, false, false, true, false, false, false, true, false, false, false, false],
    [true, false, true, true, true, false, true, false, false, false, false, false, false, false, false, false, false, false, false, false, true, true, true, true, true, false, false, false, false, false, false, false, false, false, false, false, true, true, true, true, true, false, false, false, false],
    [true, false, true, true, true, false, true, false, false, false, false, false, false, false, false, false, false, false, false, false, false, false, false, false, false, false, false, false, false, false, false, false, false, false, false, false, false, false, false, false, false, false, false, false, false],
    [true, false, true, true, true, false, true, false, false, false, false, false, false, false, false, false, false, false, false, false, false, false, false, false, false, false, false, false, false, false, false, false, false, false, false, false, false, false, false, false, false, false, false, false, false],
    [true, false, false, false, false, false, true, false, false, false, false, false, false, false, false, false, false, false, false, false, false, false, false, false, false, false, false, false, false, false, false, false, false, false, false, false, false, false, false, false, false, false, false, false, false],
    [true, true, true, true, true, true, true, false, false, false, false, false, false, false, false, false, false, false, false, false, false, false, false, false, false, false, false, false, false, false, false, false, false, false, false, false, false, false, false, false, false, false, false, false, false]]

/-- Version-7 function flags after phase `f5` of `place_function_patterns`. -/
def fun7f5 : List (List Bool) :=
  [[true, true, true, true, true, true, true, true, false, false, false, false, false, false, false, false, false, false, false, false, false, false, false, false, false, false, false, false, false, false, false, false, false, false, false, false, false, true, true, true, true, true, true, true, true],
    [true, true, true, true, true, true, true, true, false, false, false, false, false, false, false, false, false, false, false, false, false, false, false, false, false, false, false, false, false, false, false, false, false, false, false, false, false, true, true, true, true, true, true, true, true],
    [true, true, true, true, true, true, true, true, false, false, false, false, false, false, false, false, false, false, false, false, false, false, false, false, false, false, false, false, false, false, false, false, false, false, false, false, false, true, true, true, true, true, true, true, true],
    [true, true, true, true, true, true, true, true, false, false, false, false, false, false, false, false, false, false, false, false, false, false, false, false, false, false, false, false, false, false, false, false, false, false, false, false, false, true, true, true, true, true, true, true, true],
    [true, true, true, true, true, true, true, true, false, false, false, false, false, false, false, false, false, false, false, false, false, false, false, false, false, false, false, false, false, false, false, false, false, false, false, false, false, true, true, true, true, true, true, true, true],
    [true, true, true, true, true, true, true, true, false, false, false, false, false, false, false, false, false, false, false, false, false, false, false, false, false, false, false, false, false, false, false, false, false, false, false, false, false, true, true, true, true, true, true, true, true],
    [true, true, true, true, true, true, true, true, true, true, true, true, true, true, true, true, true, true, true, true, true, true, true, true, true, true, true, true, true, true, true, true, true, true, true, true, true, true, true, true, true, true, true, true, true],
    [true, true, true, true, true, true, true, false, false, false, false, false, false, false, false, false, false, false, false, false, false, false, false, false, false, false, false, false, false, false, false, false, false, false, false, false, false, false, true, true, true, true, true, true, true],
    [false, false, false, false, false, false, true, false, false, false, false, false, false, false, false, false, false, false, false, false, false, false, false, false, false, false, false, false, false, false, false, false, false, false, false, false, false, false, false, false, false, false, false, false, false],
    [false, false, false, false, false, false, true, false, false, false, false, false, false, false, false, false, false, false, false, false, false, false, false, false, false, false, false, false, false, false, false, false, false, false, false, false, false, false, false, false, false, false, false, false, false],
    [false, false, false, false, false, false, true, false, false, false, false, false, false, false, false, false, false, false, false, false, false, false, false, false, false, false, false, false, false, false, false, false, false, false, false, false, false, false, false, false, false, false, false, false, false],
    [false, false, false, false, false, false, true, false, false, false, false, false, false, false, false, false, false, false, false, false, false, false, false, false, false, false, false, false, false, false, false, false, false, false, false, false, false, false, false, false, false, false, false, false, false],
    [false, false, false, false, false, false, true, false, false, false, false, false, false, false, false, false, false, false, false, false, false, false, false, false, false, false, false, false, false, false, false, false, false, false, false, false, false, false, false, false, false, false, false, false, false],
    [false, false, false, false, false, false, true, false, false, false, false, false, false, false, false, false, false, false, false, false, false, false, false, false, false, false, false, false, false, false, false, false, false, false, false, false, false, false, false, false, false, false, false, false, false],
    [false, false, false, false, false, false, true, false, false, false, false, false, false, false, false, false, false, false, false, false, false, false, false, false, false, false, false, false, false, false, false, false, false, false, false, false, false, false, false, false, false, false, false, false, false],
    [false, false, false, false, false, false, true, false, false, false, false, false, false, false, false, false, false, false, false, false, false, false, false, false, false, false, false, false, false, false, false, false, false, false, false, false, false, false, false, false, false, false, false, false, false],
    [false, false, false, false, false, false, true, false, false, false, false, false, false, false, false, false, false, false, false, false, false, false, false, false, false, false, false, false, false, false, false, false, false, false, false, false, false, false, false, false, false, false, false, false, false],
    [false, false, false, false, false, false, true, false, false, false, false, false, false, false, false, false, false, false, false, false, false, false, false, false, false, false, false, false, false, false, false, false, false, false, false, false, false, false, false, false, false, false, false, false, false],
    [false, false, false, false, false, false, true, false, false, false, false, false, false, false, false, false, false, false, false, false, false, false, false, false, false, false, false, false, false, false, false, false, false, false, false, false, false, false, false, false, false, false, false, false, false],
    [false, false, false, false, false, false, true, false, false, false, false, false, false, false, false, false, false, false, false, false, false, false, false, false, false, false, false, false, false, false, false, false, false, false, false, false, false, false, false, false, false, false, false, false, false],
    [false, false, false, false, false, false, true, false, false, false, false, false, false, false, false, false, false, false, false, false, true, true, true, true, true, false, false, false, false, false, false, false, false, false, false, false, true, true, true, true, true, false, false, false, false],
    [false, false, false, false, false, false, true, false, false, false, false, false, false, false, false, false, false, false, false, false, true, true, true, true, true, false, false, false, false, false, false, false, false, false, false, false, true, true, true, true, true, false, false, false, false],
    [false, false, false, false, false, false, true, false, false, false, false, false, false, false, false, false, false, false, false, false, true, true, true, true, true, false, false, false, false, false, false, false, false, false, false, false, true, true, true, true, true, false, false, false, false],
    [false, false, false, false, false, false, true, false, false, false, false, false, false, false, false, false, false, false, false, false, true, true, true, true, true, false, false, false, false, false, false, false, false, false, false, false, true, true, true, true, true, false, false, false, false],
    [false, false, false, false, false, false, true, false, false, false, false, false, false, false, false, false, false, false, false, false, true, true, true, true, true, false, false, false, false, false, false, false, false, false, false, false, true, true, true, true, true, false, false, false, false],
    [false, false, false, false, false, false, true, false, false, false, false, false, false, false, false, false, false, false, false, false, false, false, false, false, false, false, false, false, false, false, false, false, false, false, false, false, false, false, false, false, false, false, false, false, false],
    [false, false, false, false, false, false, true, false, false, false, false, false, false, false, false, false, false, false, false, false, false, false, false, false, false, false, false, false, false, false, false, false, false, false, false, false, false, false, false, false, false, false, false, false, false],
    [false, false, false, false, false, false, true, false, false, false, false, false, false, false, false, false, false, false, false, false, false, false, false, false, false, false, false, false, false, false, false, false, false, false, false, false, false, false, false, false, false, false, false, false, false],
    [false, false, false, false, false, false, true, false, false, false, false, false, false, false, false, false, false, false, false, false, false, false, false, false, false, false, false, false, false, false, false, false, false, false, false, false, false, false, false, false, false, false, false, false, false],
    [false, false, false, false, false, false, true, false, false, false, false, false, false, false, false, false, false, false, false, false, false, false, false, false, false, false, false, false, false, false, false, false, false, false, false, false, false, false, false, false, false, false, false, false, false],
    [false, false, false, false, false, false, true, false, false, false, false, false, false, false, false, false, false, false, false, false, false, false, false, false, false, false, false, false, false, false, false, false, false, false, false, false, false, false, false, false, false, false, false, false, false],
    [false, false, false, false, false, false, true, false, false, false, false, false, false, false, false, false, false, false, false, false, false, false, false, false, false, false, false, false, false, false, false, false, false, false, false, false, false, false, false, false, false, false, false, false, false],
    [false, false, false, false, false, false, true, false, false, false, false, false, false, false, false, false, false, false, false, false, false, false, false, false, false, false, false, false, false, false, false, false, false, false, false, false, false, false, false, false, false, false, false, false, false],
    [false, false, false, false, false, false, true, false, false, false, false, false, false, false, false, false, false, false, false, false, false, false, false, false, false, false, false, false, false, false, false, false, false, false, false, false, false, false, false, false, false, false, false, false, false],
    [false, false, false, false, false, false, true, false, false, false, false, false, false, false, false, false, false, false, false, false, false, false, false, false, false, false, false, false, false, false, false, false, false, false, false, false, false, false, false, false, false, false, false, false, false],
    [false, false, false, false, false, false, true, false, false, false, false, false, false, false, false, false, false, false, false, false, false, false, false, false, false, false, false, false, false, false, false, false, false, false, false, false, false, false, false, false, false, false, false, false, false],
    [false, false, false, false, false, false, true, false, false, false, false, false, false, false, false, false, false, false, false, false, true, true, true, true, true, false, false, false, false, false, false, false, false, false, false, false, true, true, true, true, true, false, false, false, false],
    [true, true, true, true, true, true, true, false, false, false, false, false, false, false, false, false, false, false, false, false, true, true, true, true, true, false, false, false, false, false, false, false, false, false, false, false, true, true, true, true, true, false, false, false, false],
    [true, true, true, true, true, true, true, true, false, false, false, false, false, false, false, false, false, false, false, false, true, true, true, true, true, false, false, false, false, false, false, false, false, false, false, false, true, true, true, true, true, false, false, false, false],
    [true, true, true, true, true, true, true, true, false, false, false, false, false, false, false, false, false, false, false, false, true, true, true, true, true, false, false, false, false, false, false, false, false, false, false, false, true, true, true, true, true, false, false, false, false],
    [true, true, true, true, true, true, true, true, false, false, false, false, false, false, false, false, false, false, false, false, true, true, true, true, true, false, false, false, false, false, false, false, false, false, false, false, true, true, true, true, true, false, false, false, false],
    [true, true, true, true, true, true, true, true, false, false, false, false, false, false, false, false, false, false, false, false, false, false, false, false, false, false, false, false, false, false, false, false, false, false, false, false, false, false, false, false, false, false, false, false, false],
    [true, true, true, true, true, true, true, true, false, false, false, false, false, false, false, false, false, false, false, false, false, false, false, false, false, false, false, false, false, false, false, false, false, false, false, false, false, false, false, false, false, false, false, false, false],
    [true, true, true, true, true, true, true, true, false, false, false, false, false, false, false, false, false, false, false, false, false, false, false, false, false, false, false, false, false, false, false, false, false, false, false, false, false, false, false, false, false, false, false, false, false],
    [true, true, true, true, true, true, true, true, false, false, false, false, false, false, false, false, false, false, false, false, false, false, false, false, false, false, false, false, false, false, false, false, false, false, false, false, false, false, false, false, false, false, false, false, false]]

/-- Version-7 grid modules after phase `f6` of `place_function_patterns`. -/
def mods7f6 : List (List Bool) :=
  [[true, true, true, true, true, true, true, false, false, false, false, false, false, false, false, false, false, false, false, false, false, false, false, false, false, false, false, false, false, false, false, false, false, false, false, false, false, false, true, true, true, true, true, true, true],
    [true, false, false, false, false, false, true, false, false, false, false, false, false, false, false, false, false, false, false, false, false, false, false, false, false, false, false, false, false, false, false, false, false, false, false, false, false, false, true, false, false, false, false, false, true],
    [true, false, true, true, true, false, true, false, false, false, false, false, false, false, false, false, false, false, false, false, false, false, false, false, false, false, false, false, false, false, false, false, false, false, false, false, false, false, true, false, true, true, true, false, true],
    [true, false, true, true, true, false, true, false, false, false, false, false, false, false, false, false, false, false, false, false, false, false, false, false, false, false, false, false, false, false, false, false, false, false, false, false, false, false, true, false, true, true, true, false, true],
    [true, false, true, true, true, false, true, false, false, false, false, false, false, false, false, false, false, false, false, false, false, false, false, false, false, false, false, false, false, false, false, false, false, false, false, false, false, false, true, false, true, true, true, false, true],
    [true, false, false, false, false, false, true, false, false, false, false, false, false, false, false, false, false, false, false, false, false, false, false, false, false, false, false, false, false, false, false, false, false, false, false, false, false, false, true, false, false, false, false, false, true],
    [true, true, true, true, true, true, true, false, true, false, true, false, true, false, true, false, true, false, true, false, true, false, true, false, true, false, true, false, true, false, true, false, true, false, true, false, true, false, true, true, true, true, true, true, true],
    [false, false, false, false, false, false, false, false, false, false, false, false, false, false, false, false, false, false, false, false, false, false, false, false, false, false, false, false, false, false, false, false, false, false, false, false, false, false, false, false, false, false, false, false, false],
    [false, false, false, false, false, false, true, false, false, false, false, false, false, false, false, false, false, false, false, false, false, false, false, false, false, false, false, false, false, false, false, false, false, false, false, false, false, false, false, false, false, false, false, false, false],
    [false, false, false, false, false, false, false, false, false, false, false, false, false, false, false, false, false, false, false, false, false, false, false, false, false, false, false, false, false, false, false, false, false, false, false, false, false, false, false, false, false, false, false, false, false],
    [false, false, false, false, false, false, true, false, false, false, false, false, false, false, false, false, false, false, false, false, false, false, false, false, false, false, false, false, false, false, false, false, false, false, false, false, false, false, false, false, false, false, false, false, false],
    [false, false, false, false, false, false, false, false, false, false, false, false, false, false, false, false, false, false, false, false, false, false, false, false, false, false, false, false, false, false, false, false, false, false, false, false, false, false, false, false, false, false, false, false, false],
    [false, false, false, false, false, false, true, false, false, false, false, false, false, false, false, false, false, false, false, false, false, false, false, false, false, false, false, false, false, false, false, false, false, false, false, false, false, false, false, false, false, false, false, false, false],
    [false, false, false, false, false, false, false, false, false, false, false, false, false, false, false, false, false, false, false, false, false, false, false, false, false, false, false, false, false, false, false, false, false, false, false, false, false, false, false, false, false, false, false, false, false],
    [false, false, false, false, false, false, true, false, false, false, false, false, false, false, false, false, false, false, false, false, false, false, false, false, false, false, false, false, false, false, false, false, false, false, false, false, false, false, false, false, false, false, false, false, false],
    [false, false, false, false, false, false, false, false, false, false, false, false, false, false, false, false, false, false, false, false, false, false, false, false, false, false, false, false, false, false, false, false, false, false, false, false, false, false, false, false, false, false, false, false, false],
    [false, false, false, false, false, false, true, false, false, false, false, false, false, false, false, false, false, false, false, false, false, false, false, false, false, false, false, false, false, false, false, false, false, false, false, false, false, false, false, false, false, false, false, false, false],
    [false, false, false, false, false, false, false, false, false, false, false, false, false, false, false, false, false, false, false, false, false, false, false, false, false, false, false, false, false, false, false, false, false, false, false, false, false, false, false, false, false, false, false, false, false],
    [false, false, false, false, false, false, true, false, false, false, false, false, false, false, false, false, false, false, false, false, false, false, false, false, false, false, false, false, false, false, false, false, false, false, false, false, false, false, false, false, false, false, false, false, false],
    [false, false, false, false, false, false, false, false, false, false, false, false, false, false, false, false, false, false, false, false, false, false, false, false, false, false, false, false, false, false, false, false, false, false, false, false, false, false, false, false, false, false, false, false, false],
    [false, false, false, false, false, false, true, false, false, false, false, false, false, false, false, false, false, false, false, false, true, true, true, true, true, false, false, false, false, false, false, false, false, false, false, false, true, true, true, true, true, false, false, false, false],
    [false, false, false, false, false, false, false, false, false, false, false, false, false, false, false, false, false, false, false, false, true, false, false, false, true, false, false, false, false, false, false, false, false, false, false, false, true, false, false, false, true, false, false, false, false],
    [false, false, false, false, false, false, true, false, false, false, false, false, false, false, false, false, false, false, false, false, true, false, true, false, true, false, false, false, false, false, false, false, false, false, false, false, true, false, true, false, true, false, false, false, false],
    [false, false, false, false, false, false, false, false, false, false, false, false, false, false, false, false, false, false, false, false, true, false, false, false, true, false, false, false, false, false, false, false, false, false, false, false, true, false, false, false, true, false, false, false, false],
    [false, false, false, false, false, false, true, false, false, false, false, false, false, false, false, false, false, false, false, false, true, true, true, true, true, false, false, false, false, false, false, false, false, false, false, false, true, true, true, true, true, false, false, false, false],
    [false, false, false, false, false, false, false, false, false, false, false, false, false, false, false, false, false, false, false, false, false, false, false, false, false, false, false, false, false, false, false, false, false, false, false, false, false, false, false, false, false, false, false, false, false],
    [false, false, false, false, false, false, true, false, false, false, false, false, false, false, false, false, false, false, false, false, false, false, false, false, false, false, false, false, false, false, false, false, false, false, false, false, false, false, false, false, false, false, false, false, false],
    [false, false, false, false, false, false, false, false, false, false, false, false, false, false, false, false, false, false, false, false, false, false, false, false, false, false, false, false, false, false, false, false, false, false, false, false, false, false, false, false, false, false, false, false, false],
    [false, false, false, false, false, false, true, false, false, false, false, false, false, false, false, false, false, false, false, false, false, false, false, false, false, false, false, false, false, false, false, false, false, false, false, false, false, false, false, false, false, false, false, false, false],
    [false, false, false, false, false, false, false, false, false, false, false, false, false, false, false, false, false, false, false, false, false, false, false, false, false, false, false, false, false, false, false, false, false, false, false, false, false, false, false, false, false, false, false, false, false],
    [false, false, false, false, false, false, true, false, false, false, false, false, false, false, false, false, false, false, false, false, false, false, false, false, false, false, false, false, false, false, false, false, false, false, false, false, false, false, false, false, false, false, false, false, false],
    [false, false, false, false, false, false, false, false, false, false, false, false, false, false, false, false, false, false, false, false, false, false, false, false, false, false, false, false, false, false, false, false, false, false, false, false, false, false, false, false, false, false, false, false, false],
    [false, false, false, false, false, false, true, false, false, false, false, false, false, false, false, false, false, false, false, false, false, false, false, false, false, false, false, false, false, false, false, false, false, false, false, false, false, false, false, false, false, false, false, false, false],
    [false, false, false, false, false, false, false, false, false, false, false, false, false, false, false, false, false, false, false, false, false, false, false, false, false, false, false, false, false, false, false, false, false, false, false, false, false, false, false, false, false, false, false, false, false],
    [false, false, false, false, false, false, true, false, false, false, false, false, false, false, false, false, false, false, false, false, false, false, false, false, false, false, false, false, false, false, false, false, false, false, false, false, false, false, false, false, false, false, false, false, false],
    [false, false, false, false, false, false, false, false, false, false, false, false, false, false, false, false, false, false, false, false, false, false, false, false, false, false, false, false, false, false, false, false, false, false, false, false, false, false, false, false, false, false, false, false, false],
    [false, false, false, false, false, false, true, false, false, false, false, false, false, false, false, false, false, false, false, false, true, true, true, true, true, false, false, false, false, false, false, false, false, false, false, false, true, true, true, true, true, false, false, false, false],
    [false, false, false, false, false, false, false, false, false, false, false, false, false, false, false, false, false, false, false, false, true, false, false, false, true, false, false, false, false, false, false, false, false, false, false, false, true, false, false, false, true, false, false, false, false],
    [true, true, true, true, true, true, true, false, false, false, false, false, false, false, false, false, false, false, false, false, true, false, true, false, true, false, false, false, false, false, false, false, false, false, false, false, true, false, true, false, true, false, false, false, false],
    [true, false, false, false, false, false, true, false, false, false, false, false, false, false, false, false, false, false, false, false, true, false, false, false, true, false, false, false, false, false, false, false, false, false, false, false, true, false, false, false, true, false, false, false, false],
    [true, false, true, true, true, false, true, false, false, false, false, false, false, false, false, false, false, false, false, false, true, true, true, true, true, false, false, false, false, false, false, false, false, false, false, false, true, true, true, true, true, false, false, false, false],
    [true, false, true, true, true, false, true, false, false, false, false, false, false, false, false, false, false, false, false, false, false, false, false, false, false, false, false, false, false, false, false, false, false, false, false, false, false, false, false, false, false, false, false, false, false],
    [true, false, true, true, true, false, true, false, false, false, false, false, false, false, false, false, false, false, false, false, false, false, false, false, false, false, false, false, false, false, false, false, false, false, false, false, false, false, false, false, false, false, false, false, false],
    [true, false, false, false, false, false, true, false, false, false, false, false, false, false, false, false, false, false, false, false, false, false, false, false, false, false, false, false, false, false, false, false, false, false, false, false, false, false, false, false, false, false, false, false, false],
    [true, true, true, true, true, true, true, false, false, false, false, false, false, false, false, false, false, false, false, false, false, false, false, false, false, false, false, false, false, false, false, false, false, false, false, false, false, false, false, false, false, false, false, false, false]]

/-- Version-7 function flags after phase `f6` of `place_function_patterns`. -/
def fun7f6 : List (List Bool) :=
  [[true, true, true, true, true, true, true, true, true, false, false, false, false, false, false, false, false, false, false, false, false, false, false, false, false, false, false, false, false, false, false, false, false, false, false, false, false, true, true, true, true, true, true, true, true],
    [true, true, true, true, true, true, true, true, true, false, false, false, false, false, false, false, false, false, false, false, false, false, false, false, false, false, false, false, false, false, false, false, false, false, false, false, false, true, true, true, true, true, true, true, true],
    [true, true, true, true, true, true, true, true, true, false, false, false, false, false, false, false, false, false, false, false, false, false, false, false, false, false, false, false, false, false, false, false, false, false, false, false, false, true, true, true, true, true, true, true, true],
    [true, true, true, true, true, true, true, true, true, false, false, false, false, false, false, false, false, false, false, false, false, false, false, false, false, false, false, false, false, false, false, false, false, false, false, false, false, true, true, true, true, true, true, true, true],
    [true, true, true, true, true, true, true, true, true, false, false, false, false, false, false, false, false, false, false, false, false, false, false, false, false, false, false, false, false, false, false, false, false, false, false, false, false, true, true, true, true, true, true, true, true],
    [true, true, true, true, true, true, true, true, true, false, false, false, false, false, false, false, false, false, false, false, false, false, false, false, false, false, false, false, false, false, false, false, false, false, false, false, false, true, true, true, true, true, true, true, true],
    [true, true, true, true, true, true, true, true, true, true, true, true, true, true, true, true, true, true, true, true, true, true, true, true, true, true, true, true, true, true, true, true, true, true, true, true, true, true, true, true, true, true, true, true, true],
    [true, true, true, true, true, true, true, false, true, false, false, false, false, false, false, false, false, false, false, false, false, false, false, false, false, false, false, false, false, false, false, false, false, false, false, false, false, false, true, true, true, true, true, true, true],
    [true, true, true, true, true, true, true, true, true, false, false, false, false, false, false, false, false, false, false, false, false, false, false, false, false, false, false, false, false, false, false, false, false, false, false, false, false, true, true, true, true, true, true, true, true],
    [false, false, false, false, false, false, true, false, false, false, false, false, false, false, false, false, false, false, false, false, false, false, false, false, false, false, false, false, false, false, false, false, false, false, false, false, false, false, false, false, false, false, false, false, false],
    [false, false, false, false, false, false, true, false, false, false, false, false, false, false, false, false, false, false, false, false, false, false, false, false, false, false, false, false, false, false, false, false, false, false, false, false, false, false, false, false, false, false, false, false, false],
    [false, false, false, false, false, false, true, false, false, false, false, false, false, false, false, false, false, false, false, false, false, false, false, false, false, false, false, false, false, false, false, false, false, false, false, false, false, false, false, false, false, false, false, false, false],
    [false, false, false, false, false, false, true, false, false, false, false, false, false, false, false, false, false, false, false, false, false, false, false, false, false, false, false, false, false, false, false, false, false, false, false, false, false, false, false, false, false, false, false, false, false],
    [false, false, false, false, false, false, true, false, false, false, false, false, false, false, false, false, false, false, false, false, false, false, false, false, false, false, false, false, false, false, false, false, false, false, false, false, false, false, false, false, false, false, false, false, false],
    [false, false, false, false, false, false, true, false, false, false, false, false, false, false, false, false, false, false, false, false, false, false, false, false, false, false, false, false, false, false, false, false, false, false, false, false, false, false, false, false, false, false, false, false, false],
    [false, false, false, false, false, false, true, false, false, false, false, false, false, false, false, false, false, false, false, false, false, false, false, false, false, false, false, false, false, false, false, false, false, false, false, false, false, false, false, false, false, false, false, false, false],
    [false, false, false, false, false, false, true, false, false, false, false, false, false, false, false, false, false, false, false, false, false, false, false, false, false, false, false, false, false, false, false, false, false, false, false, false, false, false, false, false, false, false, false, false, false],
    [false, false, false, false, false, false, true, false, false, false, false, false, false, false, false, false, false, false, false, false, false, false, false, false, false, false, false, false, false, false, false, false, false, false, false, false, false, false, false, false, false, false, false, false, false],
    [false, false, false, false, false, false, true, false, false, false, false, false, false, false, false, false, false, false, false, false, false, false, false, false, false, false, false, false, false, false, false, false, false, false, false, false, false, false, false, false, false, false, false, false, false],
    [false, false, false, false, false, false, true, false, false, false, false, false, false, false, false, false, false, false, false, false, false, false, false, false, false, false, false, false, false, false, false, false, false, false, false, false, false, false, false, false, false, false, false, false, false],
    [false, false, false, false, false, false, true, false, false, false, false, false, false, false, false, false, false, false, false, false, true, true, true, true, true, false, false, false, false, false, false, false, false, false, false, false, true, true, true, true, true, false, false, false, false],
    [false, false, false, false, false, false, true, false, false, false, false, false, false, false, false, false, false, false, false, false, true, true, true, true, true, false, false, false, false, false, false, false, false, false, false, false, true, true, true, true, true, false, false, false, false],
    [false, false, false, false, false, false, true, false, false, false, false, false, false, false, false, false, false, false, false, false, true, true, true, true, true, false, false, false, false, false, false, false, false, false, false, false, true, true, true, true, true, false, false, false, false],
    [false, false, false, false, false, false, true, false, false, false, false, false, false, false, false, false, false, false, false, false, true, true, true, true, true, false, false, false, false, false, false, false, false, false, false, false, true, true, true, true, true, false, false, false, false],
    [false, false, false, false, false, false, true, false, false, false, false, false, false, false, false, false, false, false, false, false, true, true, true, true, true, false, false, false, false, false, false, false, false, false, false, false, true, true, true, true, true, false, false, false, false],
    [false, false, false, false, false, false, true, false, false, false, false, false, false, false, false, false, false, false, false, false, false, false, false, false, false, false, false, false, false, false, false, false, false, false, false, false, false, false, false, false, false, false, false, false, false],
    [false, false, false, false, false, false, true, false, false, false, false, false, false, false, false, false, false, false, false, false, false, false, false, false, false, false, false, false, false, false, false, false, false, false, false, false, false, false, false, false, false, false, false, false, false],
    [false, false, false, false, false, false, true, false, false, false, false, false, false, false, false, false, false, false, false, false, false, false, false, false, false, false, false, false, false, false, false, false, false, false, false, false, false, false, false, false, false, false, false, false, false],
    [false, false, false, false, false, false, true, false, false, false, false, false, false, false, false, false, false, false, false, false, false, false, false, false, false, false, false, false, false, false, false, false, false, false, false, false, false, false, false, false, false, false, false, false, false],
    [false, false, false, false, false, false, true, false, false, false, false, false, false, false, false, false, false, false, false, false, false, false, false, false, false, false, false, false, false, false, false, false, false, false, false, false, false, false, false, false, false, false, false, false, false],
    [false, false, false, false, false, false, true, false, false, false, false, false, false, false, false, false, false, false, false, false, false, false, false, false, false, false, false, false, false, false, false, false, false, false, false, false, false, false, false, false, false, false, false, false, false],
    [false, false, false, false, false, false, true, false, false, false, false, false, false, false, false, false, false, false, false, false, false, false, false, false, false, false, false, false, false, false, false, false, false, false, false, false, false, false, false, false, false, false, false, false, false],
    [false, false, false, false, false, false, true, false, false, false, false, false, false, false, false, false, false, false, false, false, false, false, false, false, false, false, false, false, false, false, false, false, false, false, false, false, false, false, false, false, false, false, false, false, false],
    [false, false, false, false, false, false, true, false, false, false, false, false, false, false, false, false, false, false, false, false, false, false, false, false, false, false, false, false, false, false, false, false, false, false, false, false, false, false, false, false, false, false, false, false, false],
    [false, false, false, false, false, false, true, false, false, false, false, false, false, false, false, false, false, false, false, false, false, false, false, false, false, false, false, false, false, false, false, false, false, false, false, false, false, false, false, false, false, false, false, false, false],
    [false, false, false, false, false, false, true, false, false, false, false, false, false, false, false, false, false, false, false, false, false, false, false, false, false, false, false, false, false, false, false, false, false, false, false, false, false, false, false, false, false, false, false, false, false],
    [false, false, false, false, false, false, true, false, false, false, false, false, false, false, false, false, false, false, false, false, true, true, true, true, true, false, false, false, false, false, false, false, false, false, false, false, true, true, true, true, true, false, false, false, false],
    [true, true, true, true, true, true, true, false, true, false, false, false, false, false, false, false, false, false, false, false, true, true, true, true, true, false, false, false, false, false, false, false, false, false, false, false, true, true, true, true, true, false, false, false, false],
    [true, true, true, true, true, true, true, true, true, false, false, false, false, false, false, false, false, false, false, false, true, true, true, true, true, false, false, false, false, false, false, false, false, false, false, false, true, true, true, true, true, false, false, false, false],
    [true, true, true, true, true, true, true, true, true, false, false, false, false, false, false, false, false, false, false, false, true, true, true, true, true, false, false, false, false, false, false, false, false, false, false, false, true, true, true, true, true, false, false, false, false],
    [true, true, true, true, true, true, true, true, true, false, false, false, false, false, false, false, false, false, false, false, true, true, true, true, true, false, false, false, false, false, false, false, false, false, false, false, true, true, true, true, true, false, false, false, false],
    [true, true, true, true, true, true, true, true, true, false, false, false, false, false, false, false, false, false, false, false, false, false, false, false, false, false, false, false, false, false, false, false, false, false, false, false, false, false, false, false, false, false, false, false, false],
    [true, true, true, true, true, true, true, true, true, false, false, false, false, false, false, false, false, false, false, false, false, false, false, false, false, false, false, false, false, false, false, false, false, false, false, false, false, false, false, false, false, false, false, false, false],
    [true, true, true, true, true, true, true, true, true, false, false, false, false, false, false, false, false, false, false, false, false, false, false, false, false, false, false, false, false, false, false, false, false, false, false, false, false, false, false, false, false, false, false, false, false],
    [true, true, true, true, true, true, true, true, true, false, false, false, false, false, false, false, false, false, false, false, false, false, false, false, false, false, false, false, false, false, false, false, false, false, false, false, false, false, false, false, false, false, false, false, false]]

/-- Version-7 grid modules after phase `f7` of `place_function_patterns`. -/
def mods7f7 : List (List Bool) :=
  [[true, true, true, true, true, true, true, false, false, false, false, false, false, false, false, false, false, false, false, false, false, false, false, false, false, false, false, false, false, false, false, false, false, false, false, false, false, false, true, true, true, true, true, true, true],
    [true, false, false, false, false, false, true, false, false, false, false, false, false, false, false, false, false, false, false, false, false, false, false, false, false, false, false, false, false, false, false, false, false, false, false, false, false, false, true, false, false, false, false, false, true],
    [true, false, true, true, true, false, true, false, false, false, false, false, false, false, false, false, false, false, false, false, false, false, false, false, false, false, false, false, false, false, false, false, false, false, false, false, false, false, true, false, true, true, true, false, true],
    [true, false, true, true, true, false, true, false, false, false, false, false, false, false, false, false, false, false, false, false, false, false, false, false, false, false, false, false, false, false, false, false, false, false, false, false, false, false, true, false, true, true, true, false, true],
    [true, false, true, true, true, false, true, false, false, false, false, false, false, false, false, false, false, false, false, false, false, false, false, false, false, false, false, false, false, false, false, false, false, false, false, false, false, false, true, false, true, true, true, false, true],
    [true, false, false, false, false, false, true, false, false, false, false, false, false, false, false, false, false, false, false, false, false, false, false, false, false, false, false, false, false, false, false, false, false, false, false, false, false, false, true, false, false, false, false, false, true],
    [true, true, true, true, true, true, true, false, true, false, true, false, true, false, true, false, true, false, true, false, true, false, true, false, true, false, true, false, true, false, true, false, true, false, true, false, true, false, true, true, true, true, true, true, true],
    [false, false, false, false, false, false, false, false, false, false, false, false, false, false, false, false, false, false, false, false, false, false, false, false, false, false, false, false, false, false, false, false, false, false, false, false, false, false, false, false, false, false, false, false, false],
    [false, false, false, false, false, false, true, false, false, false, false, false, false, false, false, false, false, false, false, false, false, false, false, false, false, false, false, false, false, false, false, false, false, false, false, false, false, true, false, false, false, false, false, false, false],
    [false, false, false, false, false, false, false, false, false, false, false, false, false, false, false, false, false, false, false, false, false, false, false, false, false, false, false, false, false, false, false, false, false, false, false, false, false, false, false, false, false, false, false, false, false],
    [false, false, false, false, false, false, true, false, false, false, false, false, false, false, false, false, false, false, false, false, false, false, false, false, false, false, false, false, false, false, false, false, false, false, false, false, false, false, false, false, false, false, false, false, false],
    [false, false, false, false, false, false, false, false, false, false, false, false, false, false, false, false, false, false, false, false, false, false, false, false, false, false, false, false, false, false, false, false, false, false, false, false, false, false, false, false, false, false, false, false, false],
    [false, false, false, false, false, false, true, false, false, false, false, false, false, false, false, false, false, false, false, false, false, false, false, false, false, false, false, false, false, false, false, false, false, false, false, false, false, false, false, false, false, false, false, false, false],
    [false, false, false, false, false, false, false, false, false, false, false, false, false, false, false, false, false, false, false, false, false, false, false, false, false, false, false, false, false, false, false, false, false, false, false, false, false, false, false, false, false, false, false, false, false],
    [false, false, false, false, false, false, true, false, false, false, false, false, false, false, false, false, false, false, false, false, false, false, false, false, false, false, false, false, false, false, false, false, false, false, false, false, false, false, false, false, false, false, false, false, false],
    [false, false, false, false, false, false, false, false, false, false, false, false, false, false, false, false, false, false, false, false, false, false, false, false, false, false, false, false, false, false, false, false, false, false, false, false, false, false, false, false, false, false, false, false, false],
    [false, false, false, false, false, false, true, false, false, false, false, false, false, false, false, false, false, false, false, false, false, false, false, false, false, false, false, false, false, false, false, false, false, false, false, false, false, false, false, false, false, false, false, false, false],
    [false, false, false, false, false, false, false, false, false, false, false, false, false, false, false, false, false, false, false, false, false, false, false, false, false, false, false, false, false, false, false, false, false, false, false, false, false, false, false, false, false, false, false, false, false],
    [false, false, false, false, false, false, true, false, false, false, false, false, false, false, false, false, false, false, false, false, false, false, false, false, false, false, false, false, false, false, false, false, false, false, false, false, false, false, false, false, false, false, false, false, false],
    [false, false, false, false, false, false, false, false, false, false, false, false, false, false, false, false, false, false, false, false, false, false, false, false, false, false, false, false, false, false, false, false, false, false, false, false, false, false, false, false, false, false, false, false, false],
    [false, false, false, false, false, false, true, false, false, false, false, false, false, false, false, false, false, false, false, false, true, true, true, true, true, false, false, false, false, false, false, false, false, false, false, false, true, true, true, true, true, false, false, false, false],
    [false, false, false, false, false, false, false, false, false, false, false, false, false, false, false, false, false, false, false, false, true, false, false, false, true, false, false, false, false, false, false, false, false, false, false, false, true, false, false, false, true, false, false, false, false],
    [false, false, false, false, false, false, true, false, false, false, false, false, false, false, false, false, false, false, false, false, true, false, true, false, true, false, false, false, false, false, false, false, false, false, false, false, true, false, true, false, true, false, false, false, false],
    [false, false, false, false, false, false, false, false, false, false, false, false, false, false, false, false, false, false, false, false, true, false, false, false, true, false, false, false, false, false, false, false, false, false, false, false, true, false, false, false, true, false, false, false, false],
    [false, false, false, false, false, false, true, false, false, false, false, false, false, false, false, false, false, false, false, false, true, true, true, true, true, false, false, false, false, false, false, false, false, false, false, false, true, true, true, true, true, false, false, false, false],
    [false, false, false, false, false, false, false, false, false, false, false, false, false, false, false, false, false, false, false, false, false, false, false, false, false, false, false, false, false, false, false, false, false, false, false, false, false, false, false, false, false, false, false, false, false],
    [false, false, false, false, false, false, true, false, false, false, false, false, false, false, false, false, false, false, false, false, false, false, false, false, false, false, false, false, false, false, false, false, false, false, false, false, false, false, false, false, false, false, false, false, false],
    [false, false, false, false, false, false, false, false, false, false, false, false, false, false, false, false, false, false, false, false, false, false, false, false, false, false, false, false, false, false, false, false, false, false, false, false, false, false, false, false, false, false, false, false, false],
    [false, false, false, false, false, false, true, false, false, false, false, false, false, false, false, false, false, false, false, false, false, false, false, false, false, false, false, false, false, false, false, false, false, false, false, false, false, false, false, false, false, false, false, false, false],
    [false, false, false, false, false, false, false, false, false, false, false, false, false, false, false, false, false, false, false, false, false, false, false, false, false, false, false, false, false, false, false, false, false, false, false, false, false, false, false, false, false, false, false, false, false],
    [false, false, false, false, false, false, true, false, false, false, false, false, false, false, false, false, false, false, false, false, false, false, false, false, false, false, false, false, false, false, false, false, false, false, false, false, false, false, false, false, false, false, false, false, false],
    [false, false, false, false, false, false, false, false, false, false, false, false, false, false, false, false, false, false, false, false, false, false, false, false, false, false, false, false, false, false, false, false, false, false, false, false, false, false, false, false, false, false, false, false, false],
    [false, false, false, false, false, false, true, false, false, false, false, false, false, false, false, false, false, false, false, false, false, false, false, false, false, false, false, false, false, false, false, false, false, false, false, false, false, false, false, false, false, false, false, false, false],
    [false, false, false, false, false, false, false, false, false, false, false, false, false, false, false, false, false, false, false, false, false, false, false, false, false, false, false, false, false, false, false, false, false, false, false, false, false, false, false, false, false, false, false, false, false],
    [false, false, false, false, false, false, true, false, false, false, false, false, false, false, false, false, false, false, false, false, false, false, false, false, false, false, false, false, false, false, false, false, false, false, false, false, false, false, false, false, false, false, false, false, false],
    [false, false, false, false, false, false, false, false, false, false, false, false, false, false, false, false, false, false, false, false, false, false, false, false, false, false, false, false, false, false, false, false, false, false, false, false, false, false, false, false, false, false, false, false, false],
    [false, false, false, false, false, false, true, false, false, false, false, false, false, false, false, false, false, false, false, false, true, true, true, true, true, false, false, false, false, false, false, false, false, false, false, false, true, true, true, true, true, false, false, false, false],
    [false, false, false, false, false, false, false, false, false, false, false, false, false, false, false, false, false, false, false, false, true, false, false, false, true, false, false, false, false, false, false, false, false, false, false, false, true, false, false, false, true, false, false, false, false],
    [true, true, true, true, true, true, true, false, false, false, false, false, false, false, false, false, false, false, false, false, true, false, true, false, true, false, false, false, false, false, false, false, false, false, false, false, true, false, true, false, true, false, false, false, false],
    [true, false, false, false, false, false, true, false, false, false, false, false, false, false, false, false, false, false, false, false, true, false, false, false, true, false, false, false, false, false, false, false, false, false, false, false, true, false, false, false, true, false, false, false, false],
    [true, false, true, true, true, false, true, false, false, false, false, false, false, false, false, false, false, false, false, false, true, true, true, true, true, false, false, false, false, false, false, false, false, false, false, false, true, true, true, true, true, false, false, false, false],
    [true, false, true, true, true, false, true, false, false, false, false, false, false, false, false, false, false, false, false, false, false, false, false, false, false, false, false, false, false, false, false, false, false, false, false, false, false, false, false, false, false, false, false, false, false],
    [true, false, true, true, true, false, true, false, false, false, false, false, false, false, false, false, false, false, false, false, false, false, false, false, false, false, false, false, false, false, false, false, false, false, false, false, false, false, false, false, false, false, false, false, false],
    [true, false, false, false, false, false, true, false, false, false, false, false, false, false, false, false, false, false, false, false, false, false, false, false, false, false, false, false, false, false, false, false, false, false, false, false, false, false, false, false, false, false, false, false, false],
    [true, true, true, true, true, true, true, false, false, false, false, false, false, false, false, false, false, false, false, false, false, false, false, false, false, false, false, false, false, false, false, false, false, false, false, false, false, false, false, false, false, false, false, false, false]]

/-- Version-7 function flags after phase `f7` of `place_function_patterns`. -/
def fun7f7 : List (List Bool) :=
  [[true, true, true, true, true, true, true, true, true, false, false, false, false, false, false, false, false, false, false, false, false, false, false, false, false, false, false, false, false, false, false, false, false, false, false, false, false, true, true, true, true, true, true, true, true],
    [true, true, true, true, true, true, true, true, true, false, false, false, false, false, false, false, false, false, false, false, false, false, false, false, false, false, false, false, false, false, false, false, false, false, false, false, false, true, true, true, true, true, true, true, true],
    [true, true, true, true, true, true, true, true, true, false, false, false, false, false, false, false, false, false, false, false, false, false, false, false, false, false, false, false, false, false, false, false, false, false, false, false, false, true, true, true, true, true, true, true, true],
    [true, true, true, true, true, true, true, true, true, false, false, false, false, false, false, false, false, false, false, false, false, false, false, false, false, false, false, false, false, false, false, false, false, false, false, false, false, true, true, true, true, true, true, true, true],
    [true, true, true, true, true, true, true, true, true, false, false, false, false, false, false, false, false, false, false, false, false, false, false, false, false, false, false, false, false, false, false, false, false, false, false, false, false, true, true, true, true, true, true, true, true],
    [true, true, true, true, true, true, true, true, true, false, false, false, false, false, false, false, false, false, false, false, false, false, false, false, false, false, false, false, false, false, false, false, false, false, false, false, false, true, true, true, true, true, true, true, true],
    [true, true, true, true, true, true, true, true, true, true, true, true, true, true, true, true, true, true, true, true, true, true, true, true, true, true, true, true, true, true, true, true, true, true, true, true, true, true, true, true, true, true, true, true, true],
    [true, true, true, true, true, true, true, false, true, false, false, false, false, false, false, false, false, false, false, false, false, false, false, false, false, false, false, false, false, false, false, false, false, false, false, false, false, false, true, true, true, true, true, true, true],
    [true, true, true, true, true, true, true, true, true, false, false, false, false, false, false, false, false, false, false, false, false, false, false, false, false, false, false, false, false, false, false, false, false, false, false, false, false, true, true, true, true, true, true, true, true],
    [false, false, false, false, false, false, true, false, false, false, false, false, false, false, false, false, false, false, false, false, false, false, false, false, false, false, false, false, false, false, false, false, false, false, false, false, false, false, false, false, false, false, false, false, false],
    [false, false, false, false, false, false, true, false, false, false, false, false, false, false, false, false, false, false, false, false, false, false, false, false, false, false, false, false, false, false, false, false, false, false, false, false, false, false, false, false, false, false, false, false, false],
    [false, false, false, false, false, false, true, false, false, false, false, false, false, false, false, false, false, false, false, false, false, false, false, false, false, false, false, false, false, false, false, false, false, false, false, false, false, false, false, false, false, false, false, false, false],
    [false, false, false, false, false, false, true, false, false, false, false, false, false, false, false, false, false, false, false, false, false, false, false, false, false, false, false, false, false, false, false, false, false, false, false, false, false, false, false, false, false, false, false, false, false],
    [false, false, false, false, false, false, true, false, false, false, false, false, false, false, false, false, false, false, false, false, false, false, false, false, false, false, false, false, false, false, false, false, false, false, false, false, false, false, false, false, false, false, false, false, false],
    [false, false, false, false, false, false, true, false, false, false, false, false, false, false, false, false, false, false, false, false, false, false, false, false, false, false, false, false, false, false, false, false, false, false, false, false, false, false, false, false, false, false, false, false, false],
    [false, false, false, false, false, false, true, false, false, false, false, false, false, false, false, false, false, false, false, false, false, false, false, false, false, false, false, false, false, false, false, false, false, false, false, false, false, false, false, false, false, false, false, false, false],
    [false, false, false, false, false, false, true, false, false, false, false, false, false, false, false, false, false, false, false, false, false, false, false, false, false, false, false, false, false, false, false, false, false, false, false, false, false, false, false, false, false, false, false, false, false],
    [false, false, false, false, false, false, true, false, false, false, false, false, false, false, false, false, false, false, false, false, false, false, false, false, false, false, false, false, false, false, false, false, false, false, false, false, false, false, false, false, false, false, false, false, false],
    [false, false, false, false, false, false, true, false, false, false, false, false, false, false, false, false, false, false, false, false, false, false, false, false, false, false, false, false, false, false, false, false, false, false, false, false, false, false, false, false, false, false, false, false, false],
    [false, false, false, false, false, false, true, false, false, false, false, false, false, false, false, false, false, false, false, false, false, false, false, false, false, false, false, false, false, false, false, false, false, false, false, false, false, false, false, false, false, false, false, false, false],
    [false, false, false, false, false, false, true, false, false, false, false, false, false, false, false, false, false, false, false, false, true, true, true, true, true, false, false, false, false, false, false, false, false, false, false, false, true, true, true, true, true, false, false, false, false],
    [false, false, false, false, false, false, true, false, false, false, false, false, false, false, false, false, false, false, false, false, true, true, true, true, true, false, false, false, false, false, false, false, false, false, false, false, true, true, true, true, true, false, false, false, false],
    [false, false, false, false, false, false, true, false, false, false, false, false, false, false, false, false, false, false, false, false, true, true, true, true, true, false, false, false, false, false, false, false, false, false, false, false, true, true, true, true, true, false, false, false, false],
    [false, false, false, false, false, false, true, false, false, false, false, false, false, false, false, false, false, false, false, false, true, true, true, true, true, false, false, false, false, false, false, false, false, false, false, false, true, true, true, true, true, false, false, false, false],
    [false, false, false, false, false, false, true, false, false, false, false, false, false, false, false, false, false, false, false, false, true, true, true, true, true, false, false, false, false, false, false, false, false, false, false, false, true, true, true, true, true, false, false, false, false],
    [false, false, false, false, false, false, true, false, false, false, false, false, false, false, false, false, false, false, false, false, false, false, false, false, false, false, false, false, false, false, false, false, false, false, false, false, false, false, false, false, false, false, false, false, false],
    [false, false, false, false, false, false, true, false, false, false, false, false, false, false, false, false, false, false, false, false, false, false, false, false, false, false, false, false, false, false, false, false, false, false, false, false, false, false, false, false, false, false, false, false, false],
    [false, false, false, false, false, false, true, false, false, false, false, false, false, false, false, false, false, false, false, false, false, false, false, false, false, false, false, false, false, false, false, false, false, false, false, false, false, false, false, false, false, false, false, false, false],
    [false, false, false, false, false, false, true, false, false, false, false, false, false, false, false, false, false, false, false, false, false, false, false, false, false, false, false, false, false, false, false, false, false, false, false, false, false, false, false, false, false, false, false, false, false],
    [false, false, false, false, false, false, true, false, false, false, false, false, false, false, false, false, false, false, false, false, false, false, false, false, false, false, false, false, false, false, false, false, false, false, false, false, false, false, false, false, false, false, false, false, false],
    [false, false, false, false, false, false, true, false, false, false, false, false, false, false, false, false, false, false, false, false, false, false, false, false, false, false, false, false, false, false, false, false, false, false, false, false, false, false, false, false, false, false, false, false, false],
    [false, false, false, false, false, false, true, false, false, false, false, false, false, false, false, false, false, false, false, false, false, false, false, false, false, false, false, false, false, false, false, false, false, false, false, false, false, false, false, false, false, false, false, false, false],
    [false, false, false, false, false, false, true, false, false, false, false, false, false, false, false, false, false, false, false, false, false, false, false, false, false, false, false, false, false, false, false, false, false, false, false, false, false, false, false, false, false, false, false, false, false],
    [false, false, false, false, false, false, true, false, false, false, false, false, false, false, false, false, false, false, false, false, false, false, false, false, false, false, false, false, false, false, false, false, false, false, false, false, false, false, false, false, false, false, false, false, false],
    [false, false, false, false, false, false, true, false, false, false, false, false, false, false, false, false, false, false, false, false, false, false, false, false, false, false, false, false, false, false, false, false, false, false, false, false, false, false, false, false, false, false, false, false, false],
    [false, false, false, false, false, false, true, false, false, false, false, false, false, false, false, false, false, false, false, false, false, false, false, false, false, false, false, false, false, false, false, false, false, false, false, false, false, false, false, false, false, false, false, false, false],
    [false, false, false, false, false, false, true, false, false, false, false, false, false, false, false, false, false, false, false, false, true, true, true, true, true, false, false, false, false, false, false, false, false, false, false, false, true, true, true, true, true, false, false, false, false],
    [true, true, true, true, true, true, true, false, true, false, false, false, false, false, false, false, false, false, false, false, true, true, true, true, true, false, false, false, false, false, false, false, false, false, false, false, true, true, true, true, true, false, false, false, false],
    [true, true, true, true, true, true, true, true, true, false, false, false, false, false, false, false, false, false, false, false, true, true, true, true, true, false, false, false, false, false, false, false, false, false, false, false, true, true, true, true, true, false, false, false, false],
    [true, true, true, true, true, true, true, true, true, false, false, false, false, false, false, false, false, false, false, false, true, true, true, true, true, false, false, false, false, false, false, false, false, false, false, false, true, true, true, true, true, false, false, false, false],
    [true, true, true, true, true, true, true, true, true, false, false, false, false, false, false, false, false, false, false, false, true, true, true, true, true, false, false, false, false, false, false, false, false, false, false, false, true, true, true, true, true, false, false, false, false],
    [true, true, true, true, true, true, true, true, true, false, false, false, false, false, false, false, false, false, false, false, false, false, false, false, false, false, false, false, false, false, false, false, false, false, false, false, false, false, false, false, false, false, false, false, false],
    [true, true, true, true, true, true, true, true, true, false, false, false, false, false, false, false, false, false, false, false, false, false, false, false, false, false, false, false, false, false, false, false, false, false, false, false, false, false, false, false, false, false, false, false, false],
    [true, true, true, true, true, true, true, true, true, false, false, false, false, false, false, false, false, false, false, false, false, false, false, false, false, false, false, false, false, false, false, false, false, false, false, false, false, false, false, false, false, false, false, false, false],
    [true, true, true, true, true, true, true, true, true, false, false, false, false, false, false, false, false, false, false, false, false, false, false, false, false, false, false, false, false, false, false, false, false, false, false, false, false, false, false, false, false, false, false, false, false]]

/-- Version-7 modules after pass 1 of the all-ones data placement. -/
def mods7d1 : List (List Bool) :=
  [[true, true, true, true, true, true, true, false, false, false, false, false, false, false, false, false, false, false, false, false, false, false, false, false, false, false, false, false, false, false, false, false, false, false, false, false, false, false, true, true, true, true, true, true, true],
    [true, false, false, false, false, false, true, false, false, false, false, false, false, false, false, false, false, false, false, false, false, false, false, false, false, false, false, false, false, false, false, false, false, false, false, false, false, false, true, false, false, false, false, false, true],
    [true, false, true, true, true, false, true, false, false, false, false, false, false, false, false, false, false, false, false, false, false, false, false, false, false, false, false, false, false, false, false, false, false, false, false, false, false, false, true, false, true, true, true, false, true],
    [true, false, true, true, true, false, true, false, false, false, false, false, false, false, false, false, false, false, false, false, false, false, false, false, false, false, false, false, false, false, false, false, false, false, false, false, false, false, true, false, true, true, true, false, true],
    [true, false, true, true, true, false, true, false, false, false, false, false, false, false, false, false, false, false, false, false, false, false, false, false, false, false, false, false, false, false, false, false, false, false, false, false, false, false, true, false, true, true, true, false, true],
    [true, false, false, false, false, false, true, false, false, false, false, false, false, false, false, false, false, false, false, false, false, false, false, false, false, false, false, false, false, false, false, false, false, false, false, false, false, false, true, false, false, false, false, false, true],
    [true, true, true, true, true, true, true, false, true, false, true, false, true, false, true, false, true, false, true, false, true, false, true, false, true, false, true, false, true, false, true, false, true, false, true, false, true, false, true, true, true, true, true, true, true],
    [false, false, false, false, false, false, false, false, false, false, false, false, false, false, false, false, false, false, false, false, false, false, false, false, false, false, false, false, false, false, false, false, false, false, false, false, false, false, false, false, false, false, false, false, false],
    [false, false, false, false, false, false, true, false, false, false, false, false, false, false, false, false, false, false, false, false, false, false, false, false, false, false, false, false, false, false, false, false, false, false, false, false, false, true, false, false, false, false, false, false, false],
    [false, false, false, false, false, false, false, false, false, false, false, false, false, false, false, false, false, false, false, false, false, false, false, false, false, false, false, false, false, false, false, false, false, false, false, false, false, false, false, false, false, false, false, true, true],
    [false, false, false, false, false, false, true, false, false, false, false, false, false, false, false, false, false, false, false, false, false, false, false, false, false, false, false, false, false, false, false, false, false, false, false, false, false, false, false, false, false, false, false, true, true],
    [false, false, false, false, false, false, false, false, false, false, false, false, false, false, false, false, false, false, false, false, false, false, false, false, false, false, false, false, false, false, false, false, false, false, false, false, false, false, false, false, false, false, false, true, true],
    [false, false, false, false, false, false, true, false, false, false, false, false, false, false, false, false, false, false, false, false, false, false, false, false, false, false, false, false, false, false, false, false, false, false, false, false, false, false, false, false, false, false, false, true, true],
    [false, false, false, false, false, false, false, false, false, false, false, false, false, false, false, false, false, false, false, false, false, false, false, false, false, false, false, false, false, false, false, false, false, false, false, false, false, false, false, false, false, false, false, true, true],
    [false, false, false, false, false, false, true, false, false, false, false, false, false, false, false, false, false, false, false, false, false, false, false, false, false, false, false, false, false, false, false, false, false, false, false, false, false, false, false, false, false, false, false, true, true],
    [false, false, false, false, false, false, false, false, false, false, false, false, false, false, false, false, false, false, false, false, false, false, false, false, false, false, false, false, false, false, false, false, false, false, false, false, false, false, false, false, false, false, false, true, true],
    [false, false, false, false, false, false, true, false, false, false, false, false, false, false, false, false, false, false, false, false, false, false, false, false, false, false, false, false, false, false, false, false, false, false, false, false, false, false, false, false, false, false, false, true, true],
    [false, false, false, false, false, false, false, false, false, false, false, false, false, false, false, false, false, false, false, false, false, false, false, false, false, false, false, false, false, false, false, false, false, false, false, false, false, false, false, false, false, false, false, true, true],
    [false, false, false, false, false, false, true, false, false, false, false, false, false, false, false, false, false, false, false, false, false, false, false, false, false, false, false, false, false, false, false, false, false, false, false, false, false, false, false, false, false, false, false, true, true],
    [false, false, false, false, false, false, false, false, false, false, false, false, false, false, false, false, false, false, false, false, false, false, false, false, false, false, false, false, false, false, false, false, false, false, false, false, false, false, false, false, false, false, false, true, true],
    [false, false, false, false, false, false, true, false, false, false, false, false, false, false, false, false, false, false, false, false, true, true, true, true, true, false, false, false, false, false, false, false, false, false, false, false, true, true, true, true, true, false, false, true, true],
    [false, false, false, false, false, false, false, false, false, false, false, false, false, false, false, false, false, false, false, false, true, false, false, false, true, false, false, false, false, false, false, false, false, false, false, false, true, false, false, false, true, false, false, true, true],
    [false, false, false, false, false, false, true, false, false, false, false, false, false, false, false, false, false, false, false, false, true, false, true, false, true, false, false, false, false, false, false, false, false, false, false, false, true, false, true, false, true, false, false, true, true],
    [false, false, false, false, false, false, false, false, false, false, false, false, false, false, false, false, false, false, false, false, true, false, false, false, true, false, false, false, false, false, false, false, false, false, false, false, true, false, false, false, true, false, false, true, true],
    [false, false, false, false, false, false, true, false, false, false, false, false, false, false, false, false, false, false, false, false, true, true, true, true, true, false, false, false, false, false, false, false, false, false, false, false, true, true, true, true, true, false, false, true, true],
    [false, false, false, false, false, false, false, false, false, false, false, false, false, false, false, false, false, false, false, false, false, false, false, false, false, false, false, false, false, false, false, false, false, false, false, false, false, false, false, false, false, false, false, true, true],
    [false, false, false, false, false, false, true, false, false, false, false, false, false, false, false, false, false, false, false, false, false, false, false, false, false, false, false, false, false, false, false, false, false, false, false, false, false, false, false, false, false, false, false, true, true],
    [false, false, false, false, false, false, false, false, false, false, false, false, false, false, false, false, false, false, false, false, false, false, false, false, false, false, false, false, false, false, false, false, false, false, false, false, false, false, false, false, false, false, false, true, true],
    [false, false, false, false, false, false, true, false, false, false, false, false, false, false, false, false, false, false, false, false, false, false, false, false, false, false, false, false, false, false, false, false, false, false, false, false, false, false, false, false, false, false, false, true, true],
    [false, false, false, false, false, false, false, false, false, false, false, false, false, false, false, false, false, false, false, false, false, false, false, false, false, false, false, false, false, false, false, false, false, false, false, false, false, false, false, false, false, false, false, true, true],
    [false, false, false, false, false, false, true, false, false, false, false, false, false, false, false, false, false, false, false, false, false, false, false, false, false, false, false, false, false, false, false, false, false, false, false, false, false, false, false, false, false, false, false, true, true],
    [false, false, false, false, false, false, false, false, false, false, false, false, false, false, false, false, false, false, false, false, false, false, false, false, false, false, false, false, false, false, false, false, false, false, false, false, false, false, false, false, false, false, false, true, true],
    [false, false, false, false, false, false, true, false, false, false, false, false, false, false, false, false, false, false, false, false, false, false, false, false, false, false, false, false, false, false, false, false, false, false, false, false, false, false, false, false, false, false, false, true, true],
    [false, false, false, false, false, false, false, false, false, false, false, false, false, false, false, false, false, false, false, false, false, false, false, false, false, false, false, false, false, false, false, false, false, false, false, false, false, false, false, false, false, false, false, true, true],
    [false, false, false, false, false, false, true, false, false, false, false, false, false, false, false, false, false, false, false, false, false, false, false, false, false, false, false, false, false, false, false, false, false, false, false, false, false, false, false, false, false, false, false, true, true],
    [false, false, false, false, false, false, false, false, false, false, false, false, false, false, false, false, false, false, false, false, false, false, false, false, false, false, false, false, false, false, false, false, false, false, false, false, false, false, false, false, false, false, false, true, true],
    [false, false, false, false, false, false, true, false, false, false, false, false, false, false, false, false, false, false, false, false, true, true, true, true, true, false, false, false, false, false, false, false, false, false, false, false, true, true, true, true, true, false, false, true, true],
    [false, false, false, false, false, false, false, false, false, false, false, false, false, false, false, false, false, false, false, false, true, false, false, false, true, false, false, false, false, false, false, false, false, false, false, false, true, false, false, false, true, false, false, true, true],
    [true, true, true, true, true, true, true, false, false, false, false, false, false, false, false, false, false, false, false, false, true, false, true, false, true, false, false, false, false, false, false, false, false, false, false, false, true, false, true, false, true, false, false, true, true],
    [true, false, false, false, false, false, true, false, false, false, false, false, false, false, false, false, false, false, false, false, true, false, false, false, true, false, false, false, false, false, false, false, false, false, false, false, true, false, false, false, true, false, false, true, true],
    [true, false, true, true, true, false, true, false, false, false, false, false, false, false, false, false, false, false, false, false, true, true, true, true, true, false, false, false, false, false, false, false, false, false, false, false, true, true, true, true, true, false, false, true, true],
    [true, false, true, true, true, false, true, false, false, false, false, false, false, false, false, false, false, false, false, false, false, false, false, false, false, false, false, false, false, false, false, false, false, false, false, false, false, false, false, false, false, false, false, true, true],
    [true, false, true, true, true, false, true, false, false, false, false, false, false, false, false, false, false, false, false, false, false, false, false, false, false, false, false, false, false, false, false, false, false, false, false, false, false, false, false, false, false, false, false, true, true],
    [true, false, false, false, false, false, true, false, false, false, false, false, false, false, false, false, false, false, false, false, false, false, false, false, false, false, false, false, false, false, false, false, false, false, false, false, false, false, false, false, false, false, false, true, true],
    [true, true, true, true, true, true, true, false, false, false, false, false, false, false, false, false, false, false, false, false, false, false, false, false, false, false, false, false, false, false, false, false, false, false, false, false, false, false, false, false, false, false, false, true, true]]

/-- Version-7 modules after pass 2 of the all-ones data placement. -/
def mods7d2 : List (List Bool) :=
  [[true, true, true, true, true, true, true, false, false, false, false, false, false, false, false, false, false, false, false, false, false, false, false, false, false, false, false, false, false, false, false, false, false, false, false, false, false, false, true, true, true, true, true, true, true],
    [true, false, false, false, false, false, true, false, false, false, false, false, false, false, false, false, false, false, false, false, false, false, false, false, false, false, false, false, false, false, false, false, false, false, false, false, false, false, true, false, false, false, false, false, true],
    [true, false, true, true, true, false, true, false, false, false, false, false, false, false, false, false, false, false, false, false, false, false, false, false, false, false, false, false, false, false, false, false, false, false, false, false, false, false, true, false, true, true, true, false, true],
    [true, false, true, true, true, false, true, false, false, false, false, false, false, false, false, false, false, false, false, false, false, false, false, false, false, false, false, false, false, false, false, false, false, false, false, false, false, false, true, false, true, true, true, false, true],
    [true, false, true, true, true, false, true, false, false, false, false, false, false, false, false, false, false, false, false, false, false, false, false, false, false, false, false, false, false, false, false, false, false, false, false, false, false, false, true, false, true, true, true, false, true],
    [true, false, false, false, false, false, true, false, false, false, false, false, false, false, false, false, false, false, false, false, false, false, false, false, false, false, false, false, false, false, false, false, false, false, false, false, false, false, true, false, false, false, false, false, true],
    [true, true, true, true, true, true, true, false, true, false, true, false, true, false, true, false, true, false, true, false, true, false, true, false, true, false, true, false, true, false, true, false, true, false, true, false, true, false, true, true, true, true, true, true, true],
    [false, false, false, false, false, false, false, false, false, false, false, false, false, false, false, false, false, false, false, false, false, false, false, false, false, false, false, false, false, false, false, false, false, false, false, false, false, false, false, false, false, false, false, false, false],
    [false, false, false, false, false, false, true, false, false, false, false, false, false, false, false, false, false, false, false, false, false, false, false, false, false, false, false, false, false, false, false, false, false, false, false, false, false, true, false, false, false, false, false, false, false],
    [false, false, false, false, false, false, false, false, false, false, false, false, false, false, false, false, false, false, false, false, false, false, false, false, false, false, false, false, false, false, false, false, false, false, false, false, false, false, false, false, false, true, true, true, true],
    [false, false, false, false, false, false, true, false, false, false, false, false, false, false, false, false, false, false, false, false, false, false, false, false, false, false, false, false, false, false, false, false, false, false, false, false, false, false, false, false, false, true, true, true, true],
    [false, false, false, false, false, false, false, false, false, false, false, false, false, false, false, false, false, false, false, false, false, false, false, false, false, false, false, false, false, false, false, false, false, false, false, false, false, false, false, false, false, true, true, true, true],
    [false, false, false, false, false, false, true, false, false, false, false, false, false, false, false, false, false, false, false, false, false, false, false, false, false, false, false, false, false, false, false, false, false, false, false, false, false, false, false, false, false, true, true, true, true],
    [false, false, false, false, false, false, false, false, false, false, false, false, false, false, false, false, false, false, false, false, false, false, false, false, false, false, false, false, false, false, false, false, false, false, false, false, false, false, false, false, false, true, true, true, true],
    [false, false, false, false, false, false, true, false, false, false, false, false, false, false, false, false, false, false, false, false, false, false, false, false, false, false, false, false, false, false, false, false, false, false, false, false, false, false, false, false, false, true, true, true, true],
    [false, false, false, false, false, false, false, false, false, false, false, false, false, false, false, false, false, false, false, false, false, false, false, false, false, false, false, false, false, false, false, false, false, false, false, false, false, false, false, false, false, true, true, true, true],
    [false, false, false, false, false, false, true, false, false, false, false, false, false, false, false, false, false, false, false, false, false, false, false, false, false, false, false, false, false, false, false, false, false, false, false, false, false, false, false, false, false, true, true, true, true],
    [false, false, false, false, false, false, false, false, false, false, false, false, false, false, false, false, false, false, false, false, false, false, false, false, false, false, false, false, false, false, false, false, false, false, false, false, false, false, false, false, false, true, true, true, true],
    [false, false, false, false, false, false, true, false, false, false, false, false, false, false, false, false, false, false, false, false, false, false, false, false, false, false, false, false, false, false, false, false, false, false, false, false, false, false, false, false, false, true, true, true, true],
    [false, false, false, false, false, false, false, false, false, false, false, false, false, false, false, false, false, false, false, false, false, false, false, false, false, false, false, false, false, false, false, false, false, false, false, false, false, false, false, false, false, true, true, true, true],
    [false, false, false, false, false, false, true, false, false, false, false, false, false, false, false, false, false, false, false, false, true, true, true, true, true, false, false, false, false, false, false, false, false, false, false, false, true, true, true, true, true, true, true, true, true],
    [false, false, false, false, false, false, false, false, false, false, false, false, false, false, false, false, false, false, false, false, true, false, false, false, true, false, false, false, false, false, false, false, false, false, false, false, true, false, false, false, true, true, true, true, true],
    [false, false, false, false, false, false, true, false, false, false, false, false, false, false, false, false, false, false, false, false, true, false, true, false, true, false, false, false, false, false, false, false, false, false, false, false, true, false, true, false, true, true, true, true, true],
    [false, false, false, false, false, false, false, false, false, false, false, false, false, false, false, false, false, false, false, false, true, false, false, false, true, false, false, false, false, false, false, false, false, false, false, false, true, false, false, false, true, true, true, true, true],
    [false, false, false, false, false, false, true, false, false, false, false, false, false, false, false, false, false, false, false, false, true, true, true, true, true, false, false, false, false, false, false, false, false, false, false, false, true, true, true, true, true, true, true, true, true],
    [false, false, false, false, false, false, false, false, false, false, false, false, false, false, false, false, false, false, false, false, false, false, false, false, false, false, false, false, false, false, false, false, false, false, false, false, false, false, false, false, false, true, true, true, true],
    [false, false, false, false, false, false, true, false, false, false, false, false, false, false, false, false, false, false, false, false, false, false, false, false, false, false, false, false, false, false, false, false, false, false, false, false, false, false, false, false, false, true, true, true, true],
    [false, false, false, false, false, false, false, false, false, false, false, false, false, false, false, false, false, false, false, false, false, false, false, false, false, false, false, false, false, false, false, false, false, false, false, false, false, false, false, false, false, true, true, true, true],
    [false, false, false, false, false, false, true, false, false, false, false, false, false, false, false, false, false, false, false, false, false, false, false, false, false, false, false, false, false, false, false, false, false, false, false, false, false, false, false, false, false, true, true, true, true],
    [false, false, false, false, false, false, false, false, false, false, false, false, false, false, false, false, false, false, false, false, false, false, false, false, false, false, false, false, false, false, false, false, false, false, false, false, false, false, false, false, false, true, true, true, true],
    [false, false, false, false, false, false, true, false, false, false, false, false, false, false, false, false, false, false, false, false, false, false, false, false, false, false, false, false, false, false, false, false, false, false, false, false, false, false, false, false, false, true, true, true, true],
    [false, false, false, false, false, false, false, false, false, false, false, false, false, false, false, false, false, false, false, false, false, false, false, false, false, false, false, false, false, false, false, false, false, false, false, false, false, false, false, false, false, true, true, true, true],
    [false, false, false, false, false, false, true, false, false, false, false, false, false, false, false, false, false, false, false, false, false, false, false, false, false, false, false, false, false, false, false, false, false, false, false, false, false, false, false, false, false, true, true, true, true],
    [false, false, false, false, false, false, false, false, false, false, false, false, false, false, false, false, false, false, false, false, false, false, false, false, false, false, false, false, false, false, false, false, false, false, false, false, false, false, false, false, false, true, true, true, true],
    [false, false, false, false, false, false, true, false, false, false, false, false, false, false, false, false, false, false, false, false, false, false, false, false, false, false, false, false, false, false, false, false, false, false, false, false, false, false, false, false, false, true, true, true, true],
    [false, false, false, false, false, false, false, false, false, false, false, false, false, false, false, false, false, false, false, false, false, false, false, false, false, false, false, false, false, false, false, false, false, false, false, false, false, false, false, false, false, true, true, true, true],
    [false, false, false, false, false, false, true, false, false, false, false, false, false, false, false, false, false, false, false, false, true, true, true, true, true, false, false, false, false, false, false, false, false, false, false, false, true, true, true, true, true, true, true, true, true],
    [false, false, false, false, false, false, false, false, false, false, false, false, false, false, false, false, false, false, false, false, true, false, false, false, true, false, false, false, false, false, false, false, false, false, false, false, true, false, false, false, true, true, true, true, true],
    [true, true, true, true, true, true, true, false, false, false, false, false, false, false, false, false, false, false, false, false, true, false, true, false, true, false, false, false, false, false, false, false, false, false, false, false, true, false, true, false, true, true, true, true, true],
    [true, false, false, false, false, false, true, false, false, false, false, false, false, false, false, false, false, false, false, false, true, false, false, false, true, false, false, false, false, false, false, false, false, false, false, false, true, false, false, false, true, true, true, true, true],
    [true, false, true, true, true, false, true, false, false, false, false, false, false, false, false, false, false, false, false, false, true, true, true, true, true, false, false, false, false, false, false, false, false, false, false, false, true, true, true, true, true, true, true, true, true],
    [true, false, true, true, true, false, true, false, false, false, false, false, false, false, false, false, false, false, false, false, false, false, false, false, false, false, false, false, false, false, false, false, false, false, false, false, false, false, false, false, false, true, true, true, true],
    [true, false, true, true, true, false, true, false, false, false, false, false, false, false, false, false, false, false, false, false, false, false, false, false, false, false, false, false, false, false, false, false, false, false, false, false, false, false, false, false, false, true, true, true, true],
    [true, false, false, false, false, false, true, false, false, false, false, false, false, false, false, false, false, false, false, false, false, false, false, false, false, false, false, false, false, false, false, false, false, false, false, false, false, false, false, false, false, true, true, true, true],
    [true, true, true, true, true, true, true, false, false, false, false, false, false, false, false, false, false, false, false, false, false, false, false, false, false, false, false, false, false, false, false, false, false, false, false, false, false, false, false, false, false, true, true, true, true]]

/-- Version-7 modules after pass 3 of the all-ones data placement. -/
def mods7d3 : List (List Bool) :=
  [[true, true, true, true, true, true, true, false, false, false, false, false, false, false, false, false, false, false, false, false, false, false, false, false, false, false, false, false, false, false, false, false, false, false, false, false, false, false, true, true, true, true, true, true, true],
    [true, false, false, false, false, false, true, false, false, false, false, false, false, false, false, false, false, false, false, false, false, false, false, false, false, false, false, false, false, false, false, false, false, false, false, false, false, false, true, false, false, false, false, false, true],
    [true, false, true, true, true, false, true, false, false, false, false, false, false, false, false, false, false, false, false, false, false, false, false, false, false, false, false, false, false, false, false, false, false, false, false, false, false, false, true, false, true, true, true, false, true],
    [true, false, true, true, true, false, true, false, false, false, false, false, false, false, false, false, false, false, false, false, false, false, false, false, false, false, false, false, false, false, false, false, false, false, false, false, false, false, true, false, true, true, true, false, true],
    [true, false, true, true, true, false, true, false, false, false, false, false, false, false, false, false, false, false, false, false, false, false, false, false, false, false, false, false, false, false, false, false, false, false, false, false, false, false, true, false, true, true, true, false, true],
    [true, false, false, false, false, false, true, false, false, false, false, false, false, false, false, false, false, false, false, false, false, false, false, false, false, false, false, false, false, false, false, false, false, false, false, false, false, false, true, false, false, false, false, false, true],
    [true, true, true, true, true, true, true, false, true, false, true, false, true, false, true, false, true, false, true, false, true, false, true, false, true, false, true, false, true, false, true, false, true, false, true, false, true, false, true, true, true, true, true, true, true],
    [false, false, false, false, false, false, false, false, false, false, false, false, false, false, false, false, false, false, false, false, false, false, false, false, false, false, false, false, false, false, false, false, false, false, false, false, false, false, false, false, false, false, false, false, false],
    [false, false, false, false, false, false, true, false, false, false, false, false, false, false, false, false, false, false, false, false, false, false, false, false, false, false, false, false, false, false, false, false, false, false, false, false, false, true, false, false, false, false, false, false, false],
    [false, false, false, false, false, false, false, false, false, false, false, false, false, false, false, false, false, false, false, false, false, false, false, false, false, false, false, false, false, false, false, false, false, false, false, false, false, false, false, true, true, true, true, true, true],
    [false, false, false, false, false, false, true, false, false, false, false, false, false, false, false, false, false, false, false, false, false, false, false, false, false, false, false, false, false, false, false, false, false, false, false, false, false, false, false, true, true, true, true, true, true],
    [false, false, false, false, false, false, false, false, false, false, false, false, false, false, false, false, false, false, false, false, false, false, false, false, false, false, false, false, false, false, false, false, false, false, false, false, false, false, false, true, true, true, true, true, true],
    [false, false, false, false, false, false, true, false, false, false, false, false, false, false, false, false, false, false, false, false, false, false, false, false, false, false, false, false, false, false, false, false, false, false, false, false, false, false, false, true, true, true, true, true, true],
    [false, false, false, false, false, false, false, false, false, false, false, false, false, false, false, false, false, false, false, false, false, false, false, false, false, false, false, false, false, false, false, false, false, false, false, false, false, false, false, true, true, true, true, true, true],
    [false, false, false, false, false, false, true, false, false, false, false, false, false, false, false, false, false, false, false, false, false, false, false, false, false, false, false, false, false, false, false, false, false, false, false, false, false, false, false, true, true, true, true, true, true],
    [false, false, false, false, false, false, false, false, false, false, false, false, false, false, false, false, false, false, false, false, false, false, false, false, false, false, false, false, false, false, false, false, false, false, false, false, false, false, false, true, true, true, true, true, true],
    [false, false, false, false, false, false, true, false, false, false, false, false, false, false, false, false, false, false, false, false, false, false, false, false, false, false, false, false, false, false, false, false, false, false, false, false, false, false, false, true, true, true, true, true, true],
    [false, false, false, false, false, false, false, false, false, false, false, false, false, false, false, false, false, false, false, false, false, false, false, false, false, false, false, false, false, false, false, false, false, false, false, false, false, false, false, true, true, true, true, true, true],
    [false, false, false, false, false, false, true, false, false, false, false, false, false, false, false, false, false, false, false, false, false, false, false, false, false, false, false, false, false, false, false, false, false, false, false, false, false, false, false, true, true, true, true, true, true],
    [false, false, false, false, false, false, false, false, false, false, false, false, false, false, false, false, false, false, false, false, false, false, false, false, false, false, false, false, false, false, false, false, false, false, false, false, false, false, false, true, true, true, true, true, true],
    [false, false, false, false, false, false, true, false, false, false, false, false, false, false, false, false, false, false, false, false, true, true, true, true, true, false, false, false, false, false, false, false, false, false, false, false, true, true, true, true, true, true, true, true, true],
    [false, false, false, false, false, false, false, false, false, false, false, false, false, false, false, false, false, false, false, false, true, false, false, false, true, false, false, false, false, false, false, false, false, false, false, false, true, false, false, false, true, true, true, true, true],
    [false, false, false, false, false, false, true, false, false, false, false, false, false, false, false, false, false, false, false, false, true, false, true, false, true, false, false, false, false, false, false, false, false, false, false, false, true, false, true, false, true, true, true, true, true],
    [false, false, false, false, false, false, false, false, false, false, false, false, false, false, false, false, false, false, false, false, true, false, false, false, true, false, false, false, false, false, false, false, false, false, false, false, true, false, false, false, true, true, true, true, true],
    [false, false, false, false, false, false, true, false, false, false, false, false, false, false, false, false, false, false, false, false, true, true, true, true, true, false, false, false, false, false, false, false, false, false, false, false, true, true, true, true, true, true, true, true, true],
    [false, false, false, false, false, false, false, false, false, false, false, false, false, false, false, false, false, false, false, false, false, false, false, false, false, false, false, false, false, false, false, false, false, false, false, false, false, false, false, true, true, true, true, true, true],
    [false, false, false, false, false, false, true, false, false, false, false, false, false, false, false, false, false, false, false, false, false, false, false, false, false, false, false, false, false, false, false, false, false, false, false, false, false, false, false, true, true, true, true, true, true],
    [false, false, false, false, false, false, false, false, false, false, false, false, false, false, false, false, false, false, false, false, false, false, false, false, false, false, false, false, false, false, false, false, false, false, false, false, false, false, false, true, true, true, true, true, true],
    [false, false, false, false, false, false, true, false, false, false, false, false, false, false, false, false, false, false, false, false, false, false, false, false, false, false, false, false, false, false, false, false, false, false, false, false, false, false, false, true, true, true, true, true, true],
    [false, false, false, false, false, false, false, false, false, false, false, false, false, false, false, false, false, false, false, false, false, false, false, false, false, false, false, false, false, false, false, false, false, false, false, false, false, false, false, true, true, true, true, true, true],
    [false, false, false, false, false, false, true, false, false, false, false, false, false, false, false, false, false, false, false, false, false, false, false, false, false, false, false, false, false, false, false, false, false, false, false, false, false, false, false, true, true, true, true, true, true],
    [false, false, false, false, false, false, false, false, false, false, false, false, false, false, false, false, false, false, false, false, false, false, false, false, false, false, false, false, false, false, false, false, false, false, false, false, false, false, false, true, true, true, true, true, true],
    [false, false, false, false, false, false, true, false, false, false, false, false, false, false, false, false, false, false, false, false, false, false, false, false, false, false, false, false, false, false, false, false, false, false, false, false, false, false, false, true, true, true, true, true, true],
    [false, false, false, false, false, false, false, false, false, false, false, false, false, false, false, false, false, false, false, false, false, false, false, false, false, false, false, false, false, false, false, false, false, false, false, false, false, false, false, true, true, true, true, true, true],
    [false, false, false, false, false, false, true, false, false, false, false, false, false, false, false, false, false, false, false, false, false, false, false, false, false, false, false, false, false, false, false, false, false, false, false, false, false, false, false, true, true, true, true, true, true],
    [false, false, false, false, false, false, false, false, false, false, false, false, false, false, false, false, false, false, false, false, false, false, false, false, false, false, false, false, false, false, false, false, false, false, false, false, false, false, false, true, true, true, true, true, true],
    [false, false, false, false, false, false, true, false, false, false, false, false, false, false, false, false, false, false, false, false, true, true, true, true, true, false, false, false, false, false, false, false, false, false, false, false, true, true, true, true, true, true, true, true, true],
    [false, false, false, false, false, false, false, false, false, false, false, false, false, false, false, false, false, false, false, false, true, false, false, false, true, false, false, false, false, false, false, false, false, false, false, false, true, false, false, false, true, true, true, true, true],
    [true, true, true, true, true, true, true, false, false, false, false, false, false, false, false, false, false, false, false, false, true, false, true, false, true, false, false, false, false, false, false, false, false, false, false, false, true, false, true, false, true, true, true, true, true],
    [true, false, false, false, false, false, true, false, false, false, false, false, false, false, false, false, false, false, false, false, true, false, false, false, true, false, false, false, false, false, false, false, false, false, false, false, true, false, false, false, true, true, true, true, true],
    [true, false, true, true, true, false, true, false, false, false, false, false, false, false, false, false, false, false, false, false, true, true, true, true, true, false, false, false, false, false, false, false, false, false, false, false, true, true, true, true, true, true, true, true, true],
    [true, false, true, true, true, false, true, false, false, false, false, false, false, false, false, false, false, false, false, false, false, false, false, false, false, false, false, false, false, false, false, false, false, false, false, false, false, false, false, true, true, true, true, true, true],
    [true, false, true, true, true, false, true, false, false, false, false, false, false, false, false, false, false, false, false, false, false, false, false, false, false, false, false, false, false, false, false, false, false, false, false, false, false, false, false, true, true, true, true, true, true],
    [true, false, false, false, false, false, true, false, false, false, false, false, false, false, false, false, false, false, false, false, false, false, false, false, false, false, false, false, false, false, false, false, false, false, false, false, false, false, false, true, true, true, true, true, true],
    [true, true, true, true, true, true, true, false, false, false, false, false, false, false, false, false, false, false, false, false, false, false, false, false, false, false, false, false, false, false, false, false, false, false, false, false, false, false, false, true, true, true, true, true, true]]

/-- Version-7 modules after pass 4 of the all-ones data placement. -/
def mods7d4 : List (List Bool) :=
  [[true, true, true, true, true, true, true, false, false, false, false, false, false, false, false, false, false, false, false, false, false, false, false, false, false, false, false, false, false, false, false, false, false, false, false, false, false, false, true, true, true, true, true, true, true],
    [true, false, false, false, false, false, true, false, false, false, false, false, false, false, false, false, false, false, false, false, false, false, false, false, false, false, false, false, false, false, false, false, false, false, false, false, false, false, true, false, false, false, false, false, true],
    [true, false, true, true, true, false, true, false, false, false, false, false, false, false, false, false, false, false, false, false, false, false, false, false, false, false, false, false, false, false, false, false, false, false, false, false, false, false, true, false, true, true, true, false, true],
    [true, false, true, true, true, false, true, false, false, false, false, false, false, false, false, false, false, false, false, false, false, false, false, false, false, false, false, false, false, false, false, false, false, false, false, false, false, false, true, false, true, true, true, false, true],
    [true, false, true, true, true, false, true, false, false, false, false, false, false, false, false, false, false, false, false, false, false, false, false, false, false, false, false, false, false, false, false, false, false, false, false, false, false, false, true, false, true, true, true, false, true],
    [true, false, false, false, false, false, true, false, false, false, false, false, false, false, false, false, false, false, false, false, false, false, false, false, false, false, false, false, false, false, false, false, false, false, false, false, false, false, true, false, false, false, false, false, true],
    [true, true, true, true, true, true, true, false, true, false, true, false, true, false, true, false, true, false, true, false, true, false, true, false, true, false, true, false, true, false, true, false, true, false, true, false, true, false, true, true, true, true, true, true, true],
    [false, false, false, false, false, false, false, false, false, false, false, false, false, false, false, false, false, false, false, false, false, false, false, false, false, false, false, false, false, false, false, false, false, false, false, false, false, true, false, false, false, false, false, false, false],
    [false, false, false, false, false, false, true, false, false, false, false, false, false, false, false, false, false, false, false, false, false, false, false, false, false, false, false, false, false, false, false, false, false, false, false, false, false, true, false, false, false, false, false, false, false],
    [false, false, false, false, false, false, false, false, false, false, false, false, false, false, false, false, false, false, false, false, false, false, false, false, false, false, false, false, false, false, false, false, false, false, false, false, false, true, true, true, true, true, true, true, true],
    [false, false, false, false, false, false, true, false, false, false, false, false, false, false, false, false, false, false, false, false, false, false, false, false, false, false, false, false, false, false, false, false, false, false, false, false, false, true, true, true, true, true, true, true, true],
    [false, false, false, false, false, false, false, false, false, false, false, false, false, false, false, false, false, false, false, false, false, false, false, false, false, false, false, false, false, false, false, false, false, false, false, false, false, true, true, true, true, true, true, true, true],
    [false, false, false, false, false, false, true, false, false, false, false, false, false, false, false, false, false, false, false, false, false, false, false, false, false, false, false, false, false, false, false, false, false, false, false, false, false, true, true, true, true, true, true, true, true],
    [false, false, false, false, false, false, false, false, false, false, false, false, false, false, false, false, false, false, false, false, false, false, false, false, false, false, false, false, false, false, false, false, false, false, false, false, false, true, true, true, true, true, true, true, true],
    [false, false, false, false, false, false, true, false, false, false, false, false, false, false, false, false, false, false, false, false, false, false, false, false, false, false, false, false, false, false, false, false, false, false, false, false, false, true, true, true, true, true, true, true, true],
    [false, false, false, false, false, false, false, false, false, false, false, false, false, false, false, false, false, false, false, false, false, false, false, false, false, false, false, false, false, false, false, false, false, false, false, false, false, true, true, true, true, true, true, true, true],
    [false, false, false, false, false, false, true, false, false, false, false, false, false, false, false, false, false, false, false, false, false, false, false, false, false, false, false, false, false, false, false, false, false, false, false, false, false, true, true, true, true, true, true, true, true],
    [false, false, false, false, false, false, false, false, false, false, false, false, false, false, false, false, false, false, false, false, false, false, false, false, false, false, false, false, false, false, false, false, false, false, false, false, false, true, true, true, true, true, true, true, true],
    [false, false, false, false, false, false, true, false, false, false, false, false, false, false, false, false, false, false, false, false, false, false, false, false, false, false, false, false, false, false, false, false, false, false, false, false, false, true, true, true, true, true, true, true, true],
    [false, false, false, false, false, false, false, false, false, false, false, false, false, false, false, false, false, false, false, false, false, false, false, false, false, false, false, false, false, false, false, false, false, false, false, false, false, true, true, true, true, true, true, true, true],
    [false, false, false, false, false, false, true, false, false, false, false, false, false, false, false, false, false, false, false, false, true, true, true, true, true, false, false, false, false, false, false, false, false, false, false, false, true, true, true, true, true, true, true, true, true],
    [false, false, false, false, false, false, false, false, false, false, false, false, false, false, false, false, false, false, false, false, true, false, false, false, true, false, false, false, false, false, false, false, false, false, false, false, true, false, false, false, true, true, true, true, true],
    [false, false, false, false, false, false, true, false, false, false, false, false, false, false, false, false, false, false, false, false, true, false, true, false, true, false, false, false, false, false, false, false, false, false, false, false, true, false, true, false, true, true, true, true, true],
    [false, false, false, false, false, false, false, false, false, false, false, false, false, false, false, false, false, false, false, false, true, false, false, false, true, false, false, false, false, false, false, false, false, false, false, false, true, false, false, false, true, true, true, true, true],
    [false, false, false, false, false, false, true, false, false, false, false, false, false, false, false, false, false, false, false, false, true, true, true, true, true, false, false, false, false, false, false, false, false, false, false, false, true, true, true, true, true, true, true, true, true],
    [false, false, false, false, false, false, false, false, false, false, false, false, false, false, false, false, false, false, false, false, false, false, false, false, false, false, false, false, false, false, false, false, false, false, false, false, false, true, true, true, true, true, true, true, true],
    [false, false, false, false, false, false, true, false, false, false, false, false, false, false, false, false, false, false, false, false, false, false, false, false, false, false, false, false, false, false, false, false, false, false, false, false, false, true, true, true, true, true, true, true, true],
    [false, false, false, false, false, false, false, false, false, false, false, false, false, false, false, false, false, false, false, false, false, false, false, false, false, false, false, false, false, false, false, false, false, false, false, false, false, true, true, true, true, true, true, true, true],
    [false, false, false, false, false, false, true, false, false, false, false, false, false, false, false, false, false, false, false, false, false, false, false, false, false, false, false, false, false, false, false, false, false, false, false, false, false, true, true, true, true, true, true, true, true],
    [false, false, false, false, false, false, false, false, false, false, false, false, false, false, false, false, false, false, false, false, false, false, false, false, false, false, false, false, false, false, false, false, false, false, false, false, false, true, true, true, true, true, true, true, true],
    [false, false, false, false, false, false, true, false, false, false, false, false, false, false, false, false, false, false, false, false, false, false, false, false, false, false, false, false, false, false, false, false, false, false, false, false, false, true, true, true, true, true, true, true, true],
    [false, false, false, false, false, false, false, false, false, false, false, false, false, false, false, false, false, false, false, false, false, false, false, false, false, false, false, false, false, false, false, false, false, false, false, false, false, true, true, true, true, true, true, true, true],
    [false, false, false, false, false, false, true, false, false, false, false, false, false, false, false, false, false, false, false, false, false, false, false, false, false, false, false, false, false, false, false, false, false, false, false, false, false, true, true, true, true, true, true, true, true],
    [false, false, false, false, false, false, false, false, false, false, false, false, false, false, false, false, false, false, false, false, false, false, false, false, false, false, false, false, false, false, false, false, false, false, false, false, false, true, true, true, true, true, true, true, true],
    [false, false, false, false, false, false, true, false, false, false, false, false, false, false, false, false, false, false, false, false, false, false, false, false, false, false, false, false, false, false, false, false, false, false, false, false, false, true, true, true, true, true, true, true, true],
    [false, false, false, false, false, false, false, false, false, false, false, false, false, false, false, false, false, false, false, false, false, false, false, false, false, false, false, false, false, false, false, false, false, false, false, false, false, true, true, true, true, true, true, true, true],
    [false, false, false, false, false, false, true, false, false, false, false, false, false, false, false, false, false, false, false, false, true, true, true, true, true, false, false, false, false, false, false, false, false, false, false, false, true, true, true, true, true, true, true, true, true],
    [false, false, false, false, false, false, false, false, false, false, false, false, false, false, false, false, false, false, false, false, true, false, false, false, true, false, false, false, false, false, false, false, false, false, false, false, true, false, false, false, true, true, true, true, true],
    [true, true, true, true, true, true, true, false, false, false, false, false, false, false, false, false, false, false, false, false, true, false, true, false, true, false, false, false, false, false, false, false, false, false, false, false, true, false, true, false, true, true, true, true, true],
    [true, false, false, false, false, false, true, false, false, false, false, false, false, false, false, false, false, false, false, false, true, false, false, false, true, false, false, false, false, false, false, false, false, false, false, false, true, false, false, false, true, true, true, true, true],
    [true, false, true, true, true, false, true, false, false, false, false, false, false, false, false, false, false, false, false, false, true, true, true, true, true, false, false, false, false, false, false, false, false, false, false, false, true, true, true, true, true, true, true, true, true],
    [true, false, true, true, true, false, true, false, false, false, false, false, false, false, false, false, false, false, false, false, false, false, false, false, false, false, false, false, false, false, false, false, false, false, false, false, false, true, true, true, true, true, true, true, true],
    [true, false, true, true, true, false, true, false, false, false, false, false, false, false, false, false, false, false, false, false, false, false, false, false, false, false, false, false, false, false, false, false, false, false, false, false, false, true, true, true, true, true, true, true, true],
    [true, false, false, false, false, false, true, false, false, false, false, false, false, false, false, false, false, false, false, false, false, false, false, false, false, false, false, false, false, false, false, false, false, false, false, false, false, true, true, true, true, true, true, true, true],
    [true, true, true, true, true, true, true, false, false, false, false, false, false, false, false, false, false, false, false, false, false, false, false, false, false, false, false, false, false, false, false, false, false, false, false, false, false, true, true, true, true, true, true, true, true]]

/-- Version-7 modules after pass 5 of the all-ones data placement. -/
def mods7d5 : List (List Bool) :=
  [[true, true, true, true, true, true, true, false, false, false, false, false, false, false, false, false, false, false, false, false, false, false, false, false, false, false, false, false, false, false, false, false, false, false, false, true, true, false, true, true, true, true, true, true, true],
    [true, false, false, false, false, false, true, false, false, false, false, false, false, false, false, false, false, false, false, false, false, false, false, false, false, false, false, false, false, false, false, false, false, false, false, true, true, false, true, false, false, false, false, false, true],
    [true, false, true, true, true, false, true, false, false, false, false, false, false, false, false, false, false, false, false, false, false, false, false, false, false, false, false, false, false, false, false, false, false, false, false, true, true, false, true, false, true, true, true, false, true],
    [true, false, true, true, true, false, true, false, false, false, false, false, false, false, false, false, false, false, false, false, false, false, false, false, false, false, false, false, false, false, false, false, false, false, false, true, true, false, true, false, true, true, true, false, true],
    [true, false, true, true, true, false, true, false, false, false, false, false, false, false, false, false, false, false, false, false, false, false, false, false, false, false, false, false, false, false, false, false, false, false, false, true, true, false, true, false, true, true, true, false, true],
    [true, false, false, false, false, false, true, false, false, false, false, false, false, false, false, false, false, false, false, false, false, false, false, false, false, false, false, false, false, false, false, false, false, false, false, true, true, false, true, false, false, false, false, false, true],
    [true, true, true, true, true, true, true, false, true, false, true, false, true, false, true, false, true, false, true, false, true, false, true, false, true, false, true, false, true, false, true, false, true, false, true, false, true, false, true, true, true, true, true, true, true],
    [false, false, false, false, false, false, false, false, false, false, false, false, false, false, false, false, false, false, false, false, false, false, false, false, false, false, false, false, false, false, false, false, false, false, false, true, true, true, false, false, false, false, false, false, false],
    [false, false, false, false, false, false, true, false, false, false, false, false, false, false, false, false, false, false, false, false, false, false, false, false, false, false, false, false, false, false, false, false, false, false, false, true, true, true, false, false, false, false, false, false, false],
    [false, false, false, false, false, false, false, false, false, false, false, false, false, false, false, false, false, false, false, false, false, false, false, false, false, false, false, false, false, false, false, false, false, false, false, true, true, true, true, true, true, true, true, true, true],
    [false, false, false, false, false, false, true, false, false, false, false, false, false, false, false, false, false, false, false, false, false, false, false, false, false, false, false, false, false, false, false, false, false, false, false, true, true, true, true, true, true, true, true, true, true],
    [false, false, false, false, false, false, false, false, false, false, false, false, false, false, false, false, false, false, false, false, false, false, false, false, false, false, false, false, false, false, false, false, false, false, false, true, true, true, true, true, true, true, true, true, true],
    [false, false, false, false, false, false, true, false, false, false, false, false, false, false, false, false, false, false, false, false, false, false, false, false, false, false, false, false, false, false, false, false, false, false, false, true, true, true, true, true, true, true, true, true, true],
    [false, false, false, false, false, false, false, false, false, false, false, false, false, false, false, false, false, false, false, false, false, false, false, false, false, false, false, false, false, false, false, false, false, false, false, true, true, true, true, true, true, true, true, true, true],
    [false, false, false, false, false, false, true, false, false, false, false, false, false, false, false, false, false, false, false, false, false, false, false, false, false, false, false, false, false, false, false, false, false, false, false, true, true, true, true, true, true, true, true, true, true],
    [false, false, false, false, false, false, false, false, false, false, false, false, false, false, false, false, false, false, false, false, false, false, false, false, false, false, false, false, false, false, false, false, false, false, false, true, true, true, true, true, true, true, true, true, true],
    [false, false, false, false, false, false, true, false, false, false, false, false, false, false, false, false, false, false, false, false, false, false, false, false, false, false, false, false, false, false, false, false, false, false, false, true, true, true, true, true, true, true, true, true, true],
    [false, false, false, false, false, false, false, false, false, false, false, false, false, false, false, false, false, false, false, false, false, false, false, false, false, false, false, false, false, false, false, false, false, false, false, true, true, true, true, true, true, true, true, true, true],
    [false, false, false, false, false, false, true, false, false, false, false, false, false, false, false, false, false, false, false, false, false, false, false, false, false, false, false, false, false, false, false, false, false, false, false, true, true, true, true, true, true, true, true, true, true],
    [false, false, false, false, false, false, false, false, false, false, false, false, false, false, false, false, false, false, false, false, false, false, false, false, false, false, false, false, false, false, false, false, false, false, false, true, true, true, true, true, true, true, true, true, true],
    [false, false, false, false, false, false, true, false, false, false, false, false, false, false, false, false, false, false, false, false, true, true, true, true, true, false, false, false, false, false, false, false, false, false, false, true, true, true, true, true, true, true, true, true, true],
    [false, false, false, false, false, false, false, false, false, false, false, false, false, false, false, false, false, false, false, false, true, false, false, false, true, false, false, false, false, false, false, false, false, false, false, true, true, false, false, false, true, true, true, true, true],
    [false, false, false, false, false, false, true, false, false, false, false, false, false, false, false, false, false, false, false, false, true, false, true, false, true, false, false, false, false, false, false, false, false, false, false, true, true, false, true, false, true, true, true, true, true],
    [false, false, false, false, false, false, false, false, false, false, false, false, false, false, false, false, false, false, false, false, true, false, false, false, true, false, false, false, false, false, false, false, false, false, false, true, true, false, false, false, true, true, true, true, true],
    [false, false, false, false, false, false, true, false, false, false, false, false, false, false, false, false, false, false, false, false, true, true, true, true, true, false, false, false, false, false, false, false, false, false, false, true, true, true, true, true, true, true, true, true, true],
    [false, false, false, false, false, false, false, false, false, false, false, false, false, false, false, false, false, false, false, false, false, false, false, false, false, false, false, false, false, false, false, false, false, false, false, true, true, true, true, true, true, true, true, true, true],
    [false, false, false, false, false, false, true, false, false, false, false, false, false, false, false, false, false, false, false, false, false, false, false, false, false, false, false, false, false, false, false, false, false, false, false, true, true, true, true, true, true, true, true, true, true],
    [false, false, false, false, false, false, false, false, false, false, false, false, false, false, false, false, false, false, false, false, false, false, false, false, false, false, false, false, false, false, false, false, false, false, false, true, true, true, true, true, true, true, true, true, true],
    [false, false, false, false, false, false, true, false, false, false, false, false, false, false, false, false, false, false, false, false, false, false, false, false, false, false, false, false, false, false, false, false, false, false, false, true, true, true, true, true, true, true, true, true, true],
    [false, false, false, false, false, false, false, false, false, false, false, false, false, false, false, false, false, false, false, false, false, false, false, false, false, false, false, false, false, false, false, false, false, false, false, true, true, true, true, true, true, true, true, true, true],
    [false, false, false, false, false, false, true, false, false, false, false, false, false, false, false, false, false, false, false, false, false, false, false, false, false, false, false, false, false, false, false, false, false, false, false, true, true, true, true, true, true, true, true, true, true],
    [false, false, false, false, false, false, false, false, false, false, false, false, false, false, false, false, false, false, false, false, false, false, false, false, false, false, false, false, false, false, false, false, false, false, false, true, true, true, true, true, true, true, true, true, true],
    [false, false, false, false, false, false, true, false, false, false, false, false, false, false, false, false, false, false, false, false, false, false, false, false, false, false, false, false, false, false, false, false, false, false, false, true, true, true, true, true, true, true, true, true, true],
    [false, false, false, false, false, false, false, false, false, false, false, false, false, false, false, false, false, false, false, false, false, false, false, false, false, false, false, false, false, false, false, false, false, false, false, true, true, true, true, true, true, true, true, true, true],
    [false, false, false, false, false, false, true, false, false, false, false, false, false, false, false, false, false, false, false, false, false, false, false, false, false, false, false, false, false, false, false, false, false, false, false, true, true, true, true, true, true, true, true, true, true],
    [false, false, false, false, false, false, false, false, false, false, false, false, false, false, false, false, false, false, false, false, false, false, false, false, false, false, false, false, false, false, false, false, false, false, false, true, true, true, true, true, true, true, true, true, true],
    [false, false, false, false, false, false, true, false, false, false, false, false, false, false, false, false, false, false, false, false, true, true, true, true, true, false, false, false, false, false, false, false, false, false, false, true, true, true, true, true, true, true, true, true, true],
    [false, false, false, false, false, false, false, false, false, false, false, false, false, false, false, false, false, false, false, false, true, false, false, false, true, false, false, false, false, false, false, false, false, false, false, true, true, false, false, false, true, true, true, true, true],
    [true, true, true, true, true, true, true, false, false, false, false, false, false, false, false, false, false, false, false, false, true, false, true, false, true, false, false, false, false, false, false, false, false, false, false, true, true, false, true, false, true, true, true, true, true],
    [true, false, false, false, false, false, true, false, false, false, false, false, false, false, false, false, false, false, false, false, true, false, false, false, true, false, false, false, false, false, false, false, false, false, false, true, true, false, false, false, true, true, true, true, true],
    [true, false, true, true, true, false, true, false, false, false, false, false, false, false, false, false, false, false, false, false, true, true, true, true, true, false, false, false, false, false, false, false, false, false, false, true, true, true, true, true, true, true, true, true, true],
    [true, false, true, true, true, false, true, false, false, false, false, false, false, false, false, false, false, false, false, false, false, false, false, false, false, false, false, false, false, false, false, false, false, false, false, true, true, true, true, true, true, true, true, true, true],
    [true, false, true, true, true, false, true, false, false, false, false, false, false, false, false, false, false, false, false, false, false, false, false, false, false, false, false, false, false, false, false, false, false, false, false, true, true, true, true, true, true, true, true, true, true],
    [true, false, false, false, false, false, true, false, false, false, false, false, false, false, false, false, false, false, false, false, false, false, false, false, false, false, false, false, false, false, false, false, false, false, false, true, true, true, true, true, true, true, true, true, true],
    [true, true, true, true, true, true, true, false, false, false, false, false, false, false, false, false, false, false, false, false, false, false, false, false, false, false, false, false, false, false, false, false, false, false, false, true, true, true, true, true, true, true, true, true, true]]

/-- Version-7 modules after pass 6 of the all-ones data placement. -/
def mods7d6 : List (List Bool) :=
  [[true, true, true, true, true, true, true, false, false, false, false, false, false, false, false, false, false, false, false, false, false, false, false, false, false, false, false, false, false, false, false, false, false, true, true, true, true, false, true, true, true, true, true, true, true],
    [true, false, false, false, false, false, true, false, false, false, false, false, false, false, false, false, false, false, false, false, false, false, false, false, false, false, false, false, false, false, false, false, false, true, true, true, true, false, true, false, false, false, false, false, true],
    [true, false, true, true, true, false, true, false, false, false, false, false, false, false, false, false, false, false, false, false, false, false, false, false, false, false, false, false, false, false, false, false, false, true, true, true, true, false, true, false, true, true, true, false, true],
    [true, false, true, true, true, false, true, false, false, false, false, false, false, false, false, false, false, false, false, false, false, false, false, false, false, false, false, false, false, false, false, false, false, true, true, true, true, false, true, false, true, true, true, false, true],
    [true, false, true, true, true, false, true, false, false, false, false, false, false, false, false, false, false, false, false, false, false, false, false, false, false, false, false, false, false, false, false, false, false, true, true, true, true, false, true, false, true, true, true, false, true],
    [true, false, false, false, false, false, true, false, false, false, false, false, false, false, false, false, false, false, false, false, false, false, false, false, false, false, false, false, false, false, false, false, false, true, true, true, true, false, true, false, false, false, false, false, true],
    [true, true, true, true, true, true, true, false, true, false, true, false, true, false, true, false, true, false, true, false, true, false, true, false, true, false, true, false, true, false, true, false, true, false, true, false, true, false, true, true, true, true, true, true, true],
    [false, false, false, false, false, false, false, false, false, false, false, false, false, false, false, false, false, false, false, false, false, false, false, false, false, false, false, false, false, false, false, false, false, true, true, true, true, true, false, false, false, false, false, false, false],
    [false, false, false, false, false, false, true, false, false, false, false, false, false, false, false, false, false, false, false, false, false, false, false, false, false, false, false, false, false, false, false, false, false, true, true, true, true, true, false, false, false, false, false, false, false],
    [false, false, false, false, false, false, false, false, false, false, false, false, false, false, false, false, false, false, false, false, false, false, false, false, false, false, false, false, false, false, false, false, false, true, true, true, true, true, true, true, true, true, true, true, true],
    [false, false, false, false, false, false, true, false, false, false, false, false, false, false, false, false, false, false, false, false, false, false, false, false, false, false, false, false, false, false, false, false, false, true, true, true, true, true, true, true, true, true, true, true, true],
    [false, false, false, false, false, false, false, false, false, false, false, false, false, false, false, false, false, false, false, false, false, false, false, false, false, false, false, false, false, false, false, false, false, true, true, true, true, true, true, true, true, true, true, true, true],
    [false, false, false, false, false, false, true, false, false, false, false, false, false, false, false, false, false, false, false, false, false, false, false, false, false, false, false, false, false, false, false, false, false, true, true, true, true, true, true, true, true, true, true, true, true],
    [false, false, false, false, false, false, false, false, false, false, false, false, false, false, false, false, false, false, false, false, false, false, false, false, false, false, false, false, false, false, false, false, false, true, true, true, true, true, true, true, true, true, true, true, true],
    [false, false, false, false, false, false, true, false, false, false, false, false, false, false, false, false, false, false, false, false, false, false, false, false, false, false, false, false, false, false, false, false, false, true, true, true, true, true, true, true, true, true, true, true, true],
    [false, false, false, false, false, false, false, false, false, false, false, false, false, false, false, false, false, false, false, false, false, false, false, false, false, false, false, false, false, false, false, false, false, true, true, true, true, true, true, true, true, true, true, true, true],
    [false, false, false, false, false, false, true, false, false, false, false, false, false, false, false, false, false, false, false, false, false, false, false, false, false, false, false, false, false, false, false, false, false, true, true, true, true, true, true, true, true, true, true, true, true],
    [false, false, false, false, false, false, false, false, false, false, false, false, false, false, false, false, false, false, false, false, false, false, false, false, false, false, false, false, false, false, false, false, false, true, true, true, true, true, true, true, true, true, true, true, true],
    [false, false, false, false, false, false, true, false, false, false, false, false, false, false, false, false, false, false, false, false, false, false, false, false, false, false, false, false, false, false, false, false, false, true, true, true, true, true, true, true, true, true, true, true, true],
    [false, false, false, false, false, false, false, false, false, false, false, false, false, false, false, false, false, false, false, false, false, false, false, false, false, false, false, false, false, false, false, false, false, true, true, true, true, true, true, true, true, true, true, true, true],
    [false, false, false, false, false, false, true, false, false, false, false, false, false, false, false, false, false, false, false, false, true, true, true, true, true, false, false, false, false, false, false, false, false, true, true, true, true, true, true, true, true, true, true, true, true],
    [false, false, false, false, false, false, false, false, false, false, false, false, false, false, false, false, false, false, false, false, true, false, false, false, true, false, false, false, false, false, false, false, false, true, true, true, true, false, false, false, true, true, true, true, true],
    [false, false, false, false, false, false, true, false, false, false, false, false, false, false, false, false, false, false, false, false, true, false, true, false, true, false, false, false, false, false, false, false, false, true, true, true, true, false, true, false, true, true, true, true, true],
    [false, false, false, false, false, false, false, false, false, false, false, false, false, false, false, false, false, false, false, false, true, false, false, false, true, false, false, false, false, false, false, false, false, true, true, true, true, false, false, false, true, true, true, true, true],
    [false, false, false, false, false, false, true, false, false, false, false, false, false, false, false, false, false, false, false, false, true, true, true, true, true, false, false, false, false, false, false, false, false, true, true, true, true, true, true, true, true, true, true, true, true],
    [false, false, false, false, false, false, false, false, false, false, false, false, false, false, false, false, false, false, false, false, false, false, false, false, false, false, false, false, false, false, false, false, false, true, true, true, true, true, true, true, true, true, true, true, true],
    [false, false, false, false, false, false, true, false, false, false, false, false, false, false, false, false, false, false, false, false, false, false, false, false, false, false, false, false, false, false, false, false, false, true, true, true, true, true, true, true, true, true, true, true, true],
    [false, false, false, false, false, false, false, false, false, false, false, false, false, false, false, false, false, false, false, false, false, false, false, false, false, false, false, false, false, false, false, false, false, true, true, true, true, true, true, true, true, true, true, true, true],
    [false, false, false, false, false, false, true, false, false, false, false, false, false, false, false, false, false, false, false, false, false, false, false, false, false, false, false, false, false, false, false, false, false, true, true, true, true, true, true, true, true, true, true, true, true],
    [false, false, false, false, false, false, false, false, false, false, false, false, false, false, false, false, false, false, false, false, false, false, false, false, false, false, false, false, false, false, false, false, false, true, true, true, true, true, true, true, true, true, true, true, true],
    [false, false, false, false, false, false, true, false, false, false, false, false, false, false, false, false, false, false, false, false, false, false, false, false, false, false, false, false, false, false, false, false, false, true, true, true, true, true, true, true, true, true, true, true, true],
    [false, false, false, false, false, false, false, false, false, false, false, false, false, false, false, false, false, false, false, false, false, false, false, false, false, false, false, false, false, false, false, false, false, true, true, true, true, true, true, true, true, true, true, true, true],
    [false, false, false, false, false, false, true, false, false, false, false, false, false, false, false, false, false, false, false, false, false, false, false, false, false, false, false, false, false, false, false, false, false, true, true, true, true, true, true, true, true, true, true, true, true],
    [false, false, false, false, false, false, false, false, false, false, false, false, false, false, false, false, false, false, false, false, false, false, false, false, false, false, false, false, false, false, false, false, false, true, true, true, true, true, true, true, true, true, true, true, true],
    [false, false, false, false, false, false, true, false, false, false, false, false, false, false, false, false, false, false, false, false, false, false, false, false, false, false, false, false, false, false, false, false, false, true, true, true, true, true, true, true, true, true, true, true, true],
    [false, false, false, false, false, false, false, false, false, false, false, false, false, false, false, false, false, false, false, false, false, false, false, false, false, false, false, false, false, false, false, false, false, true, true, true, true, true, true, true, true, true, true, true, true],
    [false, false, false, false, false, false, true, false, false, false, false, false, false, false, false, false, false, false, false, false, true, true, true, true, true, false, false, false, false, false, false, false, false, true, true, true, true, true, true, true, true, true, true, true, true],
    [false, false, false, false, false, false, false, false, false, false, false, false, false, false, false, false, false, false, false, false, true, false, false, false, true, false, false, false, false, false, false, false, false, true, true, true, true, false, false, false, true, true, true, true, true],
    [true, true, true, true, true, true, true, false, false, false, false, false, false, false, false, false, false, false, false, false, true, false, true, false, true, false, false, false, false, false, false, false, false, true, true, true, true, false, true, false, true, true, true, true, true],
    [true, false, false, false, false, false, true, false, false, false, false, false, false, false, false, false, false, false, false, false, true, false, false, false, true, false, false, false, false, false, false, false, false, true, true, true, true, false, false, false, true, true, true, true, true],
    [true, false, true, true, true, false, true, false, false, false, false, false, false, false, false, false, false, false, false, false, true, true, true, true, true, false, false, false, false, false, false, false, false, true, true, true, true, true, true, true, true, true, true, true, true],
    [true, false, true, true, true, false, true, false, false, false, false, false, false, false, false, false, false, false, false, false, false, false, false, false, false, false, false, false, false, false, false, false, false, true, true, true, true, true, true, true, true, true, true, true, true],
    [true, false, true, true, true, false, true, false, false, false, false, false, false, false, false, false, false, false, false, false, false, false, false, false, false, false, false, false, false, false, false, false, false, true, true, true, true, true, true, true, true, true, true, true, true],
    [true, false, false, false, false, false, true, false, false, false, false, false, false, false, false, false, false, false, false, false, false, false, false, false, false, false, false, false, false, false, false, false, false, true, true, true, true, true, true, true, true, true, true, true, true],
    [true, true, true, true, true, true, true, false, false, false, false, false, false, false, false, false, false, false, false, false, false, false, false, false, false, false, false, false, false, false, false, false, false, true, true, true, true, true, true, true, true, true, true, true, true]]

/-- The fully built version-7 function-pattern grid (level L). -/
def qr7F : QrCode :=
  { modules := mods7f7, isFunction := fun7f7, version := 7, errorCorrection := .L, mask := 0 }

/-! ### GF(256) theory -/

namespace GF256

theorem EXP_eq_generated : EXP = generateExpTable := by rfl

theorem LOG_eq_generated : LOG = generateLogTable := by rfl

theorem expFast_eq : ∀ n, n < 256 → EXP.getD n 0 = expFast n := by decide

theorem logFast_eq : ∀ n, n < 256 → LOG.getD n 0 = logFast n := by decide

theorem exp_log_fast : ∀ a, a < 256 → a ≠ 0 → expFast (logFast a) = a := by decide

theorem log_exp_fast : ∀ i, i < 255 → logFast (expFast i) = i := by decide

theorem log_lt_fast : ∀ a, a < 256 → logFast a < 255 := by decide

theorem exp_bounds_fast : ∀ i, i < 255 → 0 < expFast i ∧ expFast i < 256 := by decide

theorem exp_step_fast : ∀ i, i < 254 → expFast (i + 1) = xtime (expFast i) := by decide

theorem exp_wrap_fast : xtime (expFast 254) = expFast 0 := by rfl

theorem exp_eq_fast (n : Nat) (h : n < 256) : exp n = expFast n :=
  expFast_eq n h

theorem mul_eq_mulFast (a b : Nat) (ha : a < 256) (hb : b < 256) :
    mul a b = mulFast a b := by
  unfold mul mulFast
  by_cases h : a = 0 ∨ b = 0
  · simp [h]
  · rw [if_neg h, if_neg h, logFast_eq a ha, logFast_eq b hb,
      expFast_eq _ (Nat.lt_of_lt_of_le (Nat.mod_lt _ (by omega)) (by omega))]

theorem mulFast_zero_right (a : Nat) : mulFast a 0 = 0 := by
  simp [mulFast]

theorem mulFast_zero_left (b : Nat) : mulFast 0 b = 0 := by
  simp [mulFast]

theorem mulFast_lt (a b : Nat) : mulFast a b < 256 := by
  unfold mulFast
  split
  · omega
  · exact (exp_bounds_fast _ (Nat.mod_lt _ (by omega))).2

theorem mulFast_ne_zero (a b : Nat) (ha : a ≠ 0) (hb : b ≠ 0) : mulFast a b ≠ 0 := by
  unfold mulFast
  rw [if_neg (by tauto)]
  have h := (exp_bounds_fast ((logFast a + logFast b) % 255) (Nat.mod_lt _ (by omega))).1
  omega

theorem mulFast_one_right (a : Nat) (ha : a < 256) : mulFast a 1 = a := by
  by_cases h0 : a = 0
  · subst h0; rfl
  · unfold mulFast
    rw [if_neg (by simp [h0])]
    show expFast ((logFast a + logFast 1) % 255) = a
    have h1 : logFast 1 = 0 := rfl
    rw [h1, Nat.add_zero, Nat.mod_eq_of_lt (log_lt_fast a ha)]
    exact exp_log_fast a ha h0

theorem mulFast_one_left (b : Nat) (hb : b < 256) : mulFast 1 b = b := by
  by_cases h0 : b = 0
  · subst h0; rfl
  · unfold mulFast
    rw [if_neg (by simp [h0])]
    show expFast ((logFast 1 + logFast b) % 255) = b
    have h1 : logFast 1 = 0 := rfl
    rw [h1, Nat.zero_add, Nat.mod_eq_of_lt (log_lt_fast b hb)]
    exact exp_log_fast b hb h0

theorem mulFast_exp_exp (i j : Nat) (hi : i < 255) (hj : j < 255) :
    mulFast (expFast i) (expFast j) = expFast ((i + j) % 255) := by
  obtain ⟨hi1, _⟩ := exp_bounds_fast i hi
  obtain ⟨hj1, _⟩ := exp_bounds_fast j hj
  unfold mulFast
  rw [if_neg (by omega), log_exp_fast i hi, log_exp_fast j hj]

theorem mulFast_assoc (a b c : Nat) (ha : a < 256) (hb : b < 256) (hc : c < 256) :
    mulFast (mulFast a b) c = mulFast a (mulFast b c) := by
  by_cases h0a : a = 0
  · subst h0a; simp [mulFast_zero_left]
  by_cases h0b : b = 0
  · subst h0b; simp [mulFast_zero_left, mulFast_zero_right]
  by_cases h0c : c = 0
  · subst h0c; simp [mulFast_zero_right]
  have hia := log_lt_fast a ha
  have hib := log_lt_fast b hb
  have hic := log_lt_fast c hc
  rw [← exp_log_fast a ha h0a, ← exp_log_fast b hb h0b, ← exp_log_fast c hc h0c,
    mulFast_exp_exp _ _ hia hib, mulFast_exp_exp _ _ hib hic,
    mulFast_exp_exp _ _ (Nat.mod_lt _ (by omega)) hic,
    mulFast_exp_exp _ _ hia (Nat.mod_lt _ (by omega))]
  congr 1
  omega

theorem mulFast_two (x : Nat) (hx : x < 256) : mulFast 2 x = xtime x := by
  by_cases h0 : x = 0
  · subst h0; rfl
  · unfold mulFast
    rw [if_neg (by simp [h0])]
    show expFast ((logFast 2 + logFast x) % 255) = xtime x
    have h2 : logFast 2 = 1 := rfl
    have hj := log_lt_fast x hx
    have hxj : expFast (logFast x) = x := exp_log_fast x hx h0
    rw [h2]
    by_cases htop : logFast x = 254
    · calc expFast ((1 + logFast x) % 255) = expFast 0 := by rw [htop]
      _ = xtime (expFast 254) := exp_wrap_fast.symm
      _ = xtime x := by rw [← htop, hxj]
    · have he : (1 + logFast x) % 255 = logFast x + 1 := by omega
      calc expFast ((1 + logFast x) % 255) = expFast (logFast x + 1) := by rw [he]
      _ = xtime (expFast (logFast x)) := exp_step_fast (logFast x) (by omega)
      _ = xtime x := by rw [hxj]

theorem xor_xor_cancel (x y g : Nat) : (x ^^^ g) ^^^ (y ^^^ g) = x ^^^ y := by
  rw [Nat.xor_comm y g, Nat.xor_assoc, ← Nat.xor_assoc g g y, Nat.xor_self, Nat.zero_xor]

theorem xor_right_comm (a b c : Nat) : (a ^^^ b) ^^^ c = (a ^^^ c) ^^^ b := by
  rw [Nat.xor_assoc, Nat.xor_comm b c, ← Nat.xor_assoc]

theorem xor_mul_two (x y : Nat) : (x ^^^ y) * 2 = x * 2 ^^^ y * 2 := by
  have h : ∀ z : Nat, z * 2 = z <<< 1 := fun z => by
    rw [Nat.shiftLeft_eq, pow_one]
  rw [h, h, h]
  apply Nat.eq_of_testBit_eq
  intro i
  simp only [Nat.testBit_shiftLeft, Nat.testBit_xor]
  cases decide (1 ≤ i) <;> simp

theorem testBit7_iff (v : Nat) (hv : v < 256) : v.testBit 7 = true ↔ 128 ≤ v := by
  rw [Nat.testBit_to_div_mod]
  have : (2 : Nat) ^ 7 = 128 := by norm_num
  rw [this]
  simp only [decide_eq_true_eq]
  omega

theorem testBit8_iff (v : Nat) (hv : v < 512) : v.testBit 8 = true ↔ 256 ≤ v := by
  rw [Nat.testBit_to_div_mod]
  have : (2 : Nat) ^ 8 = 256 := by norm_num
  rw [this]
  simp only [decide_eq_true_eq]
  omega

theorem lt_256_of_testBit8 (v : Nat) (hv : v < 512) (hb : v.testBit 8 = false) : v < 256 := by
  by_contra h
  rw [(testBit8_iff v hv).mpr (by omega)] at hb
  simp at hb

theorem xor_lt_256 (x y : Nat) (hx : x < 256) (hy : y < 256) : x ^^^ y < 256 := by
  have h : (256 : Nat) = 2 ^ 8 := by norm_num
  rw [h] at hx hy ⊢
  exact Nat.xor_lt_two_pow hx hy

theorem xtime_eq_arith (x : Nat) :
    xtime x = if 256 ≤ x * 2 then x * 2 ^^^ 0x11D else x * 2 := by
  unfold xtime
  have h : x <<< 1 = x * 2 := by rw [Nat.shiftLeft_eq, pow_one]
  simp only [h]

theorem xtime_lt (x : Nat) (hx : x < 256) : xtime x < 256 := by
  rw [xtime_eq_arith]
  split
  · next h =>
    have h2 : x * 2 < 512 := by omega
    have hres : x * 2 ^^^ 0x11D < 512 := by
      have h9 : (512 : Nat) = 2 ^ 9 := by norm_num
      rw [h9] at h2 ⊢
      exact Nat.xor_lt_two_pow h2 (by norm_num)
    apply lt_256_of_testBit8 _ hres
    rw [Nat.testBit_xor, (testBit8_iff (x * 2) h2).mpr h]
    rfl
  · omega

theorem xtime_linear (x y : Nat) (hx : x < 256) (hy : y < 256) :
    xtime (x ^^^ y) = xtime x ^^^ xtime y := by
  have hxy : x ^^^ y < 256 := xor_lt_256 x y hx hy
  have hbit : (x ^^^ y).testBit 7 = (x.testBit 7).xor (y.testBit 7) := Nat.testBit_xor x y 7
  have hx7 := testBit7_iff x hx
  have hy7 := testBit7_iff y hy
  have hxy7 := testBit7_iff (x ^^^ y) hxy
  rw [xtime_eq_arith, xtime_eq_arith, xtime_eq_arith]
  by_cases h1 : 128 ≤ x <;> by_cases h2 : 128 ≤ y
  · -- both high: x ^^^ y is low, both reductions cancel
    have hlow : ¬ 128 ≤ x ^^^ y := fun hc => by
      have h' := hxy7.mpr hc
      rw [hbit, hx7.mpr h1, hy7.mpr h2] at h'
      simp at h'
    rw [if_neg (by omega), if_pos (by omega), if_pos (by omega), xor_xor_cancel,
      xor_mul_two]
  · -- x high, y low
    have hyb : y.testBit 7 = false := by
      cases hcase : y.testBit 7
      · rfl
      · exact absurd (hy7.mp hcase) h2
    have hhigh : 128 ≤ x ^^^ y := hxy7.mp (by rw [hbit, hx7.mpr h1, hyb]; rfl)
    rw [if_pos (by omega), if_pos (by omega), if_neg (by omega), xor_mul_two,
      xor_right_comm]
  · -- x low, y high
    have hxb : x.testBit 7 = false := by
      cases hcase : x.testBit 7
      · rfl
      · exact absurd (hx7.mp hcase) h1
    have hhigh : 128 ≤ x ^^^ y := hxy7.mp (by rw [hbit, hxb, hy7.mpr h2]; rfl)
    rw [if_pos (by omega), if_neg (by omega), if_pos (by omega), xor_mul_two,
      Nat.xor_assoc]
  · -- both low
    have hxb : x.testBit 7 = false := by
      cases hcase : x.testBit 7
      · rfl
      · exact absurd (hx7.mp hcase) h1
    have hyb : y.testBit 7 = false := by
      cases hcase : y.testBit 7
      · rfl
      · exact absurd (hy7.mp hcase) h2
    have hlow : ¬ 128 ≤ x ^^^ y := fun hc => by
      have h' := hxy7.mpr hc
      rw [hbit, hxb, hyb] at h'
      simp at h'
    rw [if_neg (by omega), if_neg (by omega), if_neg (by omega), xor_mul_two]

theorem mulFast_step (i x : Nat) (hi : i + 1 < 255) (hx : x < 256) :
    mulFast (expFast (i + 1)) x = mulFast 2 (mulFast (expFast i) x) := by
  by_cases h0 : x = 0
  · subst h0; simp [mulFast_zero_right]
  obtain ⟨hi1, hi2⟩ := exp_bounds_fast i (by omega)
  have hj := log_lt_fast x hx
  rw [← exp_log_fast x hx h0, mulFast_exp_exp _ _ hi hj,
    mulFast_exp_exp _ _ (by omega) hj]
  have h2 : (2 : Nat) = expFast 1 := rfl
  rw [h2, mulFast_exp_exp _ _ (by omega) (Nat.mod_lt _ (by omega))]
  congr 1
  omega

theorem mulFast_additive : ∀ i, i < 255 → ∀ x y, x < 256 → y < 256 →
    mulFast (expFast i) (x ^^^ y) = mulFast (expFast i) x ^^^ mulFast (expFast i) y := by
  intro i
  induction i with
  | zero =>
    intro _ x y hx hy
    have h1 : expFast 0 = 1 := rfl
    rw [h1, mulFast_one_left _ (xor_lt_256 x y hx hy), mulFast_one_left x hx,
      mulFast_one_left y hy]
  | succ i ih =>
    intro hi x y hx hy
    have hi' : i < 255 := by omega
    rw [mulFast_step i _ hi (xor_lt_256 x y hx hy), mulFast_step i x hi hx,
      mulFast_step i y hi hy, ih hi' x y hx hy,
      mulFast_two _ (xor_lt_256 _ _ (mulFast_lt _ _) (mulFast_lt _ _)),
      mulFast_two _ (mulFast_lt _ _), mulFast_two _ (mulFast_lt _ _),
      xtime_linear _ _ (mulFast_lt _ _) (mulFast_lt _ _)]

theorem mulFast_distrib (a b c : Nat) (ha : a < 256) (hb : b < 256) (hc : c < 256) :
    mulFast a (b ^^^ c) = mulFast a b ^^^ mulFast a c := by
  by_cases h0 : a = 0
  · subst h0; simp [mulFast_zero_left]
  · rw [← exp_log_fast a ha h0]
    exact mulFast_additive (logFast a) (log_lt_fast a ha) b c hb hc

theorem mul_comm' (a b : Nat) : mul a b = mul b a := by
  unfold mul
  by_cases h : a = 0 ∨ b = 0
  · rw [if_pos h, if_pos h.symm]
  · rw [if_neg h, if_neg (fun hc => h hc.symm), Nat.add_comm]

theorem mul_zero_right (a : Nat) : mul a 0 = 0 := by
  simp [mul]

end GF256

/-! ### Grid lemmas -/

theorem setCell_length (g : List (List Bool)) (r c : Nat) (v : Bool) :
    (setCell g r c v).length = g.length := by
  induction g generalizing r with
  | nil => rfl
  | cons row rest ih =>
    cases r with
    | zero => simp [setCell]
    | succ m => simp [setCell, ih]

theorem setCell_get? (g : List (List Bool)) (r c : Nat) (v : Bool) (r' : Nat) :
    (setCell g r c v)[r']? =
      if r = r' then g[r']?.map (fun row => row.set c v) else g[r']? := by
  induction g generalizing r r' with
  | nil =>
    simp [setCell]
  | cons row rest ih =>
    cases r with
    | zero =>
      cases r' with
      | zero => simp [setCell]
      | succ n => simp [setCell]
    | succ m =>
      cases r' with
      | zero => simp [setCell]
      | succ n => simpa [setCell] using ih m n

theorem getCell_setCell_ne (g : List (List Bool)) (r c : Nat) (v : Bool) (r' c' : Nat)
    (h : r ≠ r' ∨ c ≠ c') :
    getCell (setCell g r c v) r' c' = getCell g r' c' := by
  unfold getCell
  rw [setCell_get?]
  by_cases hr : r = r'
  · subst hr
    have hc : c ≠ c' := h.resolve_left (by simp)
    rw [if_pos rfl]
    cases hrow : g[r]? with
    | none => rfl
    | some row => simp [List.getElem?_set_ne hc]
  · rw [if_neg hr]

theorem getCell_setCell_self (g : List (List Bool)) (r c : Nat) (v : Bool)
    (hr : r < g.length) (hc : c < (g.getD r []).length) :
    getCell (setCell g r c v) r c = some v := by
  unfold getCell
  rw [setCell_get?, if_pos rfl, List.getElem?_eq_getElem hr]
  have hcl : c < g[r].length := by
    rwa [List.getD_eq_getElem?_getD, List.getElem?_eq_getElem hr] at hc
  simp [List.getElem?_set_self hcl]

theorem mem_setCell (c : Nat) (v : Bool) (row' : List Bool) :
    ∀ (g : List (List Bool)) (r : Nat), row' ∈ setCell g r c v →
      row' ∈ g ∨ ∃ row ∈ g, row' = row.set c v := by
  intro g
  induction g with
  | nil => intro r h; simp [setCell] at h
  | cons row rest ih =>
    intro r h
    cases r with
    | zero =>
      rw [show setCell (row :: rest) 0 c v = row.set c v :: rest from rfl,
        List.mem_cons] at h
      rcases h with h | h
      · exact Or.inr ⟨row, List.mem_cons_self _ _, h⟩
      · exact Or.inl (List.mem_cons_of_mem _ h)
    | succ m =>
      rw [show setCell (row :: rest) (m + 1) c v = row :: setCell rest m c v from rfl,
        List.mem_cons] at h
      rcases h with h | h
      · exact Or.inl (by simp [h])
      · rcases ih m h with h' | ⟨row0, hm, he⟩
        · exact Or.inl (List.mem_cons_of_mem _ h')
        · exact Or.inr ⟨row0, List.mem_cons_of_mem _ hm, he⟩

theorem Shaped.setCell {n : Nat} {g : List (List Bool)} (h : Shaped n g) (r c : Nat) (v : Bool) :
    Shaped n (setCell g r c v) := by
  refine ⟨by rw [setCell_length]; exact h.1, ?_⟩
  intro row' hrow'
  rcases mem_setCell c v row' g r hrow' with hm | ⟨row, hm, he⟩
  · exact h.2 row' hm
  · rw [he, List.length_set]
    exact h.2 row hm

theorem Shaped.getD_length {n : Nat} {g : List (List Bool)} (h : Shaped n g) (r : Nat)
    (hr : r < n) : (g.getD r []).length = n := by
  have hr' : r < g.length := by rw [h.1]; exact hr
  rw [List.getD_eq_getElem?_getD, List.getElem?_eq_getElem hr']
  exact h.2 _ (List.getElem_mem hr')

theorem getCell_some {n : Nat} {g : List (List Bool)} (h : Shaped n g) (r c : Nat)
    (hr : r < n) (hc : c < n) : getCell g r c = some (getCellD g r c) := by
  have hr' : r < g.length := by rw [h.1]; exact hr
  unfold getCell getCellD
  rw [List.getD_eq_getElem?_getD g, List.getElem?_eq_getElem hr']
  have hcl : c < (g[r]).length := by
    rw [h.2 _ (List.getElem_mem hr')]; exact hc
  simp [List.getElem?_eq_getElem hcl, List.getD_eq_getElem?_getD]

theorem getCell_none {n : Nat} {g : List (List Bool)} (h : Shaped n g) (r c : Nat)
    (hout : n ≤ r ∨ n ≤ c) : getCell g r c = none := by
  unfold getCell
  rcases hout with hr | hc
  · rw [List.getElem?_eq_none (by rw [h.1]; exact hr)]
    rfl
  · by_cases hr : r < n
    · have hr' : r < g.length := by rw [h.1]; exact hr
      rw [List.getElem?_eq_getElem hr']
      have hl : (g[r]).length = n := h.2 _ (List.getElem_mem hr')
      show (g[r])[c]? = none
      exact List.getElem?_eq_none (by rw [hl]; exact hc)
    · rw [List.getElem?_eq_none (by rw [h.1]; omega)]
      rfl

theorem foldl_preserve {α β : Type} {P : α → Prop} (f : α → β → α) (l : List β) (init : α)
    (h0 : P init) (hstep : ∀ a b, P a → b ∈ l → P (f a b)) : P (l.foldl f init) :=
  List.foldlRecOn l f init h0 (fun a ha b hb => hstep a b ha hb)

namespace QrCode

/-- The grid-shape and scalar-field invariant carried through the phases
(the mask field is allowed to change). -/
def GridInv (n v : Nat) (e : ErrorCorrectionLevel) (qr : QrCode) : Prop :=
  Shaped n qr.modules ∧ Shaped n qr.isFunction ∧ qr.version = v ∧ qr.errorCorrection = e

theorem GridInv.setMod {n v : Nat} {e : ErrorCorrectionLevel} {qr : QrCode}
    (h : GridInv n v e qr) (r c : Nat) (b : Bool) : GridInv n v e (qr.setMod r c b) :=
  ⟨h.1.setCell r c b, h.2.1, h.2.2⟩

theorem GridInv.setFunTrue {n v : Nat} {e : ErrorCorrectionLevel} {qr : QrCode}
    (h : GridInv n v e qr) (r c : Nat) : GridInv n v e (qr.setFunTrue r c) :=
  ⟨h.1, h.2.1.setCell r c true, h.2.2⟩

theorem GridInv.setFunctionModule {n v : Nat} {e : ErrorCorrectionLevel} {qr : QrCode}
    (h : GridInv n v e qr) (r c : Nat) (b : Bool) :
    GridInv n v e (qr.setFunctionModule r c b) := by
  by_cases hb : r < qr.modules.length ∧ c < qr.modules.length
  · rw [show qr.setFunctionModule r c b = (qr.setMod r c b).setFunTrue r c from by
      unfold QrCode.setFunctionModule; simp [hb]]
    exact (h.setMod r c b).setFunTrue r c
  · rw [show qr.setFunctionModule r c b = qr from by
      unfold QrCode.setFunctionModule; simp [hb]]
    exact h

theorem GridInv.ite_setFunctionModule {n v : Nat} {e : ErrorCorrectionLevel} {q : QrCode}
    (p : Prop) (inst : Decidable p) (a b : Nat) (w : Bool) (hq : GridInv n v e q) :
    GridInv n v e (if p then q.setFunctionModule a b w else q) := by
  split
  · exact hq.setFunctionModule a b w
  · exact hq

theorem GridInv.addSeparator {n v : Nat} {e : ErrorCorrectionLevel} {qr : QrCode}
    (h : GridInv n v e qr) (row col : Nat) : GridInv n v e (qr.addSeparator row col) := by
  unfold QrCode.addSeparator
  apply foldl_preserve _ _ _ h
  intro qr' i h' _
  exact (((h'.ite_setFunctionModule _ _ _ _ _).ite_setFunctionModule _ _ _ _
    _).ite_setFunctionModule _ _ _ _ _).ite_setFunctionModule _ _ _ _ _

theorem mapRowAux_length (f : Nat → Bool → Bool) :
    ∀ (c : Nat) (row : List Bool), (mapRowAux f c row).length = row.length := by
  intro c row
  induction row generalizing c with
  | nil => rfl
  | cons v vs ih => simp [mapRowAux, ih]

theorem mapGridAux_length (f : Nat → Nat → Bool → Bool) :
    ∀ (r : Nat) (g : List (List Bool)), (mapGridAux f r g).length = g.length := by
  intro r g
  induction g generalizing r with
  | nil => rfl
  | cons row rest ih => simp [mapGridAux, ih]

theorem mapGridAux_rows {n : Nat} (f : Nat → Nat → Bool → Bool) :
    ∀ (r : Nat) (g : List (List Bool)), (∀ row ∈ g, row.length = n) →
      ∀ row' ∈ mapGridAux f r g, row'.length = n := by
  intro r g
  induction g generalizing r with
  | nil => intro _ row' h'; simp [mapGridAux] at h'
  | cons row rest ih =>
    intro hg row' h'
    rw [show mapGridAux f r (row :: rest) = mapRowAux (f r) 0 row :: mapGridAux f (r + 1) rest
      from rfl, List.mem_cons] at h'
    rcases h' with h' | h'
    · rw [h', mapRowAux_length]
      exact hg row (List.mem_cons_self _ _)
    · exact ih (r + 1) (fun rw0 hm => hg rw0 (List.mem_cons_of_mem _ hm)) row' h'

theorem shaped_mapGridAux {n : Nat} {g : List (List Bool)} (h : Shaped n g)
    (f : Nat → Nat → Bool → Bool) (r : Nat) : Shaped n (mapGridAux f r g) :=
  ⟨by rw [mapGridAux_length]; exact h.1, mapGridAux_rows f r g h.2⟩

theorem GridInv.withMask {n v : Nat} {e : ErrorCorrectionLevel} {qr : QrCode}
    (h : GridInv n v e qr) (m : Nat) : GridInv n v e { qr with mask := m } :=
  ⟨h.1, h.2.1, h.2.2⟩

theorem GridInv.applyMask {n v : Nat} {e : ErrorCorrectionLevel} {qr : QrCode}
    (h : GridInv n v e qr) (m : Nat) : GridInv n v e (qr.applyMask m) :=
  ⟨shaped_mapGridAux h.1 _ 0, h.2.1, h.2.2⟩

theorem GridInv.placeFinderPattern {n v : Nat} {e : ErrorCorrectionLevel} {qr : QrCode}
    (h : GridInv n v e qr) (row col : Nat) : GridInv n v e (qr.placeFinderPattern row col) := by
  unfold QrCode.placeFinderPattern
  apply GridInv.addSeparator
  apply foldl_preserve _ _ _ h
  intro qr' dr h' _
  apply foldl_preserve _ _ _ h'
  intro qr'' dc h'' _
  exact (h''.setMod _ _ _).setFunTrue _ _

theorem GridInv.placeTimingPatterns {n v : Nat} {e : ErrorCorrectionLevel} {qr : QrCode}
    (h : GridInv n v e qr) : GridInv n v e qr.placeTimingPatterns := by
  unfold QrCode.placeTimingPatterns
  apply foldl_preserve _ _ _ h
  intro qr' i h' _
  have step1 : ∀ (q : QrCode) (p : Prop) (inst : Decidable p) (a b : Nat) (w : Bool),
      GridInv n v e q → GridInv n v e (if p then (q.setMod a b w).setFunTrue a b else q) := by
    intro q p inst a b w hq
    split
    · exact (hq.setMod a b w).setFunTrue a b
    · exact hq
  exact step1 _ _ _ _ _ _ (step1 _ _ _ _ _ _ h')

theorem GridInv.placeAlignmentPattern {n v : Nat} {e : ErrorCorrectionLevel} {qr : QrCode}
    (h : GridInv n v e qr) (cr cc : Nat) : GridInv n v e (qr.placeAlignmentPattern cr cc) := by
  unfold QrCode.placeAlignmentPattern
  apply foldl_preserve _ _ _ h
  intro qr' dr h' _
  apply foldl_preserve _ _ _ h'
  intro qr'' dc h'' _
  exact (h''.setMod _ _ _).setFunTrue _ _

theorem GridInv.placeAlignmentPatterns {n v : Nat} {e : ErrorCorrectionLevel} {qr : QrCode}
    (h : GridInv n v e qr) : GridInv n v e qr.placeAlignmentPatterns := by
  unfold QrCode.placeAlignmentPatterns
  apply foldl_preserve _ _ _ h
  intro qr' row h' _
  apply foldl_preserve _ _ _ h'
  intro qr'' col h'' _
  split
  · exact h''
  · exact h''.placeAlignmentPattern _ _

theorem GridInv.reserveFormatArea {n v : Nat} {e : ErrorCorrectionLevel} {qr : QrCode}
    (h : GridInv n v e qr) : GridInv n v e qr.reserveFormatArea := by
  unfold QrCode.reserveFormatArea
  apply foldl_preserve _ _ _ ?_
  · intro qr' i h' _
    exact (h'.setFunTrue _ _).setFunTrue _ _
  · apply foldl_preserve _ _ _ h
    intro qr' i h' _
    split
    · exact (h'.setFunTrue _ _).setFunTrue _ _
    · exact h'

theorem GridInv.placeFunctionPatterns {n v : Nat} {e : ErrorCorrectionLevel} {qr : QrCode}
    (h : GridInv n v e qr) : GridInv n v e qr.placeFunctionPatterns := by
  unfold QrCode.placeFunctionPatterns
  apply GridInv.setFunTrue
  apply GridInv.setMod
  apply GridInv.reserveFormatArea
  have h2 := (((h.placeFinderPattern 0 0).placeFinderPattern (qr.modules.length - 7)
    0).placeFinderPattern 0 (qr.modules.length - 7)).placeTimingPatterns
  split
  · exact h2.placeAlignmentPatterns
  · exact h2

/-- Structural unfolding of one pass of `placeDataLoop` (positive fuel,
positive column). -/
theorem placeDataLoop_succ (cw : List Nat) (tb sz fuel col : Nat) (goingUp : Bool)
    (st : QrCode × Nat) :
    placeDataLoop cw tb sz (fuel + 1) (col + 1) goingUp st =
      placeDataLoop cw tb sz fuel ((if col + 1 = 6 then col + 1 - 1 else col + 1) - 2)
        (!goingUp)
        ((if goingUp then (List.range sz).reverse else List.range sz).foldl
          (fun st row =>
            (List.range 2).foldl
              (fun (st : QrCode × Nat) dc =>
                let c := (if col + 1 = 6 then col + 1 - 1 else col + 1) - dc
                if c < sz ∧ getCellD st.1.isFunction row c = false ∧ st.2 < tb then
                  (st.1.setMod row c (codewordBit cw st.2), st.2 + 1)
                else st)
              st)
          st) := rfl

theorem placeDataLoop_inv {n v : Nat} {e : ErrorCorrectionLevel} (cw : List Nat)
    (tb sz : Nat) : ∀ (fuel col : Nat) (goingUp : Bool) (st : QrCode × Nat),
    GridInv n v e st.1 → GridInv n v e (placeDataLoop cw tb sz fuel col goingUp st).1 := by
  intro fuel
  induction fuel with
  | zero => intro col goingUp st h; exact h
  | succ f ih =>
    intro col goingUp st h
    cases col with
    | zero => exact h
    | succ c =>
      rw [placeDataLoop_succ]
      apply ih
      refine @foldl_preserve _ _ (fun st : QrCode × Nat => GridInv n v e st.1) _ _ _ h ?_
      intro st' row hst' _
      refine @foldl_preserve _ _ (fun st : QrCode × Nat => GridInv n v e st.1) _ _ _ hst' ?_
      intro st'' dc hst'' _
      dsimp only
      split
      all_goals split
      all_goals first
        | exact hst''.setMod _ _ _
        | exact hst''

theorem GridInv.placeDataBits {n v : Nat} {e : ErrorCorrectionLevel} {qr : QrCode}
    (h : GridInv n v e qr) (cw : List Nat) : GridInv n v e (qr.placeDataBits cw) := by
  unfold QrCode.placeDataBits
  exact placeDataLoop_inv cw _ _ _ _ _ _ h

end QrCode

namespace QrCode

theorem GridInv.bestMaskStep {n v : Nat} {e : ErrorCorrectionLevel}
    {st : QrCode × Nat × Nat} (h : GridInv n v e st.1) (m : Nat) :
    GridInv n v e (QrCode.bestMaskStep st m).1 :=
  (h.applyMask m).applyMask m

theorem GridInv.applyBestMask {n v : Nat} {e : ErrorCorrectionLevel} {qr : QrCode}
    (h : GridInv n v e qr) : GridInv n v e qr.applyBestMask := by
  unfold QrCode.applyBestMask
  apply GridInv.applyMask
  apply GridInv.withMask
  refine @foldl_preserve _ _ (fun st : QrCode × Nat × Nat => GridInv n v e st.1)
    QrCode.bestMaskStep _ _ h ?_
  intro st' m hst' _
  exact hst'.bestMaskStep m

theorem GridInv.placeFormatInfo {n v : Nat} {e : ErrorCorrectionLevel} {qr : QrCode}
    (h : GridInv n v e qr) : GridInv n v e qr.placeFormatInfo := by
  unfold QrCode.placeFormatInfo
  apply foldl_preserve
  · apply foldl_preserve
    · apply GridInv.setMod
      apply GridInv.setMod
      apply GridInv.setMod
      apply foldl_preserve
      · exact h
      · intro qr' i h' _
        exact (h'.setMod _ _ _).setMod _ _ _
    · intro qr' i h' _
      exact h'.setMod _ _ _
  · intro qr' i h' _
    exact h'.setMod _ _ _

theorem GridInv.placeVersionInfo {n v : Nat} {e : ErrorCorrectionLevel} {qr : QrCode}
    (h : GridInv n v e qr) : GridInv n v e qr.placeVersionInfo := by
  unfold QrCode.placeVersionInfo
  apply foldl_preserve
  · exact h
  · intro qr' i h' _
    exact (h'.setMod _ _ _).setMod _ _ _

theorem emptyQr_inv (v : Nat) (e : ErrorCorrectionLevel) :
    GridInv (v * 4 + 17) v e (QrCode.emptyQr v e) := by
  have hs : Shaped (v * 4 + 17)
      (List.replicate (v * 4 + 17) (List.replicate (v * 4 + 17) false)) := by
    constructor
    · simp
    · intro row hrow
      rw [List.eq_of_mem_replicate hrow]
      simp
  exact ⟨hs, hs, rfl, rfl⟩

theorem encode_ok_inv (data : List Nat) (e : ErrorCorrectionLevel) (qr : QrCode)
    (h : QrCode.encode data e = .ok qr) :
    ∃ v, findMinVersion data.length e = .ok v ∧ GridInv (v * 4 + 17) v e qr := by
  unfold QrCode.encode at h
  cases hfv : findMinVersion data.length e with
  | error s => rw [hfv] at h; simp at h
  | ok v =>
    rw [hfv] at h
    injection h with h
    subst h
    refine ⟨v, rfl, ?_⟩
    have h4 := ((((emptyQr_inv v e).placeFunctionPatterns).placeDataBits
      (addErrorCorrection (encodeData data v e) v e)).applyBestMask).placeFormatInfo
    split
    · exact h4.placeVersionInfo
    · exact h4

theorem applyMask_mask (qr : QrCode) (m : Nat) : (qr.applyMask m).mask = qr.mask := rfl

theorem bestMaskStep_lt {st : QrCode × Nat × Nat} (h : st.2.1 < 8) {m : Nat} (hm : m < 8) :
    (QrCode.bestMaskStep st m).2.1 < 8 := by
  unfold QrCode.bestMaskStep
  dsimp only
  split
  · exact hm
  · exact h

theorem applyBestMask_mask_lt (qr : QrCode) : qr.applyBestMask.mask < 8 := by
  simp only [QrCode.applyBestMask, QrCode.applyMask_mask]
  exact @foldl_preserve _ _ (fun st : QrCode × Nat × Nat => st.2.1 < 8)
    QrCode.bestMaskStep (List.range 8) (qr, 0, 4294967295)
    (show (0 : Nat) < 8 by omega)
    (fun st m hst hm => bestMaskStep_lt hst (List.mem_range.mp hm))

end QrCode

/-! ### Version selection (C4) -/

theorem capSelect_le_cap40 :
    ∀ (e : ErrorCorrectionLevel) (i : Nat), i < 40 →
      capSelect (capacities.getD i (0, 0, 0, 0)) e ≤ byteCapacity 40 e := by
  intro e
  cases e <;> decide

theorem findMinVersionAux_error (n : Nat) (e : ErrorCorrectionLevel) :
    ∀ (l : List (Nat × Nat × Nat × Nat)) (idx : Nat),
      (∀ cap ∈ l, capSelect cap e < n) →
      findMinVersionAux n e l idx = .error "Data too large for QR code" := by
  intro l
  induction l with
  | nil => intro idx _; rfl
  | cons cap rest ih =>
    intro idx h
    unfold findMinVersionAux
    rw [if_neg (by have := h cap (List.mem_cons_self _ _); omega)]
    exact ih _ (fun c hc => h c (List.mem_cons_of_mem _ hc))

theorem findMinVersionAux_ok_exists (n : Nat) (e : ErrorCorrectionLevel) :
    ∀ (l : List (Nat × Nat × Nat × Nat)) (idx : Nat),
      (∃ cap ∈ l, n ≤ capSelect cap e) →
      ∃ v, findMinVersionAux n e l idx = .ok v := by
  intro l
  induction l with
  | nil => intro idx h; simp at h
  | cons cap rest ih =>
    intro idx h
    unfold findMinVersionAux
    by_cases hc : n ≤ capSelect cap e
    · exact ⟨idx + 1, by rw [if_pos hc]⟩
    · rw [if_neg hc]
      apply ih
      rcases h with ⟨c, hm, hcc⟩
      rw [List.mem_cons] at hm
      rcases hm with hm | hm
      · exact absurd (hm ▸ hcc) hc
      · exact ⟨c, hm, hcc⟩

theorem findMinVersionAux_ok (n : Nat) (e : ErrorCorrectionLevel) :
    ∀ (l : List (Nat × Nat × Nat × Nat)) (idx v : Nat),
      findMinVersionAux n e l idx = .ok v →
      idx < v ∧ v ≤ idx + l.length ∧
      n ≤ capSelect (l.getD (v - idx - 1) (0, 0, 0, 0)) e ∧
      (∀ j, j < v - idx - 1 → capSelect (l.getD j (0, 0, 0, 0)) e < n) := by
  intro l
  induction l with
  | nil => intro idx v h; simp [findMinVersionAux] at h
  | cons cap rest ih =>
    intro idx v h
    unfold findMinVersionAux at h
    by_cases hc : n ≤ capSelect cap e
    · rw [if_pos hc] at h
      injection h with h
      subst h
      refine ⟨by omega, by rw [List.length_cons]; omega, ?_, ?_⟩
      · have he : idx + 1 - idx - 1 = 0 := by omega
        rw [he]
        simpa using hc
      · intro j hj
        omega
    · rw [if_neg hc] at h
      obtain ⟨h1, h2, h3, h4⟩ := ih (idx + 1) v h
      refine ⟨by omega, by rw [List.length_cons]; omega, ?_, ?_⟩
      · have he : v - idx - 1 = (v - (idx + 1) - 1) + 1 := by omega
        rw [he]
        simpa using h3
      · intro j hj
        cases j with
        | zero => simpa using (by omega : capSelect cap e < n)
        | succ k =>
          have := h4 k (by omega)
          simpa using this

theorem findMinVersion_error_iff (n : Nat) (e : ErrorCorrectionLevel) :
    (∃ s, findMinVersion n e = .error s) ↔ byteCapacity 40 e < n := by
  constructor
  · rintro ⟨s, hs⟩
    by_contra hcon
    push_neg at hcon
    have hmem : capacities.getD 39 (0, 0, 0, 0) ∈ capacities := by decide
    obtain ⟨v, hv⟩ := findMinVersionAux_ok_exists n e capacities 0
      ⟨capacities.getD 39 (0, 0, 0, 0), hmem, hcon⟩
    rw [show findMinVersion n e = findMinVersionAux n e capacities 0 from rfl, hv] at hs
    simp at hs
  · intro h
    refine ⟨_, findMinVersionAux_error n e capacities 0 ?_⟩
    intro cap hcap
    obtain ⟨i, hi, hcapi⟩ := List.mem_iff_getElem.mp hcap
    have hle := capSelect_le_cap40 e i (by simpa using hi)
    have hgd : capacities.getD i (0, 0, 0, 0) = cap := by
      rw [List.getD_eq_getElem?_getD, List.getElem?_eq_getElem hi, hcapi]
      rfl
    rw [← hgd]
    omega

theorem findMinVersion_ok_spec (n : Nat) (e : ErrorCorrectionLevel) (v : Nat)
    (h : findMinVersion n e = .ok v) :
    1 ≤ v ∧ v ≤ 40 ∧ n ≤ byteCapacity v e ∧
      (∀ u, 1 ≤ u → u < v → byteCapacity u e < n) := by
  obtain ⟨h1, h2, h3, h4⟩ := findMinVersionAux_ok n e capacities 0 v h
  refine ⟨by omega, by simpa using h2, ?_, ?_⟩
  · simpa [byteCapacity] using h3
  · intro u hu1 hu2
    have := h4 (u - 1) (by omega)
    simpa [byteCapacity] using this

namespace QrCode

theorem encode_error_iff (data : List Nat) (e : ErrorCorrectionLevel) :
    (∃ s, QrCode.encode data e = .error s) ↔
      (∃ s, findMinVersion data.length e = .error s) := by
  unfold QrCode.encode
  cases h : findMinVersion data.length e <;> simp

theorem encode_ok_of_version (data : List Nat) (e : ErrorCorrectionLevel) (v : Nat)
    (hfv : findMinVersion data.length e = .ok v) :
    ∃ qr, QrCode.encode data e = .ok qr ∧ qr.version = v := by
  unfold QrCode.encode
  rw [hfv]
  refine ⟨_, rfl, ?_⟩
  have h4 := ((((emptyQr_inv v e).placeFunctionPatterns).placeDataBits
    (addErrorCorrection (encodeData data v e) v e)).applyBestMask).placeFormatInfo
  split
  · exact h4.placeVersionInfo.2.2.1
  · exact h4.2.2.1

end QrCode

/-- C4: `encode` fails with the payload-too-large error exactly when the
payload length exceeds the byte-mode capacity of version 40 at the chosen
level (2953 bytes at L); otherwise it succeeds and selects the first
version in 1..40 whose capacity is at least the payload length; in
particular a 14-byte payload at level M selects version 1 and a 15-byte
payload selects version 2. -/
theorem c4_version_selection_and_capacity :
    (∀ (data : List Nat) (e : ErrorCorrectionLevel),
      (∃ s, QrCode.encode data e = .error s) ↔ byteCapacity 40 e < data.length) ∧
    byteCapacity 40 .L = 2953 ∧
    (∀ (data : List Nat) (e : ErrorCorrectionLevel) (qr : QrCode),
      QrCode.encode data e = .ok qr →
      1 ≤ qr.version ∧ qr.version ≤ 40 ∧ data.length ≤ byteCapacity qr.version e ∧
      ∀ u, 1 ≤ u → u < qr.version → byteCapacity u e < data.length) ∧
    (∀ data : List Nat, data.length = 14 →
      ∃ qr, QrCode.encode data .M = .ok qr ∧ qr.version = 1) ∧
    (∀ data : List Nat, data.length = 15 →
      ∃ qr, QrCode.encode data .M = .ok qr ∧ qr.version = 2) := by
  refine ⟨?_, rfl, ?_, ?_, ?_⟩
  · intro data e
    rw [QrCode.encode_error_iff]
    exact findMinVersion_error_iff data.length e
  · intro data e qr h
    obtain ⟨v, hfv, hinv⟩ := QrCode.encode_ok_inv data e qr h
    have hv := findMinVersion_ok_spec _ _ _ hfv
    rw [hinv.2.2.1]
    exact hv
  · intro data hlen
    apply QrCode.encode_ok_of_version
    rw [hlen]
    rfl
  · intro data hlen
    apply QrCode.encode_ok_of_version
    rw [hlen]
    rfl

/-- Witness for C4 at concrete inputs: a 14-byte payload at level M
encodes at version 1. -/
theorem c4_witness :
    ∃ qr, QrCode.encode (List.replicate 14 65) .M = .ok qr ∧ qr.version = 1 :=
  c4_version_selection_and_capacity.2.2.2.1 (List.replicate 14 65) (by simp)

/-- C9: `calculate_format_bits` on the data word
`(ecLevelIndicatorBits << 3) | maskId` — with indicator bits L = 01,
M = 00, Q = 11, H = 10 — yields the standard's BCH(15,5)-protected,
mask-XORed 15-bit values: the three known vectors hold. -/
theorem c9_format_bits_known_vectors :
    (ErrorCorrectionLevel.L.formatInfoBits = 0b01 ∧
     ErrorCorrectionLevel.M.formatInfoBits = 0b00 ∧
     ErrorCorrectionLevel.Q.formatInfoBits = 0b11 ∧
     ErrorCorrectionLevel.H.formatInfoBits = 0b10) ∧
    QrCode.calculateFormatBits 0b00000 = 0b101010000010010 ∧
    QrCode.calculateFormatBits 0b01001 = 0b111001011110011 ∧
    QrCode.calculateFormatBits 0b10000 = 0b001011010001001 := by
  exact ⟨⟨rfl, rfl, rfl, rfl⟩, by rfl, by rfl, by rfl⟩

theorem table_roundtrip_bounded :
    ∀ (e : ErrorCorrectionLevel), ∀ v, v < 41 → 1 ≤ v →
      getDataCodewords v e + (getEcParams v e).1 * (getEcParams v e).2 =
        getTotalCodewords v := by
  intro e
  cases e <;> decide

/-! ### Reed-Solomon output sizing (C6) -/

theorem rsEncodeStep_length (gen rem : List Nat) (byte : Nat) (h : rem ≠ []) :
    (rsEncodeStep gen rem byte).length = rem.length := by
  unfold rsEncodeStep
  have h1 : 1 ≤ rem.length := List.length_pos.mpr h
  simp only [List.length_append, List.length_zipWith, List.length_drop, List.length_tail,
    List.length_cons, List.length_nil]
  omega

theorem reedSolomonEncode_length (data gen : List Nat) (ec : Nat) (h : 1 ≤ ec) :
    (reedSolomonEncode data gen ec).length = ec := by
  unfold reedSolomonEncode
  refine @foldl_preserve _ _ (fun rem : List Nat => rem.length = ec) _ _ _ (by simp) ?_
  intro rem byte hrem _
  rw [rsEncodeStep_length _ _ _ ?_]
  · exact hrem
  · intro hnil
    rw [hnil] at hrem
    simp at hrem
    omega

theorem splitBlocksAux_count (shortLen nb lb : Nat) :
    ∀ (k : Nat) (data : List Nat), (splitBlocksAux shortLen nb lb k data).length = k := by
  intro k
  induction k with
  | zero => intro data; rfl
  | succ m ih => intro data; simp [splitBlocksAux, ih]

theorem splitBlocksAux_sum (shortLen nb lb : Nat) :
    ∀ (k : Nat) (data : List Nat), data.length = k * shortLen + min k lb →
      ((splitBlocksAux shortLen nb lb k data).map List.length).sum = data.length ∧
      ∀ b ∈ splitBlocksAux shortLen nb lb k data, b.length ≤ shortLen + 1 := by
  intro k
  induction k with
  | zero =>
    intro data h
    simp at h
    simp [splitBlocksAux, h]
  | succ m ih =>
    intro data h
    by_cases hm : m < lb
    · have hbl : (if m < lb then 1 else 0) = 1 := if_pos hm
      have hlen : shortLen + 1 ≤ data.length := by
        rw [h]
        have : min (m + 1) lb = m + 1 := by omega
        rw [this]
        have : (m + 1) * shortLen = m * shortLen + shortLen := by ring
        omega
      have hdrop : (data.drop (shortLen + (if m < lb then 1 else 0))).length =
          m * shortLen + min m lb := by
        rw [hbl, List.length_drop, h]
        have h1 : min (m + 1) lb = m + 1 := by omega
        have h2 : min m lb = m := by omega
        have h3 : (m + 1) * shortLen = m * shortLen + shortLen := by ring
        omega
      obtain ⟨ihs, ihb⟩ := ih _ hdrop
      constructor
      · rw [show splitBlocksAux shortLen nb lb (m + 1) data =
          data.take (shortLen + if m < lb then 1 else 0) ::
            splitBlocksAux shortLen nb lb m
              (data.drop (shortLen + if m < lb then 1 else 0)) from rfl]
        rw [List.map_cons, List.sum_cons, ihs, hdrop, List.length_take, hbl, h]
        have h1 : min (m + 1) lb = m + 1 := by omega
        have h2 : min m lb = m := by omega
        have h3 : (m + 1) * shortLen = m * shortLen + shortLen := by ring
        omega
      · intro b hb
        rw [show splitBlocksAux shortLen nb lb (m + 1) data =
          data.take (shortLen + if m < lb then 1 else 0) ::
            splitBlocksAux shortLen nb lb m
              (data.drop (shortLen + if m < lb then 1 else 0)) from rfl,
          List.mem_cons] at hb
        rcases hb with hb | hb
        · rw [hb, List.length_take, hbl]
          omega
        · exact ihb b hb
    · have hbl : (if m < lb then 1 else 0) = 0 := if_neg hm
      have hlen : shortLen ≤ data.length := by
        rw [h]
        have : (m + 1) * shortLen = m * shortLen + shortLen := by ring
        omega
      have hdrop : (data.drop (shortLen + (if m < lb then 1 else 0))).length =
          m * shortLen + min m lb := by
        rw [hbl, List.length_drop, h]
        have h2 : min (m + 1) lb = min m lb := by omega
        have h3 : (m + 1) * shortLen = m * shortLen + shortLen := by ring
        omega
      obtain ⟨ihs, ihb⟩ := ih _ hdrop
      constructor
      · rw [show splitBlocksAux shortLen nb lb (m + 1) data =
          data.take (shortLen + if m < lb then 1 else 0) ::
            splitBlocksAux shortLen nb lb m
              (data.drop (shortLen + if m < lb then 1 else 0)) from rfl]
        rw [List.map_cons, List.sum_cons, ihs, hdrop, List.length_take, hbl, h]
        have h2 : min (m + 1) lb = min m lb := by omega
        have h3 : (m + 1) * shortLen = m * shortLen + shortLen := by ring
        omega
      · intro b hb
        rw [show splitBlocksAux shortLen nb lb (m + 1) data =
          data.take (shortLen + if m < lb then 1 else 0) ::
            splitBlocksAux shortLen nb lb m
              (data.drop (shortLen + if m < lb then 1 else 0)) from rfl,
          List.mem_cons] at hb
        rcases hb with hb | hb
        · rw [hb, List.length_take, hbl]
          omega
        · exact ihb b hb

theorem sum_map_add {α : Type} (l : List α) (f g : α → Nat) :
    (l.map (fun x => f x + g x)).sum = (l.map f).sum + (l.map g).sum := by
  induction l with
  | nil => rfl
  | cons a l ih => simp [ih]; omega

theorem sum_indicator (L : Nat) :
    ∀ k, ((List.range k).map (fun i => if i < L then 1 else 0)).sum = min L k := by
  intro k
  induction k with
  | zero => simp
  | succ m ih =>
    rw [List.range_succ, List.map_append, List.sum_append, ih]
    simp only [List.map_cons, List.map_nil, List.sum_cons, List.sum_nil]
    by_cases hm : m < L
    · rw [if_pos hm]; omega
    · rw [if_neg hm]; omega

theorem filterMap_getElem_length (i : Nat) :
    ∀ bs : List (List Nat),
      (bs.filterMap (fun b => b[i]?)).length =
        (bs.map (fun b => if i < b.length then 1 else 0)).sum := by
  intro bs
  induction bs with
  | nil => rfl
  | cons b rest ih =>
    rw [List.filterMap_cons]
    by_cases hb : i < b.length
    · rw [List.getElem?_eq_getElem hb]
      simp only [List.map_cons, List.sum_cons, List.length_cons, ih, if_pos hb]
      omega
    · rw [List.getElem?_eq_none (by omega)]
      simp only [List.map_cons, List.sum_cons, ih, if_neg hb]
      omega

theorem interleaveData_length (k : Nat) :
    ∀ bs : List (List Nat), (∀ b ∈ bs, b.length ≤ k) →
      ((List.range k).flatMap (fun i => bs.filterMap (fun b => b[i]?))).length =
        (bs.map List.length).sum := by
  intro bs
  induction bs with
  | nil =>
    intro _
    rw [List.length_flatMap]
    have hz : ∀ l : List Nat, (l.map (fun _ => (0 : Nat))).sum = 0 := by
      intro l
      induction l with
      | nil => rfl
      | cons a t iht => simp [iht]
    simp [Function.comp_def, hz (List.range k)]
  | cons b rest ih =>
    intro h
    have hrest := ih (fun b' hb' => h b' (List.mem_cons_of_mem _ hb'))
    rw [List.length_flatMap] at hrest ⊢
    have hsplit : ∀ i : Nat,
        (((b :: rest).filterMap (fun bb => bb[i]?)).length) =
          (if i < b.length then 1 else 0) + ((rest.filterMap (fun bb => bb[i]?)).length) := by
      intro i
      rw [filterMap_getElem_length, filterMap_getElem_length, List.map_cons, List.sum_cons]
    calc ((List.range k).map
          (List.length ∘ fun i => (b :: rest).filterMap fun bb => bb[i]?)).sum
        = ((List.range k).map (fun i =>
            (if i < b.length then 1 else 0) +
              ((rest.filterMap (fun bb => bb[i]?)).length))).sum := by
          apply congrArg
          apply List.map_congr_left
          intro i _
          exact hsplit i
      _ = min b.length k + ((List.range k).map
            (List.length ∘ fun i => rest.filterMap fun bb => bb[i]?)).sum := by
          rw [sum_map_add, sum_indicator]
          rfl
      _ = (List.map List.length (b :: rest)).sum := by
          rw [hrest, List.map_cons, List.sum_cons]
          have : min b.length k = b.length := by
            have := h b (List.mem_cons_self _ _)
            omega
          rw [this]

theorem ecPart_length (ec : Nat) (blocks : List (List Nat)) :
    ((List.range ec).flatMap (fun i => blocks.map (fun b => b.getD i 0))).length =
      ec * blocks.length := by
  rw [List.length_flatMap]
  have : (List.range ec).map (List.length ∘ fun i => blocks.map fun b => b.getD i 0) =
      List.replicate ec blocks.length := by
    rw [List.eq_replicate_iff]
    constructor
    · simp
    · intro x hx
      rw [List.mem_map] at hx
      obtain ⟨i, _, hi⟩ := hx
      rw [← hi]
      simp
  rw [this, List.sum_replicate, smul_eq_mul]

theorem ecParams_pos :
    ∀ (e : ErrorCorrectionLevel), ∀ v, v < 41 → 1 ≤ v →
      1 ≤ (getEcParams v e).1 ∧ 1 ≤ (getEcParams v e).2 := by
  intro e
  cases e <;> decide

/-- C6: the standard table satisfies
`dataCodewords + numBlocks * ecPerBlock = totalCodewords`, and on data of
the standard data-codeword length `add_error_correction` emits exactly
`totalCodewords` bytes. -/
theorem c6_total_codeword_count :
    (∀ (v : Nat) (e : ErrorCorrectionLevel), 1 ≤ v → v ≤ 40 →
      getDataCodewords v e + (getEcParams v e).1 * (getEcParams v e).2 =
        getTotalCodewords v) ∧
    (∀ (v : Nat) (e : ErrorCorrectionLevel) (data : List Nat), 1 ≤ v → v ≤ 40 →
      data.length = getDataCodewords v e →
      (addErrorCorrection data v e).length = getTotalCodewords v) := by
  constructor
  · intro v e h1 h40
    exact table_roundtrip_bounded e v (by omega) h1
  · intro v e data h1 h40 hlen
    have htab := table_roundtrip_bounded e v (by omega) h1
    obtain ⟨hnb, hec⟩ := ecParams_pos e v (by omega) h1
    simp only [addErrorCorrection]
    set nb := (getEcParams v e).1 with hnbd
    set ec := (getEcParams v e).2 with hecd
    set dc := getDataCodewords v e with hdcd
    have hmod : dc % nb < nb := Nat.mod_lt _ (by omega)
    have hdata : data.length = nb * (dc / nb) + min nb (dc % nb) := by
      rw [hlen, Nat.min_eq_right (Nat.le_of_lt hmod)]
      exact (Nat.div_add_mod dc nb).symm
    obtain ⟨hsum, hbound⟩ := splitBlocksAux_sum (dc / nb) nb (dc % nb) nb data hdata
    rw [List.length_append,
      interleaveData_length (dc / nb + 1) _ (fun b hb => by have := hbound b hb; omega),
      ecPart_length, hsum, hlen, List.length_map, splitBlocksAux_count, Nat.mul_comm ec nb]
    exact htab

/-- Witness for C6 at a concrete input: version 1-M data codewords. -/
theorem c6_witness :
    (addErrorCorrection (List.replicate 16 0) 1 .M).length = getTotalCodewords 1 :=
  c6_total_codeword_count.2 1 .M (List.replicate 16 0) (by omega) (by omega) (by decide)

/-! ### Bitstream layout (C5) -/

theorem bitsOf_length (v c : Nat) : (bitsOf v c).length = c := by
  simp [bitsOf]

theorem bitsOf_zero (n : Nat) : bitsOf 0 n = List.replicate n false := by
  unfold bitsOf
  rw [List.eq_replicate_iff]
  constructor
  · simp
  · intro b hb
    rw [List.mem_map] at hb
    obtain ⟨i, _, hi⟩ := hb
    rw [← hi]
    simp

theorem foldl_append_bits (data : List Nat) :
    ∀ bits : List Bool, data.foldl (fun bits byte => bits ++ bitsOf byte 8) bits =
      bits ++ data.flatMap (fun b => bitsOf b 8) := by
  induction data with
  | nil => intro bits; simp
  | cons b rest ih =>
    intro bits
    rw [List.foldl_cons, ih, List.flatMap_cons, List.append_assoc]

theorem padWords_length : ∀ (n : Nat) (t : Bool), (padWords n t).length = n := by
  intro n
  induction n with
  | zero => intro t; rfl
  | succ m ih => intro t; simp [padWords, ih]

theorem padToByte_eq (bits : List Bool) :
    padToByte bits = bits ++ List.replicate ((8 - bits.length % 8) % 8) false := by
  induction bits using padToByte.induct with
  | case1 bits h =>
    rw [padToByte, if_pos h, h]
    simp
  | case2 bits h ih =>
    rw [padToByte, if_neg h, ih, List.append_assoc]
    have harith : (8 - bits.length % 8) % 8 = (8 - (bits ++ [false]).length % 8) % 8 + 1 := by
      rw [List.length_append]
      simp only [List.length_cons, List.length_nil]
      omega
    rw [harith]
    congr 1

theorem bitsToBytes_len8 :
    ∀ (K : Nat) (bits : List Bool), bits.length = 8 * K → (bitsToBytes bits).length = K := by
  intro K
  induction K with
  | zero =>
    intro bits h
    rw [Nat.mul_zero] at h
    rw [List.eq_nil_of_length_eq_zero h]
    rfl
  | succ m ih =>
    intro bits h
    rcases bits with _ | ⟨a1, _ | ⟨a2, _ | ⟨a3, _ | ⟨a4, _ | ⟨a5, _ | ⟨a6, _ |
      ⟨a7, _ | ⟨a8, rest⟩⟩⟩⟩⟩⟩⟩⟩ <;> simp only [List.length_cons, List.length_nil] at h <;>
      try omega
    rw [show bitsToBytes (a1 :: a2 :: a3 :: a4 :: a5 :: a6 :: a7 :: a8 :: rest) =
      byteOfChunk [a1, a2, a3, a4, a5, a6, a7, a8] :: bitsToBytes rest from rfl,
      List.length_cons, ih rest (by omega)]

theorem flatMap_bits_length (data : List Nat) :
    (data.flatMap (fun b => bitsOf b 8)).length = 8 * data.length := by
  induction data with
  | nil => rfl
  | cons b rest ih =>
    rw [List.flatMap_cons, List.length_append, ih, bitsOf_length, List.length_cons]
    omega

theorem header_fits :
    ∀ (e : ErrorCorrectionLevel), ∀ v, v < 41 → 1 ≤ v →
      4 + (if v ≤ 9 then 8 else 16) + 8 * byteCapacity v e ≤ 8 * getDataCodewords v e := by
  intro e
  cases e <;> decide

/-- `encode_data` computes exactly the layout function `specDataLayout`
(written from the words of §4.3 of the specification). -/
theorem encodeData_eq_specDataLayout (data : List Nat) (version : Nat)
    (e : ErrorCorrectionLevel) :
    encodeData data version e = specDataLayout data version e := by
  simp only [encodeData, specDataLayout, List.nil_append, foldl_append_bits, bitsOf_zero,
    padToByte_eq, List.append_assoc, Nat.mul_comm]

/-- C5: `encode_data` produces exactly the §4.3 layout (mode indicator,
count field, data bytes, truncated terminator, bit padding, pad codewords),
and on any payload that fits the chosen version it returns exactly the
standard data-codeword count of bytes; for `"HELLO"` at version 1-M the
first three codewords are `0x40, 0x54, 0x84`. -/
theorem c5_encode_data_layout :
    (∀ (data : List Nat) (version : Nat) (e : ErrorCorrectionLevel),
      encodeData data version e = specDataLayout data version e) ∧
    (∀ (data : List Nat) (version : Nat) (e : ErrorCorrectionLevel),
      1 ≤ version → version ≤ 40 → data.length ≤ byteCapacity version e →
      (encodeData data version e).length = getDataCodewords version e) ∧
    (encodeData helloBytes 1 .M).take 3 = [0x40, 0x54, 0x84] := by
  have heq := encodeData_eq_specDataLayout
  refine ⟨heq, ?_, by rw [heq]; rfl⟩
  intro data version e h1 h40 hcap
  rw [heq]
  simp only [specDataLayout]
  set dc := getDataCodewords version e with hdc
  set cb := (if version ≤ 9 then 8 else 16) with hcb
  have hfits := header_fits e version (by omega) h1
  have hhdr : (bitsOf 0b0100 4 ++ bitsOf data.length cb ++
      data.flatMap (fun b => bitsOf b 8)).length = 4 + cb + 8 * data.length := by
    rw [List.append_assoc, List.length_append, List.length_append, bitsOf_length,
      bitsOf_length, flatMap_bits_length]
    omega
  set header := bitsOf 0b0100 4 ++ bitsOf data.length cb ++
    data.flatMap (fun b => bitsOf b 8) with hhd
  have hhle : header.length ≤ 8 * dc := by
    rw [hhdr]
    omega
  set term := min 4 (8 * dc - header.length) with hterm
  have hatl : (header ++ List.replicate term false).length = header.length + term := by
    rw [List.length_append, List.length_replicate]
  set afterTerm := header ++ List.replicate term false with hat
  have hatle : afterTerm.length ≤ 8 * dc := by
    rw [hatl]
    omega
  have hpadl : (afterTerm ++
      List.replicate ((8 - afterTerm.length % 8) % 8) false).length % 8 = 0 := by
    rw [List.length_append, List.length_replicate]
    omega
  have hpadle : (afterTerm ++
      List.replicate ((8 - afterTerm.length % 8) % 8) false).length ≤ 8 * dc := by
    rw [List.length_append, List.length_replicate]
    omega
  set padded := afterTerm ++ List.replicate ((8 - afterTerm.length % 8) % 8) false
    with hpaddef
  have hK : padded.length = 8 * (padded.length / 8) := by omega
  rw [List.length_append, bitsToBytes_len8 (padded.length / 8) padded hK, padWords_length]
  omega

/-- Witness for C5 at a concrete input. -/
theorem c5_witness :
    encodeData [1, 2, 3] 1 .L = specDataLayout [1, 2, 3] 1 .L ∧
    (encodeData [1, 2, 3] 1 .L).length = getDataCodewords 1 .L :=
  ⟨c5_encode_data_layout.1 [1, 2, 3] 1 .L,
   c5_encode_data_layout.2.1 [1, 2, 3] 1 .L (by omega) (by omega) (by decide)⟩

/-! ### Mask application (C8) -/

namespace QrCode

theorem mapRowAux_get? (fr : Nat → Bool → Bool) :
    ∀ (row : List Bool) (c0 c : Nat),
      (mapRowAux fr c0 row)[c]? = (row[c]?).map (fr (c0 + c)) := by
  intro row
  induction row with
  | nil => intro c0 c; simp [mapRowAux]
  | cons v vs ih =>
    intro c0 c
    cases c with
    | zero => simp [mapRowAux]
    | succ k =>
      rw [show mapRowAux fr c0 (v :: vs) = fr c0 v :: mapRowAux fr (c0 + 1) vs from rfl]
      simp only [List.getElem?_cons_succ]
      rw [ih (c0 + 1) k, show c0 + (k + 1) = c0 + 1 + k by omega]

theorem mapGridAux_get? (f : Nat → Nat → Bool → Bool) :
    ∀ (g : List (List Bool)) (r0 r : Nat),
      (mapGridAux f r0 g)[r]? = (g[r]?).map (mapRowAux (f (r0 + r)) 0) := by
  intro g
  induction g with
  | nil => intro r0 r; simp [mapGridAux]
  | cons row rest ih =>
    intro r0 r
    cases r with
    | zero => simp [mapGridAux]
    | succ k =>
      rw [show mapGridAux f r0 (row :: rest) =
        mapRowAux (f r0) 0 row :: mapGridAux f (r0 + 1) rest from rfl]
      simp only [List.getElem?_cons_succ]
      rw [ih (r0 + 1) k, show r0 + (k + 1) = r0 + 1 + k by omega]

theorem getCell_mapGridAux (f : Nat → Nat → Bool → Bool) (g : List (List Bool)) (r c : Nat) :
    getCell (mapGridAux f 0 g) r c = (getCell g r c).map (f r c) := by
  unfold getCell
  rw [mapGridAux_get?, Nat.zero_add]
  cases g[r]? with
  | none => rfl
  | some row =>
    show (mapRowAux (f r) 0 row)[c]? = (row[c]?).map (f r c)
    rw [mapRowAux_get?, Nat.zero_add]

theorem mapRowAux_invol (fr : Nat → Bool → Bool) (hf : ∀ c v, fr c (fr c v) = v) :
    ∀ (row : List Bool) (c0 : Nat), mapRowAux fr c0 (mapRowAux fr c0 row) = row := by
  intro row
  induction row with
  | nil => intro c0; rfl
  | cons v vs ih =>
    intro c0
    rw [show mapRowAux fr c0 (v :: vs) = fr c0 v :: mapRowAux fr (c0 + 1) vs from rfl,
      show mapRowAux fr c0 (fr c0 v :: mapRowAux fr (c0 + 1) vs) =
        fr c0 (fr c0 v) :: mapRowAux fr (c0 + 1) (mapRowAux fr (c0 + 1) vs) from rfl,
      hf c0 v, ih (c0 + 1)]

theorem mapGridAux_invol (f : Nat → Nat → Bool → Bool) (hf : ∀ r c v, f r c (f r c v) = v) :
    ∀ (g : List (List Bool)) (r0 : Nat), mapGridAux f r0 (mapGridAux f r0 g) = g := by
  intro g
  induction g with
  | nil => intro r0; rfl
  | cons row rest ih =>
    intro r0
    rw [show mapGridAux f r0 (row :: rest) =
        mapRowAux (f r0) 0 row :: mapGridAux f (r0 + 1) rest from rfl,
      show mapGridAux f r0 (mapRowAux (f r0) 0 row :: mapGridAux f (r0 + 1) rest) =
        mapRowAux (f r0) 0 (mapRowAux (f r0) 0 row) ::
          mapGridAux f (r0 + 1) (mapGridAux f (r0 + 1) rest) from rfl,
      mapRowAux_invol (f r0) (hf r0) row 0, ih (r0 + 1)]

theorem applyMask_isFunction (qr : QrCode) (m : Nat) :
    (qr.applyMask m).isFunction = qr.isFunction := rfl

theorem applyMask_involution (qr : QrCode) (m : Nat) :
    (qr.applyMask m).applyMask m = qr := by
  cases qr with
  | mk modules isFunction version errorCorrection mask =>
    unfold QrCode.applyMask
    simp only [QrCode.mk.injEq, and_true]
    simp only [mapGridAux_length]
    apply mapGridAux_invol
    intro r c v
    dsimp only
    split
    · exact Bool.not_not v
    · rfl

/-- C8: every mask application changes no function cell, and applying the
same mask id twice restores the grid exactly. -/
theorem c8_mask_toggles_and_involution :
    ∀ (qr : QrCode) (m : Nat), m ≤ 7 →
      (∀ r c, getCellD qr.isFunction r c = true →
        getCell (qr.applyMask m).modules r c = getCell qr.modules r c) ∧
      (qr.applyMask m).applyMask m = qr := by
  intro qr m _
  constructor
  · intro r c hfun
    rw [show (qr.applyMask m).modules =
      mapGridAux (fun row col v =>
        if row < qr.modules.length ∧ col < qr.modules.length ∧
            getCellD qr.isFunction row col = false ∧ maskBit m row col then !v else v)
        0 qr.modules from rfl]
    rw [getCell_mapGridAux]
    have hcond : ¬ (r < qr.modules.length ∧ c < qr.modules.length ∧
        getCellD qr.isFunction r c = false ∧ maskBit m r c) := by
      intro ⟨_, _, hff, _⟩
      rw [hfun] at hff
      exact Bool.noConfusion hff
    cases getCell qr.modules r c with
    | none => rfl
    | some b =>
      rw [Option.map_some']
      rw [if_neg hcond]
  · exact applyMask_involution qr m

end QrCode

/-- Witness for C8 at a concrete grid state and mask id. -/
theorem c8_witness :
    ((QrCode.emptyQr 1 .L).applyMask 0).applyMask 0 = QrCode.emptyQr 1 .L :=
  (QrCode.c8_mask_toggles_and_involution (QrCode.emptyQr 1 .L) 0 (by omega)).2

/-! ### GF(256) claim (C7) -/

/-- C7: `GF256::mul` satisfies the field contract on bytes — commutative,
associative, distributive over XOR, `mul(a,0) = 0`, `mul(a,1) = a`, no zero
divisors — and the antilog table entries `exp 0 .. exp 254` enumerate each
nonzero byte exactly once. -/
theorem c7_gf256_field_contract :
    (∀ a b, a < 256 → b < 256 → GF256.mul a b = GF256.mul b a) ∧
    (∀ a b c, a < 256 → b < 256 → c < 256 →
      GF256.mul (GF256.mul a b) c = GF256.mul a (GF256.mul b c)) ∧
    (∀ a b c, a < 256 → b < 256 → c < 256 →
      GF256.mul a (b ^^^ c) = GF256.mul a b ^^^ GF256.mul a c) ∧
    (∀ a, GF256.mul a 0 = 0) ∧
    (∀ a, a < 256 → GF256.mul a 1 = a) ∧
    (∀ a b, a < 256 → b < 256 → GF256.mul a b = 0 → a = 0 ∨ b = 0) ∧
    (∀ w, 0 < w → w < 256 → ∃! i, i < 255 ∧ GF256.exp i = w) := by
  refine ⟨?_, ?_, ?_, ?_, ?_, ?_, ?_⟩
  · intro a b _ _
    exact GF256.mul_comm' a b
  · intro a b c ha hb hc
    rw [GF256.mul_eq_mulFast a b ha hb, GF256.mul_eq_mulFast b c hb hc,
      GF256.mul_eq_mulFast _ c (GF256.mulFast_lt a b) hc,
      GF256.mul_eq_mulFast a _ ha (GF256.mulFast_lt b c)]
    exact GF256.mulFast_assoc a b c ha hb hc
  · intro a b c ha hb hc
    rw [GF256.mul_eq_mulFast a (b ^^^ c) ha (GF256.xor_lt_256 b c hb hc),
      GF256.mul_eq_mulFast a b ha hb, GF256.mul_eq_mulFast a c ha hc]
    exact GF256.mulFast_distrib a b c ha hb hc
  · intro a
    exact GF256.mul_zero_right a
  · intro a ha
    rw [GF256.mul_eq_mulFast a 1 ha (by omega)]
    exact GF256.mulFast_one_right a ha
  · intro a b ha hb hmul
    by_contra hcon
    push_neg at hcon
    rw [GF256.mul_eq_mulFast a b ha hb] at hmul
    exact GF256.mulFast_ne_zero a b hcon.1 hcon.2 hmul
  · intro w hw0 hw256
    have hlog := GF256.log_lt_fast w hw256
    refine ⟨GF256.logFast w, ⟨hlog, ?_⟩, ?_⟩
    · rw [GF256.exp_eq_fast _ (by omega)]
      exact GF256.exp_log_fast w hw256 (by omega)
    · intro j hj
      obtain ⟨hjlt, hje⟩ := hj
      rw [GF256.exp_eq_fast j (by omega)] at hje
      rw [← hje, GF256.log_exp_fast j hjlt]

/-- Witness for C7 at concrete bytes. -/
theorem c7_witness :
    GF256.mul 2 3 = GF256.mul 3 2 ∧
    GF256.mul (GF256.mul 2 3) 7 = GF256.mul 2 (GF256.mul 3 7) ∧
    GF256.mul 5 (6 ^^^ 9) = GF256.mul 5 6 ^^^ GF256.mul 5 9 ∧
    GF256.mul 9 1 = 9 ∧
    (GF256.mul 4 5 = 0 → 4 = 0 ∨ 5 = 0) ∧
    (∃! i, i < 255 ∧ GF256.exp i = 7) :=
  ⟨c7_gf256_field_contract.1 2 3 (by omega) (by omega),
   c7_gf256_field_contract.2.1 2 3 7 (by omega) (by omega) (by omega),
   c7_gf256_field_contract.2.2.1 5 6 9 (by omega) (by omega) (by omega),
   c7_gf256_field_contract.2.2.2.2.1 9 (by omega),
   c7_gf256_field_contract.2.2.2.2.2.1 4 5 (by omega) (by omega),
   c7_gf256_field_contract.2.2.2.2.2.2 7 (by omega) (by omega)⟩

/-! ### Symbol shape and bounds (C10) -/

/-- C10: every symbol produced by `encode` is a square of side
`size() = 4·version + 17` (every row has exactly `size()` entries);
`get` yields a value at all in-range indices and yields nothing (the
source panics) for any out-of-range index, rather than clamping. -/
theorem c10_square_shape_and_get_bounds :
    ∀ (data : List Nat) (e : ErrorCorrectionLevel) (qr : QrCode),
      QrCode.encode data e = .ok qr →
      (qr.modules.length = 4 * qr.version + 17 ∧
        ∀ row ∈ qr.modules, row.length = 4 * qr.version + 17) ∧
      (∀ r c, r < qr.size → c < qr.size → (qr.get r c).isSome = true) ∧
      (∀ r c, qr.size ≤ r ∨ qr.size ≤ c → qr.get r c = none) := by
  intro data e qr h
  obtain ⟨v, hfv, hinv⟩ := QrCode.encode_ok_inv data e qr h
  have hver : qr.version = v := hinv.2.2.1
  have hn : qr.modules.length = v * 4 + 17 := hinv.1.1
  have hsize : qr.size = v * 4 + 17 := by
    rw [QrCode.size, hn]
  refine ⟨⟨by rw [hver, hn]; ring, ?_⟩, ?_, ?_⟩
  · intro row hrow
    have := hinv.1.2 row hrow
    rw [hver, this]
    ring
  · intro r c hr hc
    rw [hsize] at hr hc
    rw [QrCode.get, getCell_some hinv.1 r c hr hc]
    rfl
  · intro r c hout
    rw [hsize] at hout
    rw [QrCode.get, getCell_none hinv.1 r c hout]

/-- Every `Except` that is `isOk` is an `ok`. -/
theorem except_isOk_exists {ε α : Type} (x : Except ε α) (h : x.isOk = true) :
    ∃ a, x = .ok a := by
  cases x with
  | error e => simp [Except.isOk, Except.toBool] at h
  | ok a => exact ⟨a, rfl⟩

/-- Witness for C10: the `"HELLO"` encode succeeds and its symbol is a
21 × 21 square. -/
theorem c10_witness :
    ∃ qr, QrCode.encode helloBytes .M = .ok qr ∧
      qr.modules.length = 4 * qr.version + 17 := by
  obtain ⟨qr, hqr⟩ := except_isOk_exists (QrCode.encode helloBytes .M) (by rfl)
  exact ⟨qr, hqr, (c10_square_shape_and_get_bounds helloBytes .M qr hqr).1.1⟩

/-! ### Format-info placement overwrites the dark module (C1) -/

theorem setCell_getD_length (g : List (List Bool)) (r c : Nat) (v : Bool) (r' : Nat) :
    ((setCell g r c v).getD r' []).length = (g.getD r' []).length := by
  rw [List.getD_eq_getElem?_getD, List.getD_eq_getElem?_getD, setCell_get?]
  split
  · cases g[r']? with
    | none => rfl
    | some row => simp
  · rfl

namespace QrCode

theorem getCell_setMod_ne (qr : QrCode) (r c : Nat) (v : Bool) (r' c' : Nat)
    (h : r ≠ r' ∨ c ≠ c') :
    getCell (qr.setMod r c v).modules r' c' = getCell qr.modules r' c' :=
  getCell_setCell_ne qr.modules r c v r' c' h

theorem getCell_setMod_self (qr : QrCode) (r c : Nat) (v : Bool)
    (hr : r < qr.modules.length) (hc : c < (qr.modules.getD r []).length) :
    getCell (qr.setMod r c v).modules r c = some v :=
  getCell_setCell_self qr.modules r c v hr hc

theorem setMod_modules_length (qr : QrCode) (r c : Nat) (v : Bool) :
    (qr.setMod r c v).modules.length = qr.modules.length :=
  setCell_length qr.modules r c v

theorem setMod_getD_length (qr : QrCode) (r c : Nat) (v : Bool) (r' : Nat) :
    ((qr.setMod r c v).modules.getD r' []).length = (qr.modules.getD r' []).length :=
  setCell_getD_length qr.modules r c v r'

/-- In `place_format_info` on a 21 × 21 grid (version 1), the final write
to row 8, column `size - 8 = 13` is the `i = 7` step of the
top-right copy loop, which stores bit 7 of the format bits. -/
theorem placeFormatInfo_get_8_13 (qr : QrCode) (h : Shaped 21 qr.modules) :
    getCell qr.placeFormatInfo.modules 8 13 =
      some (fbBit (calculateFormatBits
        (qr.errorCorrection.formatInfoBits <<< 3 ||| qr.mask)) 7) := by
  have h21 : qr.modules.length = 21 := h.1
  simp only [QrCode.placeFormatInfo, h21]
  rw [show List.range 6 = [0, 1, 2, 3, 4, 5] from rfl,
    show List.range 8 = [0, 1, 2, 3, 4, 5, 6, 7] from rfl,
    show List.range 7 = [0, 1, 2, 3, 4, 5, 6] from rfl]
  simp only [List.foldl_cons, List.foldl_nil]
  norm_num
  rw [getCell_setMod_ne _ _ _ _ _ _ (by omega), getCell_setMod_ne _ _ _ _ _ _ (by omega),
    getCell_setMod_ne _ _ _ _ _ _ (by omega), getCell_setMod_ne _ _ _ _ _ _ (by omega),
    getCell_setMod_ne _ _ _ _ _ _ (by omega), getCell_setMod_ne _ _ _ _ _ _ (by omega),
    getCell_setMod_ne _ _ _ _ _ _ (by omega)]
  rw [getCell_setMod_self]
  · simp only [setMod_modules_length, h21]
    omega
  · simp only [setMod_getD_length]
    rw [h.getD_length 8 (by omega)]
    omega

end QrCode

namespace QrCode

/-- Pass 1 of the concrete `place_data_bits` run: one structural
unfolding of `placeDataLoop`. -/
theorem pdUnfold1 (st : QrCode × Nat) :
    placeDataLoop cwHello 208 21 21 20 true st =
      placeDataLoop cwHello 208 21 20 18 false
        (placeDataStep cwHello 208 21 20 true st) := rfl

/-- Pass 2 of the concrete `place_data_bits` run: one structural
unfolding of `placeDataLoop`. -/
theorem pdUnfold2 (st : QrCode × Nat) :
    placeDataLoop cwHello 208 21 20 18 false st =
      placeDataLoop cwHello 208 21 19 16 true
        (placeDataStep cwHello 208 21 18 false st) := rfl

/-- Pass 3 of the concrete `place_data_bits` run: one structural
unfolding of `placeDataLoop`. -/
theorem pdUnfold3 (st : QrCode × Nat) :
    placeDataLoop cwHello 208 21 19 16 true st =
      placeDataLoop cwHello 208 21 18 14 false
        (placeDataStep cwHello 208 21 16 true st) := rfl

/-- Pass 4 of the concrete `place_data_bits` run: one structural
unfolding of `placeDataLoop`. -/
theorem pdUnfold4 (st : QrCode × Nat) :
    placeDataLoop cwHello 208 21 18 14 false st =
      placeDataLoop cwHello 208 21 17 12 true
        (placeDataStep cwHello 208 21 14 false st) := rfl

/-- Pass 5 of the concrete `place_data_bits` run: one structural
unfolding of `placeDataLoop`. -/
theorem pdUnfold5 (st : QrCode × Nat) :
    placeDataLoop cwHello 208 21 17 12 true st =
      placeDataLoop cwHello 208 21 16 10 false
        (placeDataStep cwHello 208 21 12 true st) := rfl

/-- Pass 6 of the concrete `place_data_bits` run: one structural
unfolding of `placeDataLoop`. -/
theorem pdUnfold6 (st : QrCode × Nat) :
    placeDataLoop cwHello 208 21 16 10 false st =
      placeDataLoop cwHello 208 21 15 8 true
        (placeDataStep cwHello 208 21 10 false st) := rfl

/-- Pass 7 of the concrete `place_data_bits` run: one structural
unfolding of `placeDataLoop`. -/
theorem pdUnfold7 (st : QrCode × Nat) :
    placeDataLoop cwHello 208 21 15 8 true st =
      placeDataLoop cwHello 208 21 14 6 false
        (placeDataStep cwHello 208 21 8 true st) := rfl

/-- Pass 8 of the concrete `place_data_bits` run: one structural
unfolding of `placeDataLoop`. -/
theorem pdUnfold8 (st : QrCode × Nat) :
    placeDataLoop cwHello 208 21 14 6 false st =
      placeDataLoop cwHello 208 21 13 3 true
        (placeDataStep cwHello 208 21 6 false st) := rfl

/-- Pass 9 of the concrete `place_data_bits` run: one structural
unfolding of `placeDataLoop`. -/
theorem pdUnfold9 (st : QrCode × Nat) :
    placeDataLoop cwHello 208 21 13 3 true st =
      placeDataLoop cwHello 208 21 12 1 false
        (placeDataStep cwHello 208 21 3 true st) := rfl

/-- Pass 10 of the concrete `place_data_bits` run: one structural
unfolding of `placeDataLoop`. -/
theorem pdUnfold10 (st : QrCode × Nat) :
    placeDataLoop cwHello 208 21 12 1 false st =
      placeDataLoop cwHello 208 21 11 0 true
        (placeDataStep cwHello 208 21 1 false st) := rfl

/-- The codewords of `"HELLO"` at version 1, level M, with error
correction appended, evaluated. -/
theorem cwHello_eq : addErrorCorrection (encodeData helloBytes 1 .M) 1 .M = cwHello := by
  rw [encodeData_eq_specDataLayout]
  decide

/-- The version-1 level-M function patterns, evaluated. -/
theorem qrHello_funcpats :
    (QrCode.emptyQr 1 .M).placeFunctionPatterns =
      { modules := modsHello0, isFunction := funHello, version := 1, errorCorrection := .M,
        mask := 0 } := by
  decide

/-- Pass 1 of the concrete `place_data_bits` run, evaluated. -/
theorem pdStep1 :
    placeDataStep cwHello 208 21 20 true ({ modules := modsHello0, isFunction := funHello, version := 1, errorCorrection := .M, mask := 0 }, 0) = ({ modules := modsHello1, isFunction := funHello, version := 1, errorCorrection := .M, mask := 0 }, 24) := by
  decide

/-- Pass 2 of the concrete `place_data_bits` run, evaluated. -/
theorem pdStep2 :
    placeDataStep cwHello 208 21 18 false ({ modules := modsHello1, isFunction := funHello, version := 1, errorCorrection := .M, mask := 0 }, 24) = ({ modules := modsHello2, isFunction := funHello, version := 1, errorCorrection := .M, mask := 0 }, 48) := by
  decide

/-- Pass 3 of the concrete `place_data_bits` run, evaluated. -/
theorem pdStep3 :
    placeDataStep cwHello 208 21 16 true ({ modules := modsHello2, isFunction := funHello, version := 1, errorCorrection := .M, mask := 0 }, 48) = ({ modules := modsHello3, isFunction := funHello, version := 1, errorCorrection := .M, mask := 0 }, 72) := by
  decide

/-- Pass 4 of the concrete `place_data_bits` run, evaluated. -/
theorem pdStep4 :
    placeDataStep cwHello 208 21 14 false ({ modules := modsHello3, isFunction := funHello, version := 1, errorCorrection := .M, mask := 0 }, 72) = ({ modules := modsHello4, isFunction := funHello, version := 1, errorCorrection := .M, mask := 0 }, 97) := by
  decide

/-- Pass 5 of the concrete `place_data_bits` run, evaluated. -/
theorem pdStep5 :
    placeDataStep cwHello 208 21 12 true ({ modules := modsHello4, isFunction := funHello, version := 1, errorCorrection := .M, mask := 0 }, 97) = ({ modules := modsHello5, isFunction := funHello, version := 1, errorCorrection := .M, mask := 0 }, 137) := by
  decide

/-- Pass 6 of the concrete `place_data_bits` run, evaluated. -/
theorem pdStep6 :
    placeDataStep cwHello 208 21 10 false ({ modules := modsHello5, isFunction := funHello, version := 1, errorCorrection := .M, mask := 0 }, 137) = ({ modules := modsHello6, isFunction := funHello, version := 1, errorCorrection := .M, mask := 0 }, 177) := by
  decide

/-- Pass 7 of the concrete `place_data_bits` run, evaluated. -/
theorem pdStep7 :
    placeDataStep cwHello 208 21 8 true ({ modules := modsHello6, isFunction := funHello, version := 1, errorCorrection := .M, mask := 0 }, 177) = ({ modules := modsHello7, isFunction := funHello, version := 1, errorCorrection := .M, mask := 0 }, 187) := by
  decide

/-- Pass 8 of the concrete `place_data_bits` run, evaluated. -/
theorem pdStep8 :
    placeDataStep cwHello 208 21 6 false ({ modules := modsHello7, isFunction := funHello, version := 1, errorCorrection := .M, mask := 0 }, 187) = ({ modules := modsHello8, isFunction := funHello, version := 1, errorCorrection := .M, mask := 0 }, 195) := by
  decide

/-- Pass 9 of the concrete `place_data_bits` run, evaluated. -/
theorem pdStep9 :
    placeDataStep cwHello 208 21 3 true ({ modules := modsHello8, isFunction := funHello, version := 1, errorCorrection := .M, mask := 0 }, 195) = ({ modules := modsHello9, isFunction := funHello, version := 1, errorCorrection := .M, mask := 0 }, 203) := by
  decide

/-- Pass 10 of the concrete `place_data_bits` run, evaluated. -/
theorem pdStep10 :
    placeDataStep cwHello 208 21 1 false ({ modules := modsHello9, isFunction := funHello, version := 1, errorCorrection := .M, mask := 0 }, 203) = ({ modules := modsHello10, isFunction := funHello, version := 1, errorCorrection := .M, mask := 0 }, 208) := by
  decide

/-- `place_data_bits` on the concrete version-1 grid, one pass at a time. -/
theorem placeDataBits_hello :
    ({ modules := modsHello0, isFunction := funHello, version := 1, errorCorrection := .M,
       mask := 0 } : QrCode).placeDataBits cwHello = qrHelloPre := by
  rw [show ({ modules := modsHello0, isFunction := funHello, version := 1,
              errorCorrection := .M, mask := 0 } : QrCode).placeDataBits cwHello =
    (placeDataLoop cwHello 208 21 21 20 true
      ({ modules := modsHello0, isFunction := funHello, version := 1, errorCorrection := .M,
         mask := 0 }, 0)).1 from rfl]
  rw [pdUnfold1, pdStep1, pdUnfold2, pdStep2, pdUnfold3, pdStep3, pdUnfold4, pdStep4,
    pdUnfold5, pdStep5, pdUnfold6, pdStep6, pdUnfold7, pdStep7, pdUnfold8, pdStep8,
    pdUnfold9, pdStep9, pdUnfold10, pdStep10]
  rfl

/-- The whole pre-mask pipeline of `encode("HELLO", M)`, evaluated. -/
theorem helloChain_eq :
    (QrCode.emptyQr 1 .M).placeFunctionPatterns.placeDataBits
      (addErrorCorrection (encodeData helloBytes 1 .M) 1 .M) = qrHelloPre := by
  rw [cwHello_eq, qrHello_funcpats, placeDataBits_hello]

/-- The penalty score of mask 0 on the concrete pre-mask grid. -/
theorem penHello0 : (QrCode.applyMask qrHelloPre 0).calculatePenalty = 615 := by
  decide

/-- The penalty score of mask 1 on the concrete pre-mask grid. -/
theorem penHello1 : (QrCode.applyMask qrHelloPre 1).calculatePenalty = 439 := by
  decide

/-- The penalty score of mask 2 on the concrete pre-mask grid. -/
theorem penHello2 : (QrCode.applyMask qrHelloPre 2).calculatePenalty = 624 := by
  decide

/-- The penalty score of mask 3 on the concrete pre-mask grid. -/
theorem penHello3 : (QrCode.applyMask qrHelloPre 3).calculatePenalty = 465 := by
  decide

/-- The penalty score of mask 4 on the concrete pre-mask grid. -/
theorem penHello4 : (QrCode.applyMask qrHelloPre 4).calculatePenalty = 481 := by
  decide

/-- The penalty score of mask 5 on the concrete pre-mask grid. -/
theorem penHello5 : (QrCode.applyMask qrHelloPre 5).calculatePenalty = 466 := by
  decide

/-- The penalty score of mask 6 on the concrete pre-mask grid. -/
theorem penHello6 : (QrCode.applyMask qrHelloPre 6).calculatePenalty = 484 := by
  decide

/-- The penalty score of mask 7 on the concrete pre-mask grid. -/
theorem penHello7 : (QrCode.applyMask qrHelloPre 7).calculatePenalty = 696 := by
  decide

/-- One mask trial, with its `let`s spelled out. -/
theorem bestMaskStep_eq (st : QrCode × Nat × Nat) (m : Nat) :
    bestMaskStep st m = ((st.1.applyMask m).applyMask m,
      if (st.1.applyMask m).calculatePenalty < st.2.2
        then (m, (st.1.applyMask m).calculatePenalty) else st.2) := rfl

/-- Setting the `mask` field sets the `mask` field. -/
theorem mask_set_mask (qr : QrCode) (m : Nat) :
    ({ qr with mask := m } : QrCode).mask = m := rfl

/-- On the concrete `"HELLO"` grid the mask trial selects mask 1 (its
penalty, 439, is the strict minimum of the eight scores). -/
theorem applyBestMask_hello :
    QrCode.applyBestMask qrHelloPre = ({ qrHelloPre with mask := 1 } : QrCode).applyMask 1 := by
  simp only [QrCode.applyBestMask]
  rw [show List.range 8 = [0, 1, 2, 3, 4, 5, 6, 7] from rfl]
  simp only [List.foldl_cons, List.foldl_nil]
  simp only [bestMaskStep_eq, QrCode.applyMask_involution, penHello0, penHello1, penHello2,
    penHello3, penHello4, penHello5, penHello6, penHello7]
  norm_num

/-- C1 counterexample: the final symbol of `encode("HELLO", M)` (version 1,
so `size = 21` and `4·version + 9 = 13`) has a white module at row 8,
column 13: `place_format_info` overwrites the dark module with bit 7 of the
format information, which is 0 for the selected mask 1 at level M. -/
theorem c1_counterexample_hello_M :
    (QrCode.encode helloBytes .M).map (fun qr => qr.get 8 13) = .ok (some false) := by
  have hfv : findMinVersion helloBytes.length .M = .ok 1 := by rfl
  rw [QrCode.encode, hfv]
  show Except.map (fun qr => qr.get 8 13)
    (Except.ok ((((QrCode.emptyQr 1 .M).placeFunctionPatterns.placeDataBits
      (addErrorCorrection (encodeData helloBytes 1 .M) 1 .M)).applyBestMask).placeFormatInfo)) =
    Except.ok (some false)
  rw [helloChain_eq, applyBestMask_hello]
  exact congrArg Except.ok (by decide :
    ((({ qrHelloPre with mask := 1 } : QrCode).applyMask 1).placeFormatInfo).get 8 13 =
      some false)

end QrCode

namespace QrCode

/-- One structural unfolding of `placeDataLoop` at positive fuel and
column, in terms of the named pass `placeDataStep`. -/
theorem placeDataLoop_step (cw : List Nat) (tb sz fuel col : Nat) (goingUp : Bool)
    (st : QrCode × Nat) :
    placeDataLoop cw tb sz (fuel + 1) (col + 1) goingUp st =
      placeDataLoop cw tb sz fuel
        ((if col + 1 = 6 then col + 1 - 1 else col + 1) - 2) (!goingUp)
        (placeDataStep cw tb sz (col + 1) goingUp st) := rfl

/-- `place_data_bits` is its column loop run with `size` fuel. -/
theorem placeDataBits_eq_loop (qr : QrCode) (cw : List Nat) :
    qr.placeDataBits cw =
      (placeDataLoop cw (cw.length * 8) qr.modules.length qr.modules.length
        (qr.modules.length - 1) true (qr, 0)).1 := rfl

/-- `getCellD` is the total reading of `getCell`. -/
theorem getCellD_eq_getCell (g : List (List Bool)) (r c : Nat) :
    getCellD g r c = (getCell g r c).getD false := by
  unfold getCellD getCell
  simp only [List.getD_eq_getElem?_getD]
  cases g[r]? with
  | none => rfl
  | some row => rfl

/-- Writes to a different cell leave a `getCellD` read unchanged. -/
theorem getCellD_setMod_ne (qr : QrCode) (r c : Nat) (v : Bool) (r' c' : Nat)
    (h : r ≠ r' ∨ c ≠ c') :
    getCellD (qr.setMod r c v).modules r' c' = getCellD qr.modules r' c' := by
  rw [getCellD_eq_getCell, getCellD_eq_getCell, getCell_setMod_ne qr r c v r' c' h]

end QrCode

/-- Folding a function that keeps an observation fixed keeps it fixed. -/
theorem foldl_fix {α β γ : Type} (g : α → γ) (f : α → β → α) (l : List β) (init : α)
    (hstep : ∀ a b, b ∈ l → g (f a b) = g a) : g (l.foldl f init) = g init := by
  induction l generalizing init with
  | nil => rfl
  | cons x xs ih =>
    rw [List.foldl_cons, ih]
    · exact hstep init x (List.mem_cons_self x xs)
    · intro a b hb
      exact hstep a b (List.mem_cons_of_mem x hb)

namespace QrCode

/-- A pass of the data-placement loop at column `col` only writes columns
`col` and `col - 1`, so any cell strictly to its right is untouched. -/
theorem placeDataStep_away (cw : List Nat) (tb sz col : Nat) (dir : Bool)
    (st : QrCode × Nat) (r c : Nat) (h : col < c) :
    getCellD (placeDataStep cw tb sz col dir st).1.modules r c =
      getCellD st.1.modules r c := by
  unfold placeDataStep
  refine foldl_fix (fun st : QrCode × Nat => getCellD st.1.modules r c) _ _ _ ?_
  intro a row _
  refine foldl_fix (fun st : QrCode × Nat => getCellD st.1.modules r c) _ _ _ ?_
  intro a' dc _
  dsimp only
  split <;> split
  · exact getCellD_setMod_ne _ _ _ _ _ _ (Or.inr (by omega))
  · rfl
  · exact getCellD_setMod_ne _ _ _ _ _ _ (Or.inr (by omega))
  · rfl

/-- Once the data-placement loop has moved strictly left of a column, the
cells of that column keep their values. -/
theorem placeDataLoop_away (cw : List Nat) (tb sz : Nat) (r c : Nat) :
    ∀ (fuel col : Nat) (dir : Bool) (st : QrCode × Nat), col < c →
      getCellD (placeDataLoop cw tb sz fuel col dir st).1.modules r c =
        getCellD st.1.modules r c := by
  intro fuel
  induction fuel with
  | zero => intro col dir st h; rfl
  | succ f ih =>
    intro col dir st h
    cases col with
    | zero => rfl
    | succ k =>
      rw [placeDataLoop_step, ih _ _ _ (by split <;> omega),
        placeDataStep_away _ _ _ _ _ _ _ _ h]


/-- Phase `f1` of the version-7 function-pattern build, evaluated. -/
theorem e7_f1 :
    (QrCode.emptyQr 7 .L).placeFinderPattern 0 0 =
      { modules := mods7f1, isFunction := fun7f1, version := 7, errorCorrection := .L,
         mask := 0 } := by
  decide

/-- Phase `f2` of the version-7 function-pattern build, evaluated. -/
theorem e7_f2 :
    ({ modules := mods7f1, isFunction := fun7f1, version := 7, errorCorrection := .L, mask := 0 } : QrCode).placeFinderPattern 38 0 =
      { modules := mods7f2, isFunction := fun7f2, version := 7, errorCorrection := .L,
         mask := 0 } := by
  decide

/-- Phase `f3` of the version-7 function-pattern build, evaluated. -/
theorem e7_f3 :
    ({ modules := mods7f2, isFunction := fun7f2, version := 7, errorCorrection := .L, mask := 0 } : QrCode).placeFinderPattern 0 38 =
      { modules := mods7f3, isFunction := fun7f3, version := 7, errorCorrection := .L,
         mask := 0 } := by
  decide

/-- Phase `f4` of the version-7 function-pattern build, evaluated. -/
theorem e7_f4 :
    ({ modules := mods7f3, isFunction := fun7f3, version := 7, errorCorrection := .L, mask := 0 } : QrCode).placeTimingPatterns =
      { modules := mods7f4, isFunction := fun7f4, version := 7, errorCorrection := .L,
         mask := 0 } := by
  decide

/-- Phase `f5` of the version-7 function-pattern build, evaluated. -/
theorem e7_f5 :
    ({ modules := mods7f4, isFunction := fun7f4, version := 7, errorCorrection := .L, mask := 0 } : QrCode).placeAlignmentPatterns =
      { modules := mods7f5, isFunction := fun7f5, version := 7, errorCorrection := .L,
         mask := 0 } := by
  decide

/-- Phase `f6` of the version-7 function-pattern build, evaluated. -/
theorem e7_f6 :
    ({ modules := mods7f5, isFunction := fun7f5, version := 7, errorCorrection := .L, mask := 0 } : QrCode).reserveFormatArea =
      { modules := mods7f6, isFunction := fun7f6, version := 7, errorCorrection := .L,
         mask := 0 } := by
  decide

/-- Phase `f7` of the version-7 function-pattern build, evaluated. -/
theorem e7_f7 :
    (({ modules := mods7f6, isFunction := fun7f6, version := 7, errorCorrection := .L, mask := 0 } : QrCode).setMod 8 37 true).setFunTrue 8 37 =
      { modules := mods7f7, isFunction := fun7f7, version := 7, errorCorrection := .L,
         mask := 0 } := by
  decide

/-- `place_function_patterns` on the empty version-7 grid, evaluated
phase by phase. -/
theorem pf7_eq : (QrCode.emptyQr 7 .L).placeFunctionPatterns = qr7F := by
  simp only [QrCode.placeFunctionPatterns]
  rw [show (QrCode.emptyQr 7 .L).modules.length = 45 from rfl]
  norm_num
  rw [e7_f1, e7_f2, e7_f3, e7_f4]
  rw [if_pos (by decide :
    2 ≤ ({ modules := mods7f4, isFunction := fun7f4, version := 7, errorCorrection := .L,
           mask := 0 } : QrCode).version)]
  rw [e7_f5, e7_f6]
  rw [show (4 * ({ modules := mods7f6, isFunction := fun7f6, version := 7, errorCorrection := .L, mask := 0 } : QrCode).version + 9) = 37 from rfl]
  rw [show (4 * (({ modules := mods7f6, isFunction := fun7f6, version := 7, errorCorrection := .L, mask := 0 } : QrCode).setMod 8 37 true).version + 9) = 37 from rfl]
  rw [e7_f7]
  rfl

/-- Pass 1 of the version-7 all-ones data placement: one structural
unfolding of `placeDataLoop`. -/
theorem pd7Unfold1 (st : QrCode × Nat) :
    placeDataLoop (List.replicate 196 255) 1568 45 45 44 true st =
      placeDataLoop (List.replicate 196 255) 1568 45 44 42 false
        (placeDataStep (List.replicate 196 255) 1568 45 44 true st) := rfl

/-- Pass 2 of the version-7 all-ones data placement: one structural
unfolding of `placeDataLoop`. -/
theorem pd7Unfold2 (st : QrCode × Nat) :
    placeDataLoop (List.replicate 196 255) 1568 45 44 42 false st =
      placeDataLoop (List.replicate 196 255) 1568 45 43 40 true
        (placeDataStep (List.replicate 196 255) 1568 45 42 false st) := rfl

/-- Pass 3 of the version-7 all-ones data placement: one structural
unfolding of `placeDataLoop`. -/
theorem pd7Unfold3 (st : QrCode × Nat) :
    placeDataLoop (List.replicate 196 255) 1568 45 43 40 true st =
      placeDataLoop (List.replicate 196 255) 1568 45 42 38 false
        (placeDataStep (List.replicate 196 255) 1568 45 40 true st) := rfl

/-- Pass 4 of the version-7 all-ones data placement: one structural
unfolding of `placeDataLoop`. -/
theorem pd7Unfold4 (st : QrCode × Nat) :
    placeDataLoop (List.replicate 196 255) 1568 45 42 38 false st =
      placeDataLoop (List.replicate 196 255) 1568 45 41 36 true
        (placeDataStep (List.replicate 196 255) 1568 45 38 false st) := rfl

/-- Pass 5 of the version-7 all-ones data placement: one structural
unfolding of `placeDataLoop`. -/
theorem pd7Unfold5 (st : QrCode × Nat) :
    placeDataLoop (List.replicate 196 255) 1568 45 41 36 true st =
      placeDataLoop (List.replicate 196 255) 1568 45 40 34 false
        (placeDataStep (List.replicate 196 255) 1568 45 36 true st) := rfl

/-- Pass 6 of the version-7 all-ones data placement: one structural
unfolding of `placeDataLoop`. -/
theorem pd7Unfold6 (st : QrCode × Nat) :
    placeDataLoop (List.replicate 196 255) 1568 45 40 34 false st =
      placeDataLoop (List.replicate 196 255) 1568 45 39 32 true
        (placeDataStep (List.replicate 196 255) 1568 45 34 false st) := rfl

/-- Pass 1 of the version-7 all-ones data placement, evaluated. -/
theorem pd7Step1 :
    placeDataStep (List.replicate 196 255) 1568 45 44 true
      ({ modules := mods7f7, isFunction := fun7f7, version := 7, errorCorrection := .L,
         mask := 0 }, 0) =
      ({ modules := mods7d1, isFunction := fun7f7, version := 7, errorCorrection := .L,
         mask := 0 }, 72) := by
  decide

/-- Pass 2 of the version-7 all-ones data placement, evaluated. -/
theorem pd7Step2 :
    placeDataStep (List.replicate 196 255) 1568 45 42 false
      ({ modules := mods7d1, isFunction := fun7f7, version := 7, errorCorrection := .L,
         mask := 0 }, 72) =
      ({ modules := mods7d2, isFunction := fun7f7, version := 7, errorCorrection := .L,
         mask := 0 }, 144) := by
  decide

/-- Pass 3 of the version-7 all-ones data placement, evaluated. -/
theorem pd7Step3 :
    placeDataStep (List.replicate 196 255) 1568 45 40 true
      ({ modules := mods7d2, isFunction := fun7f7, version := 7, errorCorrection := .L,
         mask := 0 }, 144) =
      ({ modules := mods7d3, isFunction := fun7f7, version := 7, errorCorrection := .L,
         mask := 0 }, 196) := by
  decide

/-- Pass 4 of the version-7 all-ones data placement, evaluated. -/
theorem pd7Step4 :
    placeDataStep (List.replicate 196 255) 1568 45 38 false
      ({ modules := mods7d3, isFunction := fun7f7, version := 7, errorCorrection := .L,
         mask := 0 }, 196) =
      ({ modules := mods7d4, isFunction := fun7f7, version := 7, errorCorrection := .L,
         mask := 0 }, 249) := by
  decide

/-- Pass 5 of the version-7 all-ones data placement, evaluated. -/
theorem pd7Step5 :
    placeDataStep (List.replicate 196 255) 1568 45 36 true
      ({ modules := mods7d4, isFunction := fun7f7, version := 7, errorCorrection := .L,
         mask := 0 }, 249) =
      ({ modules := mods7d5, isFunction := fun7f7, version := 7, errorCorrection := .L,
         mask := 0 }, 327) := by
  decide

/-- Pass 6 of the version-7 all-ones data placement, evaluated. -/
theorem pd7Step6 :
    placeDataStep (List.replicate 196 255) 1568 45 34 false
      ({ modules := mods7d5, isFunction := fun7f7, version := 7, errorCorrection := .L,
         mask := 0 }, 327) =
      ({ modules := mods7d6, isFunction := fun7f7, version := 7, errorCorrection := .L,
         mask := 0 }, 415) := by
  decide

/-- C2 counterexample: at version 7 the version-info cell (0, 34) is not
marked function by the matrix-builder phase, and the data placer then
writes a data bit into it (an all-ones payload turns the cell dark even
though it started white). -/
theorem c2_counterexample_v7 :
    getCellD ((QrCode.emptyQr 7 .L).placeFunctionPatterns).isFunction 0 34 = false ∧
    getCellD (((QrCode.emptyQr 7 .L).placeFunctionPatterns).placeDataBits
      (List.replicate 196 255)).modules 0 34 = true := by
  constructor
  · rw [pf7_eq]
    decide
  · rw [pf7_eq]
    rw [placeDataBits_eq_loop]
    rw [show qr7F.modules.length = 45 from rfl,
      show (List.replicate 196 255 : List Nat).length * 8 = 1568 from rfl,
      show (45 : Nat) - 1 = 44 from rfl]
    rw [show (qr7F, 0) =
      (({ modules := mods7f7, isFunction := fun7f7, version := 7, errorCorrection := .L, mask := 0 } : QrCode), 0) from rfl]
    rw [pd7Unfold1, pd7Step1, pd7Unfold2, pd7Step2, pd7Unfold3, pd7Step3, pd7Unfold4,
      pd7Step4, pd7Unfold5, pd7Step5, pd7Unfold6, pd7Step6]
    rw [placeDataLoop_away (List.replicate 196 255) 1568 45 0 34 39 32 true _ (by omega)]
    decide

end QrCode

namespace QrCode

/-- C3 counterexample: around the top-left finder of a version-1 symbol the
separator ring is marked function and white along its edges (cells (7, 6)
and (6, 7)), but its in-bounds corner cell (7, 7), diagonally adjacent to
the 7 × 7 finder region, is never marked: `add_separator` clamps its loop
index with `i.min(6)` and so writes the cell at offset 6 twice instead of
reaching offset 7. -/
theorem c3_counterexample_separator_corner :
    getCellD ((QrCode.emptyQr 1 .M).placeFunctionPatterns).isFunction 7 6 = true ∧
    getCellD ((QrCode.emptyQr 1 .M).placeFunctionPatterns).modules 7 6 = false ∧
    getCellD ((QrCode.emptyQr 1 .M).placeFunctionPatterns).isFunction 6 7 = true ∧
    getCellD ((QrCode.emptyQr 1 .M).placeFunctionPatterns).modules 6 7 = false ∧
    getCellD ((QrCode.emptyQr 1 .M).placeFunctionPatterns).isFunction 7 7 = false := by
  rw [qrHello_funcpats]
  decide

end QrCode
